import Mathlib

/-!
# Jarvis: gesture interpretation pipeline

A shallow embedding of `HandGestureDetector.js` (classifier, distance mapper,
per-frame `onResults`), of the callbacks and keyboard shortcuts of `app.js`, and of the
scale, smoothing and texture-sampling arithmetic of `EarthRenderer.js`.

Conventions of the embedding:

* JavaScript numbers are elements of an arbitrary linearly ordered field `α`
  (exact arithmetic: `ℚ` for evaluation, `ℝ` for the Euclidean reading).
  `NaN` and infinities are outside the model. Rounding is explicit where a property
  depends on it: `detectHandNumberRounded` takes the rounding `fl` as a parameter, and
  `roundDouble` is round-to-nearest-even to 53 bits.
* `Math.sqrt` is a library function; it is a parameter `sqrt : α → α`. The other `Math`
  functions `createEarth` uses are the fields of a parameter `JsMath α`; `Math.floor` and
  `Math.round` are `Int.floor`.
* A landmark array is a `List`; reading `landmarks[i].x` at a missing index
  throws a `TypeError` in the source, which is `none` here.
* Canvas drawing is kept only for its failure behaviour.
* A renderer method that can throw returns a `Run`: the state it leaves and whether an
  exception is leaving it. `setMode` throws while `earth` is `null`; a handler stops at the
  first call that throws (`runEffects`).
-/

namespace Jarvis

/-! ## Data model -/

/-- One hand keypoint, as delivered by the landmark source (`z` is never read). -/
structure Landmark (α : Type) where
  x : α
  y : α
deriving DecidableEq, Repr

/-- The landmark array of one hand. -/
abbrev Hand (α : Type) := List (Landmark α)

/-! ## `detectHandNumber` -/

section Classifier

variable {α : Type} [LinearOrderedField α]

/-- Source constant `const fingerTips = [8, 12, 16, 20]`. -/
def fingerTips : List Nat := [8, 12, 16, 20]

/-- Source constant `const fingerBases = [6, 10, 14, 18]`. -/
def fingerBases : List Nat := [6, 10, 14, 18]

/-- Source constant `const thumbTip = 4`. -/
def thumbTip : Nat := 4

/-- Source constant `const thumbBase = 2`. -/
def thumbBase : Nat := 2

/-- Body of the loop `for (let i = 0; i < 4; i++)`: the value pushed for finger `i`,
`landmarks[fingerTips[i]].y < landmarks[fingerBases[i]].y - 0.02`. -/
def fingerExtendedAt (landmarks : Hand α) (i : Nat) : Option Bool := do
  let tipIdx ← fingerTips[i]?
  let baseIdx ← fingerBases[i]?
  let tip ← landmarks[tipIdx]?
  let base ← landmarks[baseIdx]?
  pure (decide (tip.y < base.y - 0.02))

/-- The loop `for (let i = 0; i < 4; i++) fingersExtended.push(...)`, run over the
remaining values of `i`; the result lists the pushed values in order. -/
def pushFingers (landmarks : Hand α) : List Nat → Option (List Bool)
  | [] => some []
  | i :: rest => do
    let e ← fingerExtendedAt landmarks i
    let es ← pushFingers landmarks rest
    pure (e :: es)

/-- The chain of `if (...) return k;` statements that ends `detectHandNumber`. -/
def strictNumber (thumbExtended : Bool) (fingersExtended : List Bool) : Nat :=
  let extendedCount := (fingersExtended.filter (fun e => e)).length
  if extendedCount = 1 ∧ fingersExtended.getD 0 false = true then 1
  else if extendedCount = 2 ∧ fingersExtended.getD 0 false = true
      ∧ fingersExtended.getD 1 false = true then 2
  else if extendedCount = 3 ∧ fingersExtended.getD 0 false = true
      ∧ fingersExtended.getD 1 false = true ∧ fingersExtended.getD 2 false = true then 3
  else if extendedCount = 4 ∧ thumbExtended = false then 4
  else if extendedCount = 4 ∧ thumbExtended = true then 5
  else 0

/-- Method `detectHandNumber(landmarks, isRightHand)`; `none` is the `TypeError` of reading a
coordinate of a missing landmark. The flag `isRightHand` is accepted and never read. -/
def detectHandNumber (landmarks : Hand α) (_isRightHand : Bool) : Option Nat := do
  let tTip ← landmarks[thumbTip]?
  let tBase ← landmarks[thumbBase]?
  let thumbExtended := decide (abs (tTip.x - tBase.x) > 0.04)
  let fingersExtended ← pushFingers landmarks [0, 1, 2, 3]
  pure (strictNumber thumbExtended fingersExtended)

end Classifier

/-! ## `calculateHandDistance` -/

section Distance

variable {α : Type} [LinearOrderedField α]

/-- Method `calculateHandDistance(leftHand, rightHand)`; `none` is the `TypeError` of reading
`.x` of a missing wrist landmark. -/
def calculateHandDistance (sqrt : α → α) (leftHand rightHand : Hand α) : Option α := do
  let leftPoint ← leftHand[0]?
  let rightPoint ← rightHand[0]?
  let dx := abs (leftPoint.x - rightPoint.x)
  let dy := abs (leftPoint.y - rightPoint.y)
  let rawDist := sqrt (dx * dx + dy * dy)
  let minRaw : α := 0.05
  let maxRaw : α := 0.6
  pure (min (max ((rawDist - minRaw) / (maxRaw - minRaw)) 0) 1)

end Distance

/-! ## `drawHandSkeleton` (failure behaviour only) -/

/-- Source constant `const connections = [...]` of `drawHandSkeleton`. -/
def connections : List (Nat × Nat) :=
  [(0, 1), (1, 2), (2, 3), (3, 4),
   (0, 5), (5, 6), (6, 7), (7, 8),
   (0, 9), (9, 10), (10, 11), (11, 12),
   (0, 13), (13, 14), (14, 15), (15, 16),
   (0, 17), (17, 18), (18, 19), (19, 20),
   (5, 9), (9, 13), (13, 17)]

/-- Method `drawHandSkeleton(landmarks, color)`: the canvas strokes are not modelled; the call
throws (`none`) exactly when `landmarks[start].x` or `landmarks[end].x` is read on a
missing landmark for some connection. -/
def drawHandSkeleton {α : Type} (landmarks : Hand α) : Option Unit :=
  if connections.all (fun c => decide (c.1 < landmarks.length) && decide (c.2 < landmarks.length))
  then some () else none

/-! ## `onResults` -/

/-- An entry of `results.multiHandedness`; only `label` is read. -/
structure Handedness where
  label : String
deriving DecidableEq, Repr

/-- The argument of `onResults`: both lists may be missing (`undefined`). -/
structure Results (α : Type) where
  multiHandLandmarks : Option (List (Hand α))
  multiHandedness : Option (List Handedness)

/-- A value of the local variables `leftHand` / `rightHand`: the initial `null`, a
landmark array, or `undefined` when `results.multiHandLandmarks[i]` is out of range. -/
inductive HandRef (α : Type) where
  | null
  | undefined
  | landmarks (hand : Hand α)

/-- JavaScript truthiness of a hand reference (`if (leftHand)`): arrays are truthy,
even empty ones. -/
def HandRef.truthy {α : Type} : HandRef α → Bool
  | .landmarks _ => true
  | _ => false

/-- The test `leftHand !== null`. -/
def HandRef.notNull {α : Type} : HandRef α → Bool
  | .null => false
  | _ => true

/-- The `rightGesture` field of a status report: `null`, the string `'pose'`, or a number. -/
inductive RightGesture where
  | null
  | pose
  | number (n : Nat)
deriving DecidableEq, Repr

/-- The object passed to `onHandsDetected`. -/
structure HandsStatus where
  leftHand : Bool
  rightHand : Bool
  leftNumber : Nat
  rightGesture : RightGesture
  rightOpenness : Nat
deriving DecidableEq, Repr

/-- One invocation of a callback of the detector, with its argument. -/
inductive Call (α : Type) where
  | onDualHandGesture (number : Nat)
  | onHandDistance (distance : α)
  | onHandsDetected (data : HandsStatus)
deriving DecidableEq

/-- The fields of a `HandGestureDetector` that `onResults` reads or writes. A callback field
is `true` when a function is installed there (truthy) and `false` when it is `null` or
`undefined`; what the installed functions do is `dispatch` below. -/
structure HandGestureDetector where
  leftHandGesture : Option String
  rightHandGesture : Option String
  leftHandNumber : Nat
  rightHandOpenness : Nat
  onDualHandGesture : Bool
  onHandDistance : Bool
  onHandsDetected : Bool
deriving DecidableEq, Repr

/-- The state the constructor leaves: no gesture, no callback. -/
def HandGestureDetector.new : HandGestureDetector :=
  { leftHandGesture := none, rightHandGesture := none, leftHandNumber := 0,
    rightHandOpenness := 0, onDualHandGesture := false, onHandDistance := false,
    onHandsDetected := false }

section Interpreter

variable {α : Type} [LinearOrderedField α]

/-- The loop `for (let i = 0; i < results.multiHandedness.length; i++)`, from the current
index on: the first list holds the remaining handedness entries, the second the landmark
arrays from the same index on (so its head is `results.multiHandLandmarks[i]`), the pair is
`(leftHand, rightHand)`. A source label `"Right"` fills `leftHand`, any other label fills
`rightHand`. -/
def identifyHands : List Handedness → List (Hand α) → HandRef α × HandRef α →
    HandRef α × HandRef α
  | [], _, acc => acc
  | entry :: rest, hands, acc =>
    let landmarks : HandRef α :=
      match hands.head? with
      | some hand => .landmarks hand
      | none => .undefined
    identifyHands rest hands.tail
      (if entry.label = "Right" then (landmarks, acc.2) else (acc.1, landmarks))

/-- Statement `if (hand) this.drawHandSkeleton(hand, color)`. -/
def drawIfPresent (hand : HandRef α) : Option Unit :=
  match hand with
  | .landmarks l => drawHandSkeleton l
  | _ => some ()

/-- The block `if (leftHand && rightHand) { ... }`: the state update and the calls it makes. -/
def dualHandBlock (sqrt : α → α) (self : HandGestureDetector)
    (leftHand rightHand : HandRef α) : Option (HandGestureDetector × List (Call α)) :=
  match leftHand, rightHand with
  | .landmarks l, .landmarks r => do
    let leftNum ← detectHandNumber l false
    let rightNum ← detectHandNumber r true
    let self1 := { self with
      leftHandNumber := leftNum
      rightHandGesture := some (if rightNum > 0 then toString rightNum else "open") }
    let modeCalls : List (Call α) :=
      if leftNum > 0 ∧ leftNum = rightNum then
        (if self.onDualHandGesture then [Call.onDualHandGesture leftNum] else [])
      else []
    let distance ← calculateHandDistance sqrt l r
    let zoomCalls : List (Call α) :=
      if self.onHandDistance then [Call.onHandDistance distance] else []
    pure (self1, modeCalls ++ zoomCalls)
  | _, _ => some (self, [])

/-- The value of `leftHand ? this.detectHandNumber(leftHand, false) : 0`. -/
def reportLeftNumber (leftHand : HandRef α) : Option Nat :=
  match leftHand with
  | .landmarks l => detectHandNumber l false
  | _ => some 0

/-- The value of `rightHand ? (this.detectHandNumber(rightHand, true) || 'pose') : null`. -/
def reportRightGesture (rightHand : HandRef α) : Option RightGesture :=
  match rightHand with
  | .landmarks r => do
    let n ← detectHandNumber r true
    pure (if n = 0 then RightGesture.pose else RightGesture.number n)
  | _ => some RightGesture.null

/-- The block `if (this.onHandsDetected) { this.onHandsDetected({...}) }` of the branch
with both lists present. -/
def statusBlock (self : HandGestureDetector) (leftHand rightHand : HandRef α) :
    Option (List (Call α)) :=
  if self.onHandsDetected then do
    let leftNumber ← reportLeftNumber leftHand
    let rightGesture ← reportRightGesture rightHand
    pure [Call.onHandsDetected
      { leftHand := leftHand.notNull, rightHand := rightHand.notNull,
        leftNumber := leftNumber, rightGesture := rightGesture, rightOpenness := 0 }]
  else some []

/-- Method `onResults(results)`: the new detector state and the callback invocations, in order;
`none` when the source throws. -/
def onResults (sqrt : α → α) (self : HandGestureDetector) (results : Results α) :
    Option (HandGestureDetector × List (Call α)) :=
  match results.multiHandLandmarks, results.multiHandedness with
  | some multiHandLandmarks, some multiHandedness => do
    let hands := identifyHands multiHandedness multiHandLandmarks (HandRef.null, HandRef.null)
    let leftHand := hands.1
    let rightHand := hands.2
    drawIfPresent leftHand
    drawIfPresent rightHand
    let (self1, calls) ← dualHandBlock sqrt self leftHand rightHand
    let report ← statusBlock self leftHand rightHand
    pure (self1, calls ++ report)
  | _, _ =>
    some (self,
      if self.onHandsDetected then
        [Call.onHandsDetected
          { leftHand := false, rightHand := false, leftNumber := 0,
            rightGesture := RightGesture.null, rightOpenness := 0 }]
      else [])

end Interpreter

/-! ## The callbacks of `app.js` -/

/-- A call `app.js` makes on the renderer, the UI or the console from inside a callback. -/
inductive AppEffect (α : Type) where
  | consoleLog (message : String)
  | setMode (mode : Nat)
  | updateEarthStatus (mode : Nat)
  | showNotification (message : String) (duration : Nat)
  | setScale (openness : α)
  | updateLeftHand (detected : Bool) (number : Nat)
  | updateRightHand (detected : Bool) (gesture : RightGesture) (openness : Nat)
deriving DecidableEq

/-- Function `setupGestureCallbacks()`, on the detector: the three callbacks are installed (the two
legacy handlers it resets to `null` are not fields `onResults` reads). -/
def setupGestureCallbacks (gestureDetector : HandGestureDetector) : HandGestureDetector :=
  { gestureDetector with onDualHandGesture := true, onHandDistance := true,
                         onHandsDetected := true }

/-- What the installed callbacks do when invoked. -/
def dispatch {α : Type} : Call α → List (AppEffect α)
  | .onDualHandGesture number =>
    AppEffect.consoleLog ("Dual Hand Gesture Matched: " ++ toString number) ::
      (if number ≥ 1 ∧ number ≤ 4 then
        [AppEffect.setMode number, AppEffect.updateEarthStatus number,
         AppEffect.showNotification ("指令确认: 模式 " ++ toString number ++ " 已激活") 1500]
      else [])
  | .onHandDistance normalizedDistance => [AppEffect.setScale normalizedDistance]
  | .onHandsDetected data =>
    [AppEffect.updateLeftHand data.leftHand data.leftNumber,
     AppEffect.updateRightHand data.rightHand data.rightGesture 0]

/-- One frame through the detector with the callbacks of `setupGestureCallbacks`: the calls
made on the renderer, the UI and the console, in order. -/
def frameEffects {α : Type} [LinearOrderedField α] (sqrt : α → α)
    (gestureDetector : HandGestureDetector) (results : Results α) : Option (List (AppEffect α)) :=
  (onResults sqrt (setupGestureCallbacks gestureDetector) results).map
    (fun out => out.2.flatMap dispatch)

/-! ## `EarthRenderer`: scale, mode, zoom read-out -/

/-- The fields of an `EarthRenderer` that `setScale`, `setMode`, `animate` and
`getZoomPercent` read or write. The four object fields are `true` when they hold an
object and `false` when they are `null`. -/
structure EarthRenderer (α : Type) where
  scene : Bool
  camera : Bool
  renderer : Bool
  earth : Bool
  currentMode : Nat
  targetScale : α
  currentScale : α
  MIN_SCALE : α
  MAX_SCALE : α

/-- The outcome of code run on the renderer that may throw: the state it leaves, and whether
an exception is leaving it. -/
structure Run (α : Type) where
  state : EarthRenderer α
  threw : Bool

section Renderer

variable {α : Type} [LinearOrderedField α]

/-- The state the constructor leaves once `init()` has created scene, camera and
renderer: `earth` is still `null`, it is assigned only when the texture requested by
`createEarth` has loaded. -/
def EarthRenderer.new : EarthRenderer α :=
  { scene := true, camera := true, renderer := true, earth := false, currentMode := 1,
    targetScale := 1, currentScale := 1, MIN_SCALE := 0.6, MAX_SCALE := 2.8 }

/-- The assignment `this.earth = new THREE.Points(geometry, material)` made by the load
callback of `createEarth`. -/
def EarthRenderer.earthLoaded (self : EarthRenderer α) : EarthRenderer α :=
  { self with earth := true }

/-- Method `setScale(openness)`. -/
def EarthRenderer.setScale (self : EarthRenderer α) (openness : α) : EarthRenderer α :=
  let val := max 0 (min 1 openness)
  { self with targetScale := self.MIN_SCALE + val * (self.MAX_SCALE - self.MIN_SCALE) }

/-- Method `setMode(mode)`, on the modelled fields: `currentMode` is assigned first; then
`disposeOldTextures()` reads `this.earth.material`, which throws a `TypeError` while
`this.earth` is `null`. The change of textures and scene objects is not modelled. -/
def EarthRenderer.setMode (self : EarthRenderer α) (mode : Nat) : Run α :=
  { state := { self with currentMode := mode }, threw := !self.earth }

/-- One run of `animate()`, on the modelled fields: nothing happens while renderer, scene or
camera is missing; otherwise `currentScale += (targetScale - currentScale) * 0.1`. The
rotation, the copy of the scale to the meshes and the render call are not modelled. -/
def EarthRenderer.animate (self : EarthRenderer α) : EarthRenderer α :=
  if !self.renderer || !self.scene || !self.camera then self
  else { self with currentScale := self.currentScale +
                      (self.targetScale - self.currentScale) * 0.1 }

/-- Method `getZoomPercent()`: `Math.round(this.currentScale * 100)`, rounding half up. -/
def EarthRenderer.getZoomPercent [FloorRing α] (self : EarthRenderer α) : Int :=
  Int.floor (self.currentScale * 100 + 0.5)

/-- What a call made by `app.js` does to the renderer; calls on the UI and the console leave
it unchanged and do not throw. -/
def applyEffect (earthRenderer : EarthRenderer α) : AppEffect α → Run α
  | .setMode mode => earthRenderer.setMode mode
  | .setScale openness => { state := earthRenderer.setScale openness, threw := false }
  | _ => { state := earthRenderer, threw := false }

/-- A sequence of calls made in order by one handler: an exception thrown by a call leaves
the handler, so the calls after it are not made. -/
def runEffects (earthRenderer : EarthRenderer α) : List (AppEffect α) → Run α
  | [] => { state := earthRenderer, threw := false }
  | effect :: rest =>
    if (applyEffect earthRenderer effect).threw then applyEffect earthRenderer effect
    else runEffects (applyEffect earthRenderer effect).state rest

/-- The renderer after a sequence of calls. -/
def applyEffects (earthRenderer : EarthRenderer α) (effects : List (AppEffect α)) :
    EarthRenderer α :=
  (runEffects earthRenderer effects).state

/-- The renderer's `targetScale` after one frame went through detector and callbacks. -/
def targetAfterFrame (sqrt : α → α) (gestureDetector : HandGestureDetector)
    (earthRenderer : EarthRenderer α) (results : Results α) : Option α :=
  (frameEffects sqrt gestureDetector results).map
    (fun effects => (applyEffects earthRenderer effects).targetScale)

/-- Whether an exception thrown inside a callback left `onResults` on this frame. -/
def frameThrows (sqrt : α → α) (gestureDetector : HandGestureDetector)
    (earthRenderer : EarthRenderer α) (results : Results α) : Option Bool :=
  (frameEffects sqrt gestureDetector results).map
    (fun effects => (runEffects earthRenderer effects).threw)

/-- An operation on the renderer. -/
inductive RendererOp (α : Type) where
  | setScale (openness : α)
  | animate
  | setMode (mode : Nat)
  | earthLoaded

/-- The renderer after one operation. -/
def EarthRenderer.step (self : EarthRenderer α) : RendererOp α → EarthRenderer α
  | .setScale openness => self.setScale openness
  | .animate => self.animate
  | .setMode mode => (self.setMode mode).state
  | .earthLoaded => self.earthLoaded

/-- The renderer after a sequence of operations, starting from construction. -/
def runRenderer (ops : List (RendererOp α)) : EarthRenderer α :=
  ops.foldl EarthRenderer.step EarthRenderer.new

end Renderer

/-! ## The keyboard shortcuts of `app.js` -/

/-- The value of `parseInt(key)` for a key that starts with a decimal digit: the number
written by its leading digits. -/
def parseInt (key : String) : Nat :=
  (key.toList.takeWhile Char.isDigit).foldl (fun n c => 10 * n + (c.toNat - '0'.toNat)) 0

/-- Function `getModeNameByNumber(number)`. -/
def getModeNameByNumber (number : Nat) : String :=
  match number with
  | 1 => "标准视图"
  | 2 => "线框模式"
  | 3 => "点云模式"
  | 4 => "全息投影"
  | _ => "未知"

/-- The `keydown` listener, given `event.key`: the calls it makes, in order. -/
def onKeyDown {α : Type} [LinearOrderedField α] (key : String) : List (AppEffect α) :=
  (if "1" ≤ key ∧ key ≤ "4" then
    [AppEffect.setMode (parseInt key), AppEffect.updateEarthStatus (parseInt key),
     AppEffect.showNotification ("键盘切换: " ++ getModeNameByNumber (parseInt key)) 1500]
   else []) ++
  (if key = "+" ∨ key = "=" then [AppEffect.setScale 0] else []) ++
  (if key = "-" ∨ key = "_" then [AppEffect.setScale 1] else [])

/-! ## `createEarth`: the texture sample of a particle -/

/-- The functions and the constant of the JavaScript `Math` object that `createEarth`
uses. -/
structure JsMath (α : Type) where
  PI : α
  sqrt : α → α
  sin : α → α
  cos : α → α
  asin : α → α
  atan2 : α → α → α

section Particles

variable {α : Type} [LinearOrderedField α] [FloorRing α]

/-- The value `y = 1 - (i / (particleCount - 1)) * 2` of particle `i`. -/
def particleY (particleCount i : Nat) : α :=
  1 - ((i : α) / ((particleCount : α) - 1)) * 2

/-- The texture coordinate `u = 0.5 + Math.atan2(z, x) / (2 * Math.PI)` of particle `i`. -/
def particleU (m : JsMath α) (particleCount i : Nat) : α :=
  let phi := m.PI * (3.0 - m.sqrt 5.0)
  let y : α := particleY particleCount i
  let radiusAtY := m.sqrt (1 - y * y)
  let theta := phi * (i : α)
  let x := m.cos theta * radiusAtY
  let z := m.sin theta * radiusAtY
  0.5 + m.atan2 z x / (2 * m.PI)

/-- The texture coordinate `v = 0.5 - Math.asin(y) / Math.PI` of particle `i`. -/
def particleV (m : JsMath α) (particleCount i : Nat) : α :=
  0.5 - m.asin (particleY particleCount i) / m.PI

/-- The pixel column `px = Math.floor(u * canvas.width)`, the canvas being 1024 wide. -/
def particlePx (m : JsMath α) (particleCount i : Nat) : Int :=
  Int.floor (particleU m particleCount i * 1024)

/-- The pixel row `py = Math.floor(v * canvas.height)`, the canvas being 512 high. -/
def particlePy (m : JsMath α) (particleCount i : Nat) : Int :=
  Int.floor (particleV m particleCount i * 512)

/-- The buffer position `index = (py * canvas.width + px) * 4` of the sampled pixel. -/
def particleIndex (m : JsMath α) (particleCount i : Nat) : Int :=
  (particlePy m particleCount i * 1024 + particlePx m particleCount i) * 4

end Particles

/-- The length `1024 * 512 * 4` of `imgData.data`. -/
def imageDataLength : Int := 1024 * 512 * 4

/-- A stand-in for `Math` over `ℚ` that meets the boundary facts used below: `PI = 3`,
`asin(y) = 3y/2` (so `asin(-1) = -PI/2`), `atan2 = 0`. -/
def toyMath : JsMath ℚ :=
  { PI := 3, sqrt := Rat.sqrt, sin := fun _ => 0, cos := fun _ => 1,
    asin := fun y => y * 3 / 2, atan2 := fun _ _ => 0 }

/-! ## Reading the claims: finger and thumb tests -/

section Readings

variable {α : Type} [LinearOrderedField α]

/-- A finger is extended: its tip is above its base by more than the margin `0.02`
(smaller `y` is higher in the image). False when either landmark is missing. -/
def tipAboveBase (landmarks : Hand α) (tip base : Nat) : Bool :=
  match landmarks[tip]?, landmarks[base]? with
  | some t, some b => decide (t.y < b.y - 0.02)
  | _, _ => false

/-- Index finger extended (tip 8, base 6). -/
def indexExtended (landmarks : Hand α) : Bool := tipAboveBase landmarks 8 6

/-- Middle finger extended (tip 12, base 10). -/
def middleExtended (landmarks : Hand α) : Bool := tipAboveBase landmarks 12 10

/-- Ring finger extended (tip 16, base 14). -/
def ringExtended (landmarks : Hand α) : Bool := tipAboveBase landmarks 16 14

/-- Pinky extended (tip 20, base 18). -/
def pinkyExtended (landmarks : Hand α) : Bool := tipAboveBase landmarks 20 18

/-- Thumb extended: `|x(landmark 4) − x(landmark 2)|` exceeds `0.04`. -/
def thumbDisplaced (landmarks : Hand α) : Bool :=
  match landmarks[4]?, landmarks[2]? with
  | some t, some b => decide (abs (t.x - b.x) > (0.04 : α))
  | _, _ => false

/-- The digit the strict matching assigns to the five tests of a hand. -/
def digit (landmarks : Hand α) : Nat :=
  strictNumber (thumbDisplaced landmarks)
    [indexExtended landmarks, middleExtended landmarks, ringExtended landmarks,
     pinkyExtended landmarks]

/-- Clamping as the specification words it: values below `lo` go to `lo`, values above
`hi` go to `hi`, the others are kept. -/
def clamp (v lo hi : α) : α :=
  if v < lo then lo else if hi < v then hi else v

/-- The distance mapper as the specification words it: the Euclidean distance of two
wrist points, rescaled from `[0.05, 0.6]` to `[0, 1]` and clamped. -/
def mapDistance (sqrt : α → α) (wristA wristB : Landmark α) : α :=
  clamp ((sqrt ((wristA.x - wristB.x) ^ 2 + (wristA.y - wristB.y) ^ 2) - 0.05) / (0.6 - 0.05))
    0 1

/-- A hand reference is well formed when it is not an array or is an array of 21 landmarks. -/
def HandRef.Ok : HandRef α → Prop
  | .landmarks l => l.length = 21
  | _ => True

/-- A frame is well formed when every landmark array it carries has 21 landmarks. -/
def Results.WellFormed (results : Results α) : Prop :=
  match results.multiHandLandmarks with
  | some hands => ∀ h ∈ hands, h.length = 21
  | none => True

/-- The pair `(leftHand, rightHand)` that `onResults` extracts from a frame. -/
def Results.hands (results : Results α) : HandRef α × HandRef α :=
  match results.multiHandLandmarks, results.multiHandedness with
  | some multiHandLandmarks, some multiHandedness =>
    identifyHands multiHandedness multiHandLandmarks (HandRef.null, HandRef.null)
  | _, _ => (HandRef.null, HandRef.null)

/-- A frame as the landmark source builds it: parallel arrays, one labelled hand per
entry. -/
def frameOf (entries : List (String × Hand α)) : Results α :=
  { multiHandLandmarks := some (entries.map Prod.snd),
    multiHandedness := some (entries.map (fun e => Handedness.mk e.1)) }

/-- The digit reported for a hand reference: `0` when it is not an array. -/
def HandRef.digit : HandRef α → Nat
  | .landmarks l => Jarvis.digit l
  | _ => 0

/-- The `rightGesture` reported for a hand reference. -/
def HandRef.gesture : HandRef α → RightGesture
  | .landmarks l =>
    if Jarvis.digit l = 0 then RightGesture.pose else RightGesture.number (Jarvis.digit l)
  | _ => RightGesture.null

/-- The status report `onResults` builds from the two hand references. -/
def statusOf (leftHand rightHand : HandRef α) : HandsStatus :=
  { leftHand := leftHand.notNull, rightHand := rightHand.notNull,
    leftNumber := leftHand.digit, rightGesture := rightHand.gesture, rightOpenness := 0 }

/-- The call is an `onDualHandGesture` invocation. -/
def Call.isMode : Call α → Bool
  | .onDualHandGesture _ => true
  | _ => false

/-- The call is an `onHandDistance` invocation. -/
def Call.isZoom : Call α → Bool
  | .onHandDistance _ => true
  | _ => false

/-- The call is an `onHandsDetected` invocation. -/
def Call.isStatus : Call α → Bool
  | .onHandsDetected _ => true
  | _ => false

end Readings

/-- A 21-landmark hand over `ℚ`: wrist `w`, thumb base at `x = 0`, thumb tip at
`x = thumbX`, every finger base at `y = 1/2`, finger tips at the given heights. -/
def poseHand (w : Landmark ℚ) (thumbX iY mY rY pY : ℚ) : Hand ℚ :=
  [w, ⟨0, 0⟩, ⟨0, 0⟩, ⟨0, 0⟩, ⟨thumbX, 0⟩,
   ⟨0, 0⟩, ⟨0, 1/2⟩, ⟨0, 0⟩, ⟨0, iY⟩,
   ⟨0, 0⟩, ⟨0, 1/2⟩, ⟨0, 0⟩, ⟨0, mY⟩,
   ⟨0, 0⟩, ⟨0, 1/2⟩, ⟨0, 0⟩, ⟨0, rY⟩,
   ⟨0, 0⟩, ⟨0, 1/2⟩, ⟨0, 0⟩, ⟨0, pY⟩]

/-- Index and middle up, thumb in: digit 2; wrist at the origin. -/
def twoHand : Hand ℚ := poseHand ⟨0, 0⟩ 0 0 0 1 1

/-- The same pose with the wrist at `(3/10, 4/10)`. -/
def twoHandFar : Hand ℚ := poseHand ⟨3/10, 4/10⟩ 0 0 0 1 1

/-- All four fingers up and thumb out: digit 5; wrist at the origin. -/
def openHand : Hand ℚ := poseHand ⟨0, 0⟩ 1 0 0 0 0

/-- The open hand with the wrist at `(3/10, 4/10)`. -/
def openHandFar : Hand ℚ := poseHand ⟨3/10, 4/10⟩ 1 0 0 0 0

/-- Both hands show 2. -/
def bothTwoFrame : Results ℚ := frameOf [("Right", twoHand), ("Left", twoHandFar)]

/-- Both hands are open (digit 5). -/
def bothOpenFrame : Results ℚ := frameOf [("Right", openHand), ("Left", openHandFar)]

/-- The user's left hand shows 2 and the right hand is open: the digits disagree. -/
def mixedFrame : Results ℚ := frameOf [("Right", twoHand), ("Left", openHandFar)]

/-- A single hand, labelled `"Right"` by the source, showing 2. -/
def rightOnlyFrame : Results ℚ := frameOf [("Right", twoHand)]

section MoreReadings

variable {α : Type} [LinearOrderedField α]

/-- The raw Euclidean distance of two wrist points, `sqrt((xA − xB)² + (yA − yB)²)`. -/
def rawDistance (sqrt : α → α) (wristA wristB : Landmark α) : α :=
  sqrt ((wristA.x - wristB.x) ^ 2 + (wristA.y - wristB.y) ^ 2)

/-- Horizontal mirroring of a landmark: `x` becomes `1 − x`, `y` is kept. -/
def mirror (p : Landmark α) : Landmark α := ⟨1 - p.x, p.y⟩

/-- Horizontal mirroring of a hand, landmark by landmark. -/
def mirrorHand (landmarks : Hand α) : Hand α := landmarks.map mirror

/-- A hand reference that is not an array, or is an array of at least 21 landmarks. -/
def HandRef.Full : HandRef α → Prop
  | .landmarks l => 21 ≤ l.length
  | _ => True

/-- Every landmark array of the frame has at least 21 landmarks. -/
def Results.Full (results : Results α) : Prop :=
  match results.multiHandLandmarks with
  | some hands => ∀ h ∈ hands, 21 ≤ h.length
  | none => True

end MoreReadings

/-- Two detectors have the same callbacks installed; their stored gesture fields may
differ. -/
def sameCallbacks (d1 d2 : HandGestureDetector) : Prop :=
  d1.onDualHandGesture = d2.onDualHandGesture ∧ d1.onHandDistance = d2.onHandDistance ∧
    d1.onHandsDetected = d2.onHandsDetected

/-- A fist (no finger up, thumb in): digit 0; wrist at the origin. -/
def fistHand : Hand ℚ := poseHand ⟨0, 0⟩ 0 1 1 1 1

/-- The two-finger hand with its last landmark missing: 20 landmarks. -/
def shortHand : Hand ℚ := twoHand.take 20

/-- The two-finger hand with one landmark too many: 22 landmarks. -/
def longHand : Hand ℚ := twoHand ++ [⟨0, 0⟩]

/-- A frame whose only hand has 20 landmarks. -/
def shortFrame : Results ℚ := frameOf [("Right", shortHand)]

/-- A frame whose only hand has 22 landmarks. -/
def longFrame : Results ℚ := frameOf [("Right", longHand)]

/-- A frame whose only hand carries an empty handedness label. -/
def untaggedFrame : Results ℚ := frameOf [("", twoHand)]

/-- A frame whose only hand is the user's right hand, closed to a fist. -/
def fistRightFrame : Results ℚ := frameOf [("Left", fistHand)]

/-- The frame with both lists present and empty: no hand. -/
def emptyFrame : Results ℚ := frameOf []

/-- A result object without landmark lists. -/
def noListsFrame : Results ℚ := { multiHandLandmarks := none, multiHandedness := none }

/-- A detector with the callbacks installed and gesture fields left by an earlier frame. -/
def usedDetector : HandGestureDetector :=
  { setupGestureCallbacks HandGestureDetector.new with
    leftHandNumber := 5, rightHandGesture := some "5" }

section LastReadings

variable {α : Type} [LinearOrderedField α]

/-- Both scales of the renderer lie between its bounds, and the bounds are the constructor's
`0.6` and `2.8`. -/
def ScaleInv (r : EarthRenderer α) : Prop :=
  r.MIN_SCALE = 0.6 ∧ r.MAX_SCALE = 2.8 ∧ 0.6 ≤ r.targetScale ∧ r.targetScale ≤ 2.8 ∧
    0.6 ≤ r.currentScale ∧ r.currentScale ≤ 2.8

/-- Renderer, scene and camera are present, so `animate` does its step. -/
def EarthRenderer.Ready (r : EarthRenderer α) : Prop :=
  r.renderer = true ∧ r.scene = true ∧ r.camera = true

/-- A landmark moved by the offset `o`. -/
def shift (o p : Landmark α) : Landmark α := ⟨p.x + o.x, p.y + o.y⟩

/-- A hand moved by the offset `o`, landmark by landmark. -/
def shiftHand (o : Landmark α) (landmarks : Hand α) : Hand α := landmarks.map (shift o)

/-- The ten coordinates `detectHandNumber` reads: `x` of landmarks 4 and 2, `y` of
landmarks 8, 6, 12, 10, 16, 14, 20 and 18 (`none` where the landmark is missing). -/
def readCoordinates (landmarks : Hand α) : List (Option α) :=
  [(landmarks[4]?).map Landmark.x, (landmarks[2]?).map Landmark.x,
   (landmarks[8]?).map Landmark.y, (landmarks[6]?).map Landmark.y,
   (landmarks[12]?).map Landmark.y, (landmarks[10]?).map Landmark.y,
   (landmarks[16]?).map Landmark.y, (landmarks[14]?).map Landmark.y,
   (landmarks[20]?).map Landmark.y, (landmarks[18]?).map Landmark.y]

end LastReadings

/-- All four fingers up and the thumb tip exactly `0.04` away from its base. -/
def thumbEdgeHand : Hand ℚ := poseHand ⟨0, 0⟩ (1/25) 0 0 0 0

/-- The index tip exactly `0.02` above its base (`1/2 - 0.02 = 12/25`), other fingers
down. -/
def indexEdgeHand : Hand ℚ := poseHand ⟨0, 0⟩ 0 (12/25) 1 1 1

/-- The two-finger hand with the wrist at `(1, 0)`. -/
def twoHandApart : Hand ℚ := poseHand ⟨1, 0⟩ 0 0 0 1 1

/-- The constructed renderer after `setScale(1)`: target `2.8`, current scale still 1. -/
def zoomingRenderer : EarthRenderer ℚ := EarthRenderer.new.setScale 1

/-- Both hands show 2 with the wrists at the same point. -/
def touchingFrame : Results ℚ := frameOf [("Right", twoHand), ("Left", twoHand)]

/-- Both hands show 2 with the wrists at distance 1. -/
def apartFrame : Results ℚ := frameOf [("Right", twoHand), ("Left", twoHandApart)]

/-- A frame whose hands show different digits (two and five) with touching wrists. -/
def touchingMixedFrame : Results ℚ := frameOf [("Right", twoHand), ("Left", openHand)]

/-! ## `detectHandNumber` with the receiver explicit -/

section ExplicitReceiver

variable {α : Type} [LinearOrderedField α]

/-- Method `detectHandNumber(landmarks, isRightHand)` in state-passing form: the receiver
`this` is a parameter, and the detector the call leaves is returned with the result. The
source body has no occurrence of `this`, so no field is read and the detector is returned as
it came. -/
def HandGestureDetector.detectHandNumber (self : HandGestureDetector) (landmarks : Hand α)
    (_isRightHand : Bool) : Option (HandGestureDetector × Nat) := do
  let tTip ← landmarks[thumbTip]?
  let tBase ← landmarks[thumbBase]?
  let thumbExtended := decide (abs (tTip.x - tBase.x) > 0.04)
  let fingersExtended ← pushFingers landmarks [0, 1, 2, 3]
  pure (self, strictNumber thumbExtended fingersExtended)

end ExplicitReceiver

/-! ## `detectHandNumber` with the rounding of JS numbers explicit -/

/-- Rounding of a non-negative rational to the nearest natural number, ties to even. -/
def roundEven (q : ℚ) : ℕ :=
  if q - (Nat.floor q : ℚ) < 1/2 then Nat.floor q
  else if 1/2 < q - (Nat.floor q : ℚ) then Nat.floor q + 1
  else if Nat.floor q % 2 = 0 then Nat.floor q else Nat.floor q + 1

/-- The double nearest to a positive rational: 53 significant bits, ties to even. The
exponent is not bounded, so the value is the JS number for the normal range only (no
overflow, no subnormals). -/
def roundDoublePos (q : ℚ) : ℚ :=
  (roundEven (q / 2 ^ (Int.log 2 q - 52)) : ℚ) * 2 ^ (Int.log 2 q - 52)

/-- The double nearest to a rational of the normal range: the value a JS arithmetic
operation returns when its exact result is `q`. -/
def roundDouble (q : ℚ) : ℚ :=
  if q = 0 then 0 else if 0 < q then roundDoublePos q else -roundDoublePos (-q)

section RoundedClassifier

variable {α : Type} [LinearOrderedField α]

/-- Body of the loop `for (let i = 0; i < 4; i++)` with its rounding explicit: `fl` rounds
the literal `0.02` and the result of the subtraction; the comparison is exact. -/
def fingerExtendedAtRounded (fl : α → α) (landmarks : Hand α) (i : Nat) : Option Bool := do
  let tipIdx ← fingerTips[i]?
  let baseIdx ← fingerBases[i]?
  let tip ← landmarks[tipIdx]?
  let base ← landmarks[baseIdx]?
  pure (decide (tip.y < fl (base.y - fl 0.02)))

/-- The loop `for (let i = 0; i < 4; i++) fingersExtended.push(...)` with its rounding
explicit. -/
def pushFingersRounded (fl : α → α) (landmarks : Hand α) : List Nat → Option (List Bool)
  | [] => some []
  | i :: rest => do
    let e ← fingerExtendedAtRounded fl landmarks i
    let es ← pushFingersRounded fl landmarks rest
    pure (e :: es)

/-- Method `detectHandNumber(landmarks, isRightHand)` with its rounding explicit: `fl` rounds
the literal `0.04` and the result of the subtraction; `Math.abs` and the comparison are
exact. With `fl` the identity this is `detectHandNumber`. -/
def detectHandNumberRounded (fl : α → α) (landmarks : Hand α) (_isRightHand : Bool) :
    Option Nat := do
  let tTip ← landmarks[thumbTip]?
  let tBase ← landmarks[thumbBase]?
  let thumbExtended := decide (abs (fl (tTip.x - tBase.x)) > fl 0.04)
  let fingersExtended ← pushFingersRounded fl landmarks [0, 1, 2, 3]
  pure (strictNumber thumbExtended fingersExtended)

/-- Horizontal mirroring of a landmark computed in JS numbers: `x` becomes the rounded value
of `1 − x`, `y` is kept. -/
def mirrorRounded (fl : α → α) (p : Landmark α) : Landmark α := ⟨fl (1 - p.x), p.y⟩

/-- Horizontal mirroring of a hand computed in JS numbers, landmark by landmark. -/
def mirrorHandRounded (fl : α → α) (landmarks : Hand α) : Hand α :=
  landmarks.map (mirrorRounded fl)

end RoundedClassifier

/-- All four fingers up, the thumb base at `x = 0` and the thumb tip at the double nearest to
`0.04`, the value of the literal `0.04` in the source. -/
def thumbLiteralHand : Hand ℚ := poseHand ⟨0, 0⟩ (5764607523034235 / 2 ^ 57) 0 0 0 0

/-- All four fingers up, the thumb base at `x = 0` and the thumb tip at `x = 1/4`. -/
def thumbQuarterHand : Hand ℚ := poseHand ⟨0, 0⟩ (1/4) 0 0 0 0

section ClassifierLemmas

variable {α : Type} [LinearOrderedField α]

theorem getElem?_of_length {β : Type} (l : List β) (n i : Nat) (h : l.length = n) (hi : i < n) :
    ∃ a, l[i]? = some a := by
  subst h
  exact ⟨l[i], List.getElem?_eq_getElem hi⟩

/-- On a hand of 21 landmarks the classifier returns, and its value is the strict
matching applied to the thumb test and the four finger tests. -/
theorem detectHandNumber_eq (landmarks : Hand α) (r : Bool) (h : landmarks.length = 21) :
    detectHandNumber landmarks r = some (digit landmarks) := by
  obtain ⟨a2, h2⟩ := getElem?_of_length landmarks 21 2 h (by decide)
  obtain ⟨a4, h4⟩ := getElem?_of_length landmarks 21 4 h (by decide)
  obtain ⟨a6, h6⟩ := getElem?_of_length landmarks 21 6 h (by decide)
  obtain ⟨a8, h8⟩ := getElem?_of_length landmarks 21 8 h (by decide)
  obtain ⟨a10, h10⟩ := getElem?_of_length landmarks 21 10 h (by decide)
  obtain ⟨a12, h12⟩ := getElem?_of_length landmarks 21 12 h (by decide)
  obtain ⟨a14, h14⟩ := getElem?_of_length landmarks 21 14 h (by decide)
  obtain ⟨a16, h16⟩ := getElem?_of_length landmarks 21 16 h (by decide)
  obtain ⟨a18, h18⟩ := getElem?_of_length landmarks 21 18 h (by decide)
  obtain ⟨a20, h20⟩ := getElem?_of_length landmarks 21 20 h (by decide)
  simp [detectHandNumber, pushFingers, fingerExtendedAt, fingerTips, fingerBases, thumbTip,
    thumbBase, digit,
    thumbDisplaced, indexExtended, middleExtended, ringExtended, pinkyExtended, tipAboveBase,
    h2, h4, h6, h8, h10, h12, h14, h16, h18, h20]

theorem strictNumber_cases (t a b c d : Bool) :
    strictNumber t [a, b, c, d] =
      if a = true ∧ b = false ∧ c = false ∧ d = false then 1
      else if a = true ∧ b = true ∧ c = false ∧ d = false then 2
      else if a = true ∧ b = true ∧ c = true ∧ d = false then 3
      else if a = true ∧ b = true ∧ c = true ∧ d = true then (if t = true then 5 else 4)
      else 0 := by
  cases t <;> cases a <;> cases b <;> cases c <;> cases d <;> decide

end ClassifierLemmas

section DistanceLemmas

variable {α : Type} [LinearOrderedField α]

theorem min_max_eq_clamp (v : α) : min (max v 0) 1 = clamp v 0 1 := by
  unfold clamp
  split_ifs with h1 h2
  · rw [max_eq_right h1.le]; exact min_eq_left zero_le_one
  · rw [max_eq_left (not_lt.mp h1)]; exact min_eq_right h2.le
  · rw [max_eq_left (not_lt.mp h1)]; exact min_eq_left (not_lt.mp h2)

theorem calculateHandDistance_eq (sqrt : α → α) (leftHand rightHand : Hand α)
    (a b : Landmark α) (ha : leftHand[0]? = some a) (hb : rightHand[0]? = some b) :
    calculateHandDistance sqrt leftHand rightHand = some (mapDistance sqrt a b) := by
  simp only [calculateHandDistance, ha, hb, mapDistance, Option.bind_eq_bind, Option.some_bind,
    Option.pure_def, abs_mul_abs_self, min_max_eq_clamp]
  simp [sq]

theorem clamp_mem (v : α) : 0 ≤ clamp v 0 1 ∧ clamp v 0 1 ≤ 1 := by
  unfold clamp
  split_ifs with h1 h2
  · exact ⟨le_refl _, zero_le_one⟩
  · exact ⟨zero_le_one, le_refl _⟩
  · exact ⟨not_lt.mp h1, not_lt.mp h2⟩

end DistanceLemmas

section FrameLemmas

variable {α : Type}

theorem drawHandSkeleton_ok (l : Hand α) (h : l.length = 21) : drawHandSkeleton l = some () := by
  simp [drawHandSkeleton, connections, h]

theorem drawIfPresent_ok (r : HandRef α) (h : r.Ok) : drawIfPresent r = some () := by
  cases r with
  | null => rfl
  | undefined => rfl
  | landmarks l => exact drawHandSkeleton_ok l h

theorem identifyHands_ok (labels : List Handedness) :
    ∀ (hands : List (Hand α)) (acc : HandRef α × HandRef α),
      (∀ h ∈ hands, h.length = 21) → acc.1.Ok → acc.2.Ok →
      (identifyHands labels hands acc).1.Ok ∧ (identifyHands labels hands acc).2.Ok := by
  induction labels with
  | nil => intro hands acc _ h1 h2; exact ⟨h1, h2⟩
  | cons entry rest ih =>
    intro hands acc hh h1 h2
    cases hands with
    | nil =>
      simp only [identifyHands, List.head?_nil, List.tail_nil]
      apply ih
      · intro h hmem; cases hmem
      · split_ifs
        · trivial
        · exact h1
      · split_ifs
        · exact h2
        · trivial
    | cons hand more =>
      simp only [identifyHands, List.head?_cons, List.tail_cons]
      have hhand : hand.length = 21 := hh hand (List.mem_cons_self _ _)
      apply ih
      · intro h hmem; exact hh h (List.mem_cons_of_mem _ hmem)
      · split_ifs
        · exact hhand
        · exact h1
      · split_ifs
        · exact h2
        · exact hhand

theorem hands_ok (results : Results α) (h : results.WellFormed) :
    results.hands.1.Ok ∧ results.hands.2.Ok := by
  unfold Results.hands
  unfold Results.WellFormed at h
  cases hl : results.multiHandLandmarks with
  | none => exact ⟨trivial, trivial⟩
  | some hands =>
    rw [hl] at h
    cases hd : results.multiHandedness with
    | none => exact ⟨trivial, trivial⟩
    | some labels => exact identifyHands_ok labels hands _ h trivial trivial

theorem both_or_single (lh rh : HandRef α) :
    (∃ l r, lh = HandRef.landmarks l ∧ rh = HandRef.landmarks r) ∨
      (lh.truthy = false ∨ rh.truthy = false) := by
  cases lh <;> cases rh <;> simp [HandRef.truthy]

theorem setMode_mem_dispatch (calls : List (Call α)) (m : Nat) :
    AppEffect.setMode m ∈ calls.flatMap dispatch ↔
      (Call.onDualHandGesture m ∈ calls ∧ 1 ≤ m ∧ m ≤ 4) := by
  rw [List.mem_flatMap]
  constructor
  · rintro ⟨c, hc, hm⟩
    cases c with
    | onDualHandGesture number =>
      by_cases h : number ≥ 1 ∧ number ≤ 4
      · simp [dispatch, h] at hm
        subst hm
        exact ⟨hc, h.1, h.2⟩
      · simp [dispatch, h] at hm
    | onHandDistance d => simp [dispatch] at hm
    | onHandsDetected data => simp [dispatch] at hm
  · rintro ⟨hc, h1, h4⟩
    refine ⟨_, hc, ?_⟩
    have h : m ≥ 1 ∧ m ≤ 4 := ⟨h1, h4⟩
    simp [dispatch, h]

theorem identifyHands_entry (e : String × Hand α) (entries : List (String × Hand α))
    (acc : HandRef α × HandRef α) :
    identifyHands (((e :: entries).map (fun e => Handedness.mk e.1)))
        ((e :: entries).map Prod.snd) acc =
      identifyHands (entries.map (fun e => Handedness.mk e.1)) (entries.map Prod.snd)
        (if e.1 = "Right" then (HandRef.landmarks e.2, acc.2)
         else (acc.1, HandRef.landmarks e.2)) := by
  simp [identifyHands]

/-- A source-`"Right"` entry makes `leftHand` non-null. -/
theorem identifyHands_left_notNull (entries : List (String × Hand α)) :
    ∀ acc : HandRef α × HandRef α,
      (acc.1.notNull = true ∨ ∃ H, ("Right", H) ∈ entries) →
      (identifyHands (entries.map (fun e => Handedness.mk e.1)) (entries.map Prod.snd)
        acc).1.notNull = true := by
  induction entries with
  | nil =>
    intro acc h
    rcases h with h | ⟨H, hH⟩
    · exact h
    · cases hH
  | cons e rest ih =>
    intro acc h
    rw [identifyHands_entry]
    apply ih
    by_cases he : e.1 = "Right"
    · left; simp [he, HandRef.notNull]
    · rcases h with h | ⟨H, hH⟩
      · left; simpa [he] using h
      · right
        rcases List.mem_cons.mp hH with heq | hmem
        · exact absurd (by rw [← heq]) he
        · exact ⟨H, hmem⟩

/-- An entry with any other label makes `rightHand` non-null. -/
theorem identifyHands_right_notNull (entries : List (String × Hand α)) :
    ∀ acc : HandRef α × HandRef α,
      (acc.2.notNull = true ∨ ∃ e ∈ entries, e.1 ≠ "Right") →
      (identifyHands (entries.map (fun e => Handedness.mk e.1)) (entries.map Prod.snd)
        acc).2.notNull = true := by
  induction entries with
  | nil =>
    intro acc h
    rcases h with h | ⟨e, he, _⟩
    · exact h
    · cases he
  | cons e rest ih =>
    intro acc h
    rw [identifyHands_entry]
    apply ih
    by_cases he : e.1 = "Right"
    · rcases h with h | ⟨e', hmem, hne⟩
      · left; simpa [he] using h
      · right
        rcases List.mem_cons.mp hmem with heq | hmem
        · exact absurd (by rw [heq]; exact he) hne
        · exact ⟨e', hmem, hne⟩
    · left; simp [he, HandRef.notNull]

/-- When `H` is the only hand labelled `"Right"`, `leftHand` ends as `H`. -/
theorem identifyHands_left_eq (H : Hand α) (entries : List (String × Hand α)) :
    ∀ acc : HandRef α × HandRef α,
      (∀ e ∈ entries, e.1 = "Right" → e.2 = H) →
      (acc.1 = HandRef.landmarks H ∨ ∃ e ∈ entries, e.1 = "Right") →
      (identifyHands (entries.map (fun e => Handedness.mk e.1)) (entries.map Prod.snd)
        acc).1 = HandRef.landmarks H := by
  induction entries with
  | nil =>
    intro acc _ h
    rcases h with h | ⟨e, he, _⟩
    · exact h
    · cases he
  | cons e rest ih =>
    intro acc huniq h
    rw [identifyHands_entry]
    apply ih
    · intro e' he' hlab; exact huniq e' (List.mem_cons_of_mem _ he') hlab
    · by_cases he : e.1 = "Right"
      · left; simp [he, huniq e (List.mem_cons_self _ _) he]
      · rcases h with h | ⟨e', hmem, hlab⟩
        · left; simpa [he] using h
        · right
          rcases List.mem_cons.mp hmem with heq | hmem
          · exact absurd (by rw [← heq]; exact hlab) he
          · exact ⟨e', hmem, hlab⟩

/-- When `H` is the only hand not labelled `"Right"`, `rightHand` ends as `H`. -/
theorem identifyHands_right_eq (H : Hand α) (entries : List (String × Hand α)) :
    ∀ acc : HandRef α × HandRef α,
      (∀ e ∈ entries, e.1 ≠ "Right" → e.2 = H) →
      (acc.2 = HandRef.landmarks H ∨ ∃ e ∈ entries, e.1 ≠ "Right") →
      (identifyHands (entries.map (fun e => Handedness.mk e.1)) (entries.map Prod.snd)
        acc).2 = HandRef.landmarks H := by
  induction entries with
  | nil =>
    intro acc _ h
    rcases h with h | ⟨e, he, _⟩
    · exact h
    · cases he
  | cons e rest ih =>
    intro acc huniq h
    rw [identifyHands_entry]
    apply ih
    · intro e' he' hlab; exact huniq e' (List.mem_cons_of_mem _ he') hlab
    · by_cases he : e.1 = "Right"
      · rcases h with h | ⟨e', hmem, hlab⟩
        · left; simpa [he] using h
        · right
          rcases List.mem_cons.mp hmem with heq | hmem
          · exact absurd (by rw [heq]; exact he) hlab
          · exact ⟨e', hmem, hlab⟩
      · left; simp [he, huniq e (List.mem_cons_self _ _) he]

theorem frameOf_hands (entries : List (String × Hand α)) :
    (frameOf entries).hands =
      identifyHands (entries.map (fun e => Handedness.mk e.1)) (entries.map Prod.snd)
        (HandRef.null, HandRef.null) := rfl

theorem frameOf_wf (entries : List (String × Hand α))
    (hlen : ∀ e ∈ entries, e.2.length = 21) : (frameOf entries).WellFormed := by
  intro h hmem
  obtain ⟨e, he, rfl⟩ := List.mem_map.mp hmem
  exact hlen e he

end FrameLemmas

section InterpreterLemmas

variable {α : Type} [LinearOrderedField α]

theorem reportLeftNumber_ok (r : HandRef α) (h : r.Ok) : reportLeftNumber r = some r.digit := by
  cases r with
  | null => rfl
  | undefined => rfl
  | landmarks l => exact detectHandNumber_eq l false h

theorem reportRightGesture_ok (r : HandRef α) (h : r.Ok) :
    reportRightGesture r = some r.gesture := by
  cases r with
  | null => rfl
  | undefined => rfl
  | landmarks l =>
    have hl : l.length = 21 := h
    simp [reportRightGesture, detectHandNumber_eq l true hl, HandRef.gesture]

theorem statusBlock_ok (self : HandGestureDetector) (lh rh : HandRef α)
    (hl : lh.Ok) (hr : rh.Ok) :
    statusBlock self lh rh =
      some (if self.onHandsDetected then [Call.onHandsDetected (statusOf lh rh)] else []) := by
  unfold statusBlock
  rw [reportLeftNumber_ok lh hl, reportRightGesture_ok rh hr]
  cases self.onHandsDetected <;> simp [statusOf]

/-- On a well-formed frame `onResults` is the dual-hand block on the extracted pair of
hands followed by the status report. -/
theorem onResults_eq (sqrt : α → α) (self : HandGestureDetector) (results : Results α)
    (h : results.WellFormed) :
    onResults sqrt self results =
      (dualHandBlock sqrt self results.hands.1 results.hands.2).map (fun out =>
        (out.1, out.2 ++ (if self.onHandsDetected then
          [Call.onHandsDetected (statusOf results.hands.1 results.hands.2)] else []))) := by
  have hok := hands_ok results h
  revert hok
  unfold onResults Results.hands
  cases hl : results.multiHandLandmarks with
  | none =>
    intro _
    cases self.onHandsDetected <;>
      simp [dualHandBlock, statusOf, HandRef.notNull, HandRef.digit, HandRef.gesture]
  | some hands =>
    cases hd : results.multiHandedness with
    | none =>
    intro _
    cases self.onHandsDetected <;>
      simp [dualHandBlock, statusOf, HandRef.notNull, HandRef.digit, HandRef.gesture]
    | some labels =>
      intro hok
      simp only [drawIfPresent_ok _ hok.1, drawIfPresent_ok _ hok.2,
        statusBlock_ok self _ _ hok.1 hok.2, Option.bind_eq_bind, Option.some_bind,
        Option.pure_def]
      cases dualHandBlock sqrt self (identifyHands labels hands (HandRef.null, HandRef.null)).1
        (identifyHands labels hands (HandRef.null, HandRef.null)).2 with
      | none => rfl
      | some out => rfl

theorem dualHandBlock_single (sqrt : α → α) (self : HandGestureDetector) (lh rh : HandRef α)
    (h : lh.truthy = false ∨ rh.truthy = false) :
    dualHandBlock sqrt self lh rh = some (self, []) := by
  cases lh <;> cases rh <;> simp_all [dualHandBlock, HandRef.truthy]

theorem dualHandBlock_both (sqrt : α → α) (self : HandGestureDetector) (l r : Hand α)
    (hl : l.length = 21) (hr : r.length = 21) (a b : Landmark α)
    (ha : l[0]? = some a) (hb : r[0]? = some b) :
    dualHandBlock sqrt self (HandRef.landmarks l) (HandRef.landmarks r) =
      some ({ self with
              leftHandNumber := digit l
              rightHandGesture := some (if digit r > 0 then toString (digit r) else "open") },
            (if digit l > 0 ∧ digit l = digit r then
              (if self.onDualHandGesture then [Call.onDualHandGesture (digit l)] else [])
             else []) ++
            (if self.onHandDistance then [Call.onHandDistance (mapDistance sqrt a b)]
             else [])) := by
  simp only [dualHandBlock, detectHandNumber_eq l false hl, detectHandNumber_eq r true hr,
    calculateHandDistance_eq sqrt l r a b ha hb, Option.bind_eq_bind, Option.some_bind,
    Option.pure_def]

theorem onResults_single (sqrt : α → α) (self : HandGestureDetector) (results : Results α)
    (hwf : results.WellFormed)
    (h : results.hands.1.truthy = false ∨ results.hands.2.truthy = false) :
    onResults sqrt self results =
      some (self, if self.onHandsDetected then
        [Call.onHandsDetected (statusOf results.hands.1 results.hands.2)] else []) := by
  rw [onResults_eq sqrt self results hwf, dualHandBlock_single sqrt self _ _ h]
  simp

theorem onResults_both (sqrt : α → α) (self : HandGestureDetector) (results : Results α)
    (hwf : results.WellFormed) (l r : Hand α)
    (h : results.hands = (HandRef.landmarks l, HandRef.landmarks r)) :
    ∃ a b, l[0]? = some a ∧ r[0]? = some b ∧
    onResults sqrt self results =
      some ({ self with
              leftHandNumber := digit l
              rightHandGesture := some (if digit r > 0 then toString (digit r) else "open") },
            ((if digit l > 0 ∧ digit l = digit r then
              (if self.onDualHandGesture then [Call.onDualHandGesture (digit l)] else [])
             else []) ++
            (if self.onHandDistance then [Call.onHandDistance (mapDistance sqrt a b)]
             else [])) ++
            (if self.onHandsDetected then
              [Call.onHandsDetected (statusOf (HandRef.landmarks l) (HandRef.landmarks r))]
             else [])) := by
  have hok := hands_ok results hwf
  rw [h] at hok
  have hl : l.length = 21 := hok.1
  have hr : r.length = 21 := hok.2
  obtain ⟨a, ha⟩ := getElem?_of_length l 21 0 hl (by decide)
  obtain ⟨b, hb⟩ := getElem?_of_length r 21 0 hr (by decide)
  refine ⟨a, b, ha, hb, ?_⟩
  rw [onResults_eq sqrt self results hwf, h]
  simp only [dualHandBlock_both sqrt self l r hl hr a b ha hb, Option.map_some']

theorem digit_le_five (landmarks : Hand α) : digit landmarks ≤ 5 := by
  rw [digit, strictNumber_cases]
  cases thumbDisplaced landmarks <;> cases indexExtended landmarks <;>
    cases middleExtended landmarks <;> cases ringExtended landmarks <;>
    cases pinkyExtended landmarks <;> decide

/-- The `onDualHandGesture` calls of a well-formed frame. -/
theorem mode_call_iff (sqrt : α → α) (self : HandGestureDetector)
    (results : Results α) (hwf : results.WellFormed) :
    ∃ self1 calls, onResults sqrt self results = some (self1, calls) ∧
      ∀ n, Call.onDualHandGesture n ∈ calls ↔
        (self.onDualHandGesture = true ∧
          ∃ l r, results.hands = (HandRef.landmarks l, HandRef.landmarks r) ∧
            detectHandNumber l false = some n ∧ detectHandNumber r true = some n ∧
            1 ≤ n ∧ n ≤ 5) := by
  have hok := hands_ok results hwf
  rcases both_or_single results.hands.1 results.hands.2 with ⟨l, r, h1, h2⟩ | hs
  · have hh : results.hands = (HandRef.landmarks l, HandRef.landmarks r) := Prod.ext h1 h2
    obtain ⟨a, b, _, _, hres⟩ := onResults_both sqrt self results hwf l r hh
    rw [hh] at hok
    have hl : l.length = 21 := hok.1
    have hr : r.length = 21 := hok.2
    refine ⟨_, _, hres, ?_⟩
    intro n
    have h5 := digit_le_five l
    constructor
    · intro hn
      by_cases hc : digit l > 0 ∧ digit l = digit r
      · cases hcb : self.onDualHandGesture
        · cases hz : self.onHandDistance <;> cases hd : self.onHandsDetected <;>
            simp [hc, hcb, hz, hd] at hn
        · refine ⟨rfl, l, r, hh, ?_⟩
          rw [detectHandNumber_eq l false hl, detectHandNumber_eq r true hr]
          have hn' : n = digit l := by
            cases hz : self.onHandDistance <;> cases hd : self.onHandsDetected <;>
              simp [hc, hcb, hz, hd] at hn <;> omega
          subst hn'
          exact ⟨rfl, congrArg some hc.2.symm, hc.1, h5⟩
      · cases hz : self.onHandDistance <;> cases hd : self.onHandsDetected <;>
          simp [hc, hz, hd] at hn
    · rintro ⟨hcb, l', r', hh', hl', hr', h1n, _⟩
      rw [hh] at hh'
      have e1 : l = l' := by injection (congrArg Prod.fst hh')
      have e2 : r = r' := by injection (congrArg Prod.snd hh')
      subst e1 e2
      rw [detectHandNumber_eq l false hl] at hl'
      rw [detectHandNumber_eq r true hr] at hr'
      have dl : digit l = n := Option.some.inj hl'
      have dr : digit r = n := Option.some.inj hr'
      have hc : digit l > 0 ∧ digit l = digit r := by omega
      simp [hc, hcb, dl]
      omega
  · refine ⟨_, _, onResults_single sqrt self results hwf hs, ?_⟩
    intro n
    constructor
    · intro hn
      cases hd : self.onHandsDetected <;> simp [hd] at hn
    · rintro ⟨_, l, r, hh, _⟩
      rw [hh] at hs
      simp [HandRef.truthy] at hs

/-- The status report of a well-formed frame. -/
theorem onResults_status (sqrt : α → α) (self : HandGestureDetector) (results : Results α)
    (hwf : results.WellFormed) (hcb : self.onHandsDetected = true) :
    ∃ self1 calls, onResults sqrt self results = some (self1, calls) ∧
      calls.filter Call.isStatus =
        [Call.onHandsDetected (statusOf results.hands.1 results.hands.2)] := by
  rcases both_or_single results.hands.1 results.hands.2 with ⟨l, r, h1, h2⟩ | hs
  · have hh : results.hands = (HandRef.landmarks l, HandRef.landmarks r) := Prod.ext h1 h2
    obtain ⟨a, b, _, _, hres⟩ := onResults_both sqrt self results hwf l r hh
    refine ⟨_, _, hres, ?_⟩
    rw [hh]
    by_cases hc : digit l > 0 ∧ digit l = digit r <;>
      cases self.onDualHandGesture <;> cases self.onHandDistance <;>
      simp [hcb, hc, Call.isStatus, List.filter]
  · refine ⟨_, _, onResults_single sqrt self results hwf hs, ?_⟩
    simp [hcb, Call.isStatus, List.filter]

end InterpreterLemmas

/-! ## The classifier -/

section ClassifierClaims

variable {α : Type} [LinearOrderedField α]

/-- C2: on a hand of 21 landmarks, for `k` in `{1, 2, 3}`, `detectHandNumber` returns `k`
exactly when the four finger tests (index, middle, ring, pinky) read `k` times extended
followed by `4 - k` times not extended; the thumb test does not occur. -/
theorem detectHandNumber_eq_digit_iff (landmarks : Hand α) (isRightHand : Bool) (k : Nat)
    (hlen : landmarks.length = 21) (hk : k = 1 ∨ k = 2 ∨ k = 3) :
    detectHandNumber landmarks isRightHand = some k ↔
      [indexExtended landmarks, middleExtended landmarks, ringExtended landmarks,
        pinkyExtended landmarks] = List.replicate k true ++ List.replicate (4 - k) false := by
  rw [detectHandNumber_eq landmarks isRightHand hlen, digit, strictNumber_cases]
  rcases hk with rfl | rfl | rfl <;>
    cases thumbDisplaced landmarks <;> cases indexExtended landmarks <;>
    cases middleExtended landmarks <;> cases ringExtended landmarks <;>
    cases pinkyExtended landmarks <;> decide

/-- C3: on a hand of 21 landmarks with all four non-thumb fingers extended,
`detectHandNumber` returns 5 when `|x(landmark 4) − x(landmark 2)| > 0.04` and 4 otherwise;
and it returns 4 or 5 only when all four are extended. -/
theorem detectHandNumber_four_or_five (landmarks : Hand α) (isRightHand : Bool)
    (hlen : landmarks.length = 21) :
    ((indexExtended landmarks = true ∧ middleExtended landmarks = true ∧
        ringExtended landmarks = true ∧ pinkyExtended landmarks = true) →
      detectHandNumber landmarks isRightHand =
        some (if thumbDisplaced landmarks = true then 5 else 4)) ∧
    ((detectHandNumber landmarks isRightHand = some 4 ∨
        detectHandNumber landmarks isRightHand = some 5) →
      (indexExtended landmarks = true ∧ middleExtended landmarks = true ∧
        ringExtended landmarks = true ∧ pinkyExtended landmarks = true)) := by
  rw [detectHandNumber_eq landmarks isRightHand hlen, digit, strictNumber_cases]
  cases thumbDisplaced landmarks <;> cases indexExtended landmarks <;>
    cases middleExtended landmarks <;> cases ringExtended landmarks <;>
    cases pinkyExtended landmarks <;> decide

/-- C4: on a hand of 21 landmarks whose extended non-thumb fingers are none of `{index}`,
`{index, middle}`, `{index, middle, ring}`, `{index, middle, ring, pinky}`,
`detectHandNumber` returns 0, whatever the thumb test says. -/
theorem detectHandNumber_zero_of_other (landmarks : Hand α) (isRightHand : Bool)
    (hlen : landmarks.length = 21)
    (hother : [indexExtended landmarks, middleExtended landmarks, ringExtended landmarks,
        pinkyExtended landmarks] ∉
      [[true, false, false, false], [true, true, false, false], [true, true, true, false],
       [true, true, true, true]]) :
    detectHandNumber landmarks isRightHand = some 0 := by
  rw [detectHandNumber_eq landmarks isRightHand hlen, digit, strictNumber_cases]
  revert hother
  cases thumbDisplaced landmarks <;> cases indexExtended landmarks <;>
    cases middleExtended landmarks <;> cases ringExtended landmarks <;>
    cases pinkyExtended landmarks <;> decide

end ClassifierClaims

section PoseHand

theorem poseHand_length (w : Landmark ℚ) (t i m r p : ℚ) : (poseHand w t i m r p).length = 21 :=
  rfl

theorem poseHand_wrist (w : Landmark ℚ) (t i m r p : ℚ) : (poseHand w t i m r p)[0]? = some w :=
  rfl

theorem poseHand_thumb (w : Landmark ℚ) (t i m r p : ℚ) :
    thumbDisplaced (poseHand w t i m r p) = decide (abs t > (0.04 : ℚ)) := by
  simp [thumbDisplaced, poseHand]

theorem poseHand_index (w : Landmark ℚ) (t i m r p : ℚ) :
    indexExtended (poseHand w t i m r p) = decide (i < (0.48 : ℚ)) := by
  simp [indexExtended, tipAboveBase, poseHand]; norm_num

theorem poseHand_middle (w : Landmark ℚ) (t i m r p : ℚ) :
    middleExtended (poseHand w t i m r p) = decide (m < (0.48 : ℚ)) := by
  simp [middleExtended, tipAboveBase, poseHand]; norm_num

theorem poseHand_ring (w : Landmark ℚ) (t i m r p : ℚ) :
    ringExtended (poseHand w t i m r p) = decide (r < (0.48 : ℚ)) := by
  simp [ringExtended, tipAboveBase, poseHand]; norm_num

theorem poseHand_pinky (w : Landmark ℚ) (t i m r p : ℚ) :
    pinkyExtended (poseHand w t i m r p) = decide (p < (0.48 : ℚ)) := by
  simp [pinkyExtended, tipAboveBase, poseHand]; norm_num

end PoseHand

/-- The two-finger pose (index and middle up, thumb out) is classified 2. -/
theorem detectHandNumber_eq_digit_iff_witness :
    detectHandNumber (poseHand ⟨0, 0⟩ 1 0 0 1 1) false = some 2 :=
  (detectHandNumber_eq_digit_iff (poseHand ⟨0, 0⟩ 1 0 0 1 1) false 2 rfl (by decide)).mpr
    (by simp [poseHand_index, poseHand_middle, poseHand_ring, poseHand_pinky]; norm_num)

/-- The open hand with the thumb out is classified 5, and a hand classified 5 has all
four fingers extended. -/
theorem detectHandNumber_four_or_five_witness :
    detectHandNumber (poseHand ⟨0, 0⟩ 1 0 0 0 0) true = some 5 :=
  by
    have h := (detectHandNumber_four_or_five (poseHand ⟨0, 0⟩ 1 0 0 0 0) true rfl).1
      (by simp [poseHand_index, poseHand_middle, poseHand_ring, poseHand_pinky]; norm_num)
    rw [h]
    simp [poseHand_thumb]; norm_num

/-- Index and ring up (middle down) is classified 0. -/
theorem detectHandNumber_zero_of_other_witness :
    detectHandNumber (poseHand ⟨0, 0⟩ 1 0 1 0 1) false = some 0 :=
  detectHandNumber_zero_of_other (poseHand ⟨0, 0⟩ 1 0 1 0 1) false rfl
    (by simp [poseHand_index, poseHand_middle, poseHand_ring, poseHand_pinky]; norm_num)

/-! ## The distance mapper -/

section DistanceClaims

variable {α : Type} [LinearOrderedField α]

/-- C5: for every pair of wrist points `a` (landmark 0 of the left hand) and `b` (landmark 0
of the right hand), `calculateHandDistance` returns `clamp((d − 0.05) / (0.6 − 0.05), 0, 1)`
with `d = sqrt((a.x − b.x)² + (a.y − b.y)²)`. -/
theorem calculateHandDistance_spec (sqrt : α → α) (leftHand rightHand : Hand α)
    (a b : Landmark α) (ha : leftHand[0]? = some a) (hb : rightHand[0]? = some b) :
    calculateHandDistance sqrt leftHand rightHand =
      some (clamp ((sqrt ((a.x - b.x) ^ 2 + (a.y - b.y) ^ 2) - 0.05) / (0.6 - 0.05)) 0 1) :=
  calculateHandDistance_eq sqrt leftHand rightHand a b ha hb

/-- C10: for every pair of hands that have a wrist point, `calculateHandDistance` returns a
value, and that value lies in `[0, 1]`. -/
theorem calculateHandDistance_mem_unit (sqrt : α → α) (leftHand rightHand : Hand α)
    (hl : leftHand ≠ []) (hr : rightHand ≠ []) :
    ∃ d, calculateHandDistance sqrt leftHand rightHand = some d ∧ 0 ≤ d ∧ d ≤ 1 := by
  cases leftHand with
  | nil => exact absurd rfl hl
  | cons a _ =>
    cases rightHand with
    | nil => exact absurd rfl hr
    | cons b _ =>
      exact ⟨mapDistance sqrt a b, calculateHandDistance_eq sqrt _ _ a b (by simp) (by simp),
        clamp_mem _⟩

end DistanceClaims

/-- Wrists at `(0, 0)` and `(3/10, 4/10)` are at distance `1/2`, which maps to `9/11`. -/
theorem calculateHandDistance_spec_witness :
    calculateHandDistance Rat.sqrt [⟨0, 0⟩] [⟨3/10, 4/10⟩] = some (9/11 : ℚ) := by
  rw [calculateHandDistance_spec Rat.sqrt [⟨0, 0⟩] [⟨3/10, 4/10⟩] ⟨0, 0⟩ ⟨3/10, 4/10⟩ (by simp)
    (by simp)]
  have h : ((0 : ℚ) - 3/10) ^ 2 + (0 - 4/10) ^ 2 = (1/2) * (1/2) := by norm_num
  simp only [h, Rat.sqrt_eq]
  norm_num [clamp, abs_of_pos]

/-- Two one-point hands, wrists at `(0, 0)` and `(1, 1)`, give a value in `[0, 1]`. -/
theorem calculateHandDistance_mem_unit_witness :
    ∃ d, calculateHandDistance Rat.sqrt [⟨0, 0⟩] [⟨1, 1⟩] = some d ∧ 0 ≤ d ∧ d ≤ 1 :=
  calculateHandDistance_mem_unit Rat.sqrt [⟨0, 0⟩] [⟨1, 1⟩] (by simp) (by simp)

/-! ## The interpreter -/

section ConcreteFrames

theorem digit_twoHand : digit twoHand = 2 := by
  simp [digit, twoHand, poseHand_thumb, poseHand_index, poseHand_middle, poseHand_ring,
    poseHand_pinky, strictNumber_cases]
  norm_num

theorem digit_twoHandFar : digit twoHandFar = 2 := by
  simp [digit, twoHandFar, poseHand_thumb, poseHand_index, poseHand_middle, poseHand_ring,
    poseHand_pinky, strictNumber_cases]
  norm_num

theorem digit_openHand : digit openHand = 5 := by
  simp [digit, openHand, poseHand_thumb, poseHand_index, poseHand_middle, poseHand_ring,
    poseHand_pinky, strictNumber_cases]
  norm_num

theorem digit_openHandFar : digit openHandFar = 5 := by
  simp [digit, openHandFar, poseHand_thumb, poseHand_index, poseHand_middle, poseHand_ring,
    poseHand_pinky, strictNumber_cases]
  norm_num

theorem bothTwoFrame_wf : bothTwoFrame.WellFormed := by
  simp [bothTwoFrame, frameOf, Results.WellFormed, twoHand, twoHandFar, poseHand_length]

theorem bothOpenFrame_wf : bothOpenFrame.WellFormed := by
  simp [bothOpenFrame, frameOf, Results.WellFormed, openHand, openHandFar, poseHand_length]

theorem mixedFrame_wf : mixedFrame.WellFormed := by
  simp [mixedFrame, frameOf, Results.WellFormed, twoHand, openHandFar, poseHand_length]

theorem mixedFrame_hands :
    mixedFrame.hands = (HandRef.landmarks twoHand, HandRef.landmarks openHandFar) := by
  simp [mixedFrame, frameOf, Results.hands, identifyHands]

theorem rightOnlyFrame_wf : rightOnlyFrame.WellFormed := by
  simp [rightOnlyFrame, frameOf, Results.WellFormed, twoHand, poseHand_length]

theorem bothTwoFrame_hands :
    bothTwoFrame.hands = (HandRef.landmarks twoHand, HandRef.landmarks twoHandFar) := by
  simp [bothTwoFrame, frameOf, Results.hands, identifyHands]

theorem bothOpenFrame_hands :
    bothOpenFrame.hands = (HandRef.landmarks openHand, HandRef.landmarks openHandFar) := by
  simp [bothOpenFrame, frameOf, Results.hands, identifyHands]

theorem rightOnlyFrame_hands :
    rightOnlyFrame.hands = (HandRef.landmarks twoHand, HandRef.null) := by
  simp [rightOnlyFrame, frameOf, Results.hands, identifyHands]

theorem mapDistance_far :
    mapDistance Rat.sqrt (⟨0, 0⟩ : Landmark ℚ) ⟨3/10, 4/10⟩ = 9/11 := by
  have h : ((0 : ℚ) - 3/10) ^ 2 + (0 - 4/10) ^ 2 = (1/2) * (1/2) := by norm_num
  simp only [mapDistance, h, Rat.sqrt_eq]
  norm_num [clamp, abs_of_pos]

end ConcreteFrames

section InterpreterClaims

variable {α : Type} [LinearOrderedField α]

/-- C1: on every well-formed frame, with the callbacks of `setupGestureCallbacks`,
`earthRenderer.setMode(m)` is invoked exactly when both a left and a right hand are present,
`detectHandNumber` gives `m` for both, and `m` lies in `{1, 2, 3, 4}`. -/
theorem setMode_iff (sqrt : α → α) (gestureDetector : HandGestureDetector)
    (results : Results α) (hwf : results.WellFormed) :
    ∃ effects, frameEffects sqrt gestureDetector results = some effects ∧
      ∀ m, AppEffect.setMode m ∈ effects ↔
        ∃ l r, results.hands = (HandRef.landmarks l, HandRef.landmarks r) ∧
          detectHandNumber l false = some m ∧ detectHandNumber r true = some m ∧
          1 ≤ m ∧ m ≤ 4 := by
  obtain ⟨self1, calls, hres, hiff⟩ :=
    mode_call_iff sqrt (setupGestureCallbacks gestureDetector) results hwf
  refine ⟨calls.flatMap dispatch, by rw [frameEffects, hres]; rfl, ?_⟩
  intro m
  rw [setMode_mem_dispatch, hiff]
  constructor
  · rintro ⟨⟨_, l, r, hh, hl, hr, _, _⟩, h1, h4⟩
    exact ⟨l, r, hh, hl, hr, h1, h4⟩
  · rintro ⟨l, r, hh, hl, hr, h1, h4⟩
    exact ⟨⟨rfl, l, r, hh, hl, hr, h1, by omega⟩, h1, h4⟩

/-- C6: on every well-formed frame in which both hands are present, with a callback
installed on `onHandDistance`, `onResults` makes exactly one `onHandDistance` call, and its
argument is `calculateHandDistance` of the two hands; no condition on the digits. -/
theorem onResults_zoom_once (sqrt : α → α) (self : HandGestureDetector) (results : Results α)
    (hwf : results.WellFormed) (hcb : self.onHandDistance = true) (l r : Hand α)
    (hh : results.hands = (HandRef.landmarks l, HandRef.landmarks r)) :
    ∃ self1 calls d, onResults sqrt self results = some (self1, calls) ∧
      calculateHandDistance sqrt l r = some d ∧
      calls.filter Call.isZoom = [Call.onHandDistance d] := by
  obtain ⟨a, b, ha, hb, hres⟩ := onResults_both sqrt self results hwf l r hh
  refine ⟨_, _, mapDistance sqrt a b, hres, calculateHandDistance_eq sqrt l r a b ha hb, ?_⟩
  by_cases hc : digit l > 0 ∧ digit l = digit r <;>
    cases self.onDualHandGesture <;> cases self.onHandsDetected <;>
    simp [hcb, hc, Call.isZoom, List.filter]

/-- C7: on every well-formed frame in which a hand is missing, `onResults` calls neither
`onDualHandGesture` nor `onHandDistance`, whatever the present hand shows. -/
theorem onResults_single_silent (sqrt : α → α) (self : HandGestureDetector)
    (results : Results α) (hwf : results.WellFormed)
    (hs : results.hands.1.truthy = false ∨ results.hands.2.truthy = false) :
    ∃ self1 calls, onResults sqrt self results = some (self1, calls) ∧
      ∀ c ∈ calls, c.isMode = false ∧ c.isZoom = false := by
  refine ⟨_, _, onResults_single sqrt self results hwf hs, ?_⟩
  intro c hc
  cases hd : self.onHandsDetected
  · simp [hd] at hc
  · simp [hd] at hc
    subst hc
    exact ⟨rfl, rfl⟩

/-- C8: for a frame given as labelled hands of 21 landmarks, with a callback installed on
`onHandsDetected`, `onResults` makes exactly one status report, in which: a hand labelled
`"Right"` sets `leftHand` and, when it is the only hand so labelled, its digit is
`leftNumber`; a hand labelled `"Left"` sets `rightHand` and, when it is the only hand not
labelled `"Right"`, its gesture is `rightGesture`; a frame holding only a `"Right"` hand
has `leftHand = true` and `rightHand = false`. -/
theorem handedness_remap (sqrt : α → α) (self : HandGestureDetector)
    (entries : List (String × Hand α)) (hcb : self.onHandsDetected = true)
    (hlen : ∀ e ∈ entries, e.2.length = 21) :
    ∃ self1 calls data, onResults sqrt self (frameOf entries) = some (self1, calls) ∧
      calls.filter Call.isStatus = [Call.onHandsDetected data] ∧
      (∀ H, ("Right", H) ∈ entries → data.leftHand = true ∧
        ((∀ e ∈ entries, e.1 = "Right" → e.2 = H) →
          detectHandNumber H false = some data.leftNumber)) ∧
      (∀ H, ("Left", H) ∈ entries → data.rightHand = true ∧
        ((∀ e ∈ entries, e.1 ≠ "Right" → e.2 = H) →
          reportRightGesture (HandRef.landmarks H) = some data.rightGesture)) ∧
      (∀ H, entries = [("Right", H)] → data.leftHand = true ∧ data.rightHand = false) := by
  obtain ⟨self1, calls, hres, hstatus⟩ :=
    onResults_status sqrt self (frameOf entries) (frameOf_wf entries hlen) hcb
  refine ⟨self1, calls, _, hres, hstatus, ?_, ?_, ?_⟩
  · intro H hH
    constructor
    · rw [frameOf_hands]
      exact identifyHands_left_notNull entries _ (Or.inr ⟨H, hH⟩)
    · intro huniq
      have hl : H.length = 21 := hlen _ hH
      rw [frameOf_hands, statusOf,
        identifyHands_left_eq H entries _ huniq (Or.inr ⟨_, hH, rfl⟩)]
      exact detectHandNumber_eq H false hl
  · intro H hH
    have hne : (("Left", H) : String × Hand α).1 ≠ "Right" := by
      show "Left" ≠ "Right"
      decide
    constructor
    · rw [frameOf_hands]
      exact identifyHands_right_notNull entries _ (Or.inr ⟨_, hH, hne⟩)
    · intro huniq
      have hl : H.length = 21 := hlen _ hH
      rw [frameOf_hands, statusOf,
        identifyHands_right_eq H entries _ huniq (Or.inr ⟨_, hH, hne⟩)]
      exact reportRightGesture_ok (HandRef.landmarks H) hl
  · rintro H rfl
    simp [frameOf, Results.hands, identifyHands, statusOf, HandRef.notNull]

/-- C9, amended: on every well-formed frame `onResults` invokes `onDualHandGesture(n)`
exactly when a callback is installed there, both hands are present and `detectHandNumber`
gives the same `n` for both with `1 ≤ n ≤ 5`; the value 5 is passed on. -/
theorem onDualHandGesture_iff (sqrt : α → α) (self : HandGestureDetector)
    (results : Results α) (hwf : results.WellFormed) :
    ∃ self1 calls, onResults sqrt self results = some (self1, calls) ∧
      ∀ n, Call.onDualHandGesture n ∈ calls ↔
        (self.onDualHandGesture = true ∧
          ∃ l r, results.hands = (HandRef.landmarks l, HandRef.landmarks r) ∧
            detectHandNumber l false = some n ∧ detectHandNumber r true = some n ∧
            1 ≤ n ∧ n ≤ 5) :=
  mode_call_iff sqrt self results hwf

end InterpreterClaims

section InterpreterWitnesses

/-- Both hands showing 2: the frame is well formed and `setMode(2)` is among the effects. -/
theorem setMode_iff_witness :
    bothTwoFrame.WellFormed ∧
      ∃ effects, frameEffects Rat.sqrt HandGestureDetector.new bothTwoFrame = some effects ∧
        AppEffect.setMode 2 ∈ effects ∧ AppEffect.setMode 5 ∉ effects := by
  obtain ⟨effects, he, hiff⟩ :=
    setMode_iff Rat.sqrt HandGestureDetector.new bothTwoFrame bothTwoFrame_wf
  refine ⟨bothTwoFrame_wf, effects, he, ?_, ?_⟩
  · exact (hiff 2).mpr ⟨twoHand, twoHandFar, bothTwoFrame_hands,
      by rw [detectHandNumber_eq _ _ (by rfl), digit_twoHand],
      by rw [detectHandNumber_eq _ _ (by rfl), digit_twoHandFar], by decide, by decide⟩
  · intro h
    obtain ⟨_, _, _, _, _, _, h4⟩ := (hiff 5).mp h
    exact absurd h4 (by decide)

/-- Left hand 2, right hand open: the digits disagree and the single zoom signal is `9/11`. -/
theorem onResults_zoom_once_witness :
    ∃ self1 calls,
      onResults Rat.sqrt (setupGestureCallbacks HandGestureDetector.new) mixedFrame =
        some (self1, calls) ∧
      calls.filter Call.isZoom = [Call.onHandDistance (9/11 : ℚ)] := by
  obtain ⟨self1, calls, d, hres, hd, hz⟩ :=
    onResults_zoom_once Rat.sqrt (setupGestureCallbacks HandGestureDetector.new) mixedFrame
      mixedFrame_wf rfl twoHand openHandFar mixedFrame_hands
  rw [calculateHandDistance_eq Rat.sqrt twoHand openHandFar ⟨0, 0⟩ ⟨3/10, 4/10⟩ rfl rfl,
    mapDistance_far] at hd
  rw [← Option.some.inj hd] at hz
  exact ⟨self1, calls, hres, hz⟩

/-- A frame with only the user's left hand, showing 2: no mode call and no zoom call. -/
theorem onResults_single_silent_witness :
    ∃ self1 calls,
      onResults Rat.sqrt (setupGestureCallbacks HandGestureDetector.new) rightOnlyFrame =
        some (self1, calls) ∧
      ∀ c ∈ calls, c.isMode = false ∧ c.isZoom = false :=
  onResults_single_silent Rat.sqrt (setupGestureCallbacks HandGestureDetector.new)
    rightOnlyFrame rightOnlyFrame_wf (Or.inr (by rw [rightOnlyFrame_hands]; rfl))

/-- A frame with only a source-`"Right"` hand showing 2 reports `leftHand = true`,
`rightHand = false`, `leftNumber = 2`. -/
theorem handedness_remap_witness :
    ∃ self1 calls data,
      onResults Rat.sqrt (setupGestureCallbacks HandGestureDetector.new)
        (frameOf [("Right", twoHand)]) = some (self1, calls) ∧
      calls.filter Call.isStatus = [Call.onHandsDetected data] ∧
      data.leftHand = true ∧ data.rightHand = false ∧ data.leftNumber = 2 := by
  obtain ⟨self1, calls, data, hres, hst, hR, _, hone⟩ :=
    handedness_remap Rat.sqrt (setupGestureCallbacks HandGestureDetector.new)
      [("Right", twoHand)] rfl (by simp [twoHand, poseHand_length])
  have h1 := hone twoHand rfl
  have h2 := (hR twoHand (by simp)).2 (by simp)
  rw [detectHandNumber_eq _ _ (by rfl), digit_twoHand] at h2
  exact ⟨self1, calls, data, hres, hst, h1.1, h1.2, (Option.some.inj h2).symm⟩

/-- Both hands open: `onDualHandGesture(5)` is among the calls. -/
theorem onDualHandGesture_iff_witness :
    ∃ self1 calls,
      onResults Rat.sqrt (setupGestureCallbacks HandGestureDetector.new) bothOpenFrame =
        some (self1, calls) ∧
      Call.onDualHandGesture 5 ∈ calls := by
  obtain ⟨self1, calls, hres, hiff⟩ :=
    onDualHandGesture_iff Rat.sqrt (setupGestureCallbacks HandGestureDetector.new)
      bothOpenFrame bothOpenFrame_wf
  exact ⟨self1, calls, hres, (hiff 5).mpr ⟨rfl, openHand, openHandFar, bothOpenFrame_hands,
    by rw [detectHandNumber_eq _ _ (by rfl), digit_openHand],
    by rw [detectHandNumber_eq _ _ (by rfl), digit_openHandFar], by decide, by decide⟩⟩

/-- C9, counterexample: both hands are open, each classified 5, and the calls `onResults`
makes on that frame start with `onDualHandGesture(5)`. -/
theorem onDualHandGesture_five :
    detectHandNumber openHand false = some 5 ∧ detectHandNumber openHandFar true = some 5 ∧
    (onResults Rat.sqrt (setupGestureCallbacks HandGestureDetector.new) bothOpenFrame).map
        (fun out => out.2) =
      some [Call.onDualHandGesture 5, Call.onHandDistance (9/11 : ℚ),
            Call.onHandsDetected
              { leftHand := true, rightHand := true, leftNumber := 5,
                rightGesture := RightGesture.number 5, rightOpenness := 0 }] := by
  refine ⟨by rw [detectHandNumber_eq _ _ (by rfl), digit_openHand],
    by rw [detectHandNumber_eq _ _ (by rfl), digit_openHandFar], ?_⟩
  obtain ⟨a, b, ha, hb, hres⟩ :=
    onResults_both Rat.sqrt (setupGestureCallbacks HandGestureDetector.new) bothOpenFrame
      bothOpenFrame_wf openHand openHandFar bothOpenFrame_hands
  have ea : a = ⟨0, 0⟩ := (Option.some.inj ha).symm
  have eb : b = ⟨3/10, 4/10⟩ := (Option.some.inj hb).symm
  subst ea eb
  rw [hres]
  simp [digit_openHand, digit_openHandFar, mapDistance_far, statusOf, setupGestureCallbacks,
    HandRef.notNull, HandRef.digit, HandRef.gesture]

end InterpreterWitnesses

/-! ## The distance mapper: order properties -/

section DistanceOrder

variable {α : Type} [LinearOrderedField α]

theorem mapDistance_eq_rawDistance (sqrt : α → α) (a b : Landmark α) :
    mapDistance sqrt a b = clamp ((rawDistance sqrt a b - 0.05) / (0.6 - 0.05)) 0 1 := rfl

theorem clamp_mono (v w : α) (h : v ≤ w) : clamp v 0 1 ≤ clamp w 0 1 := by
  rw [← min_max_eq_clamp, ← min_max_eq_clamp]
  exact min_le_min (max_le_max h le_rfl) le_rfl

theorem range_pos : (0 : α) < 0.6 - 0.05 := by norm_num

theorem rescale_mono (d1 d2 : α) (h : d1 ≤ d2) :
    (d1 - 0.05) / (0.6 - 0.05) ≤ (d2 - 0.05) / (0.6 - 0.05) :=
  (div_le_div_iff_of_pos_right range_pos).mpr (sub_le_sub_right h _)

theorem clamp_of_nonpos (v : α) (h : v ≤ 0) : clamp v 0 1 = 0 := by
  rw [← min_max_eq_clamp, max_eq_right h]
  exact min_eq_left zero_le_one

theorem clamp_of_one_le (v : α) (h : 1 ≤ v) : clamp v 0 1 = 1 := by
  rw [← min_max_eq_clamp, max_eq_left (le_trans zero_le_one h)]
  exact min_eq_right h

/-- C11: for any two pairs of wrist points whose raw distances satisfy `d1 ≤ d2`,
`calculateHandDistance` returns on both pairs and the first result is at most the second. -/
theorem calculateHandDistance_mono (sqrt : α → α) (left1 right1 left2 right2 : Hand α)
    (a1 b1 a2 b2 : Landmark α)
    (ha1 : left1[0]? = some a1) (hb1 : right1[0]? = some b1)
    (ha2 : left2[0]? = some a2) (hb2 : right2[0]? = some b2)
    (h : rawDistance sqrt a1 b1 ≤ rawDistance sqrt a2 b2) :
    ∃ r1 r2, calculateHandDistance sqrt left1 right1 = some r1 ∧
      calculateHandDistance sqrt left2 right2 = some r2 ∧ r1 ≤ r2 := by
  refine ⟨_, _, calculateHandDistance_eq sqrt left1 right1 a1 b1 ha1 hb1,
    calculateHandDistance_eq sqrt left2 right2 a2 b2 ha2 hb2, ?_⟩
  rw [mapDistance_eq_rawDistance, mapDistance_eq_rawDistance]
  exact clamp_mono _ _ (rescale_mono _ _ h)

/-- C12: a pair of wrist points at raw distance at most `0.05` maps to `0`, a pair at raw
distance at least `0.6` maps to `1`, and a pair at raw distance `0.325` maps to `0.5`. -/
theorem calculateHandDistance_ends (sqrt : α → α) (leftHand rightHand : Hand α)
    (a b : Landmark α) (ha : leftHand[0]? = some a) (hb : rightHand[0]? = some b) :
    (rawDistance sqrt a b ≤ 0.05 → calculateHandDistance sqrt leftHand rightHand = some 0) ∧
    (0.6 ≤ rawDistance sqrt a b → calculateHandDistance sqrt leftHand rightHand = some 1) ∧
    (rawDistance sqrt a b = 0.325 →
      calculateHandDistance sqrt leftHand rightHand = some 0.5) := by
  rw [calculateHandDistance_eq sqrt leftHand rightHand a b ha hb, mapDistance_eq_rawDistance]
  refine ⟨?_, ?_, ?_⟩
  · intro h
    rw [clamp_of_nonpos]
    exact div_nonpos_of_nonpos_of_nonneg (sub_nonpos.mpr h) range_pos.le
  · intro h
    rw [clamp_of_one_le]
    rw [le_div_iff₀ range_pos, one_mul]
    exact sub_le_sub_right h _
  · intro h
    rw [h]
    have e : ((0.325 : α) - 0.05) / (0.6 - 0.05) = 0.5 := by norm_num
    rw [e]
    unfold clamp
    norm_num

end DistanceOrder

section DistanceOrderWitnesses

theorem rawDistance_zero : rawDistance Rat.sqrt (⟨0, 0⟩ : Landmark ℚ) ⟨0, 0⟩ = 0 := by
  have h : ((0 : ℚ) - 0) ^ 2 + (0 - 0) ^ 2 = 0 * 0 := by norm_num
  simp only [rawDistance, h, Rat.sqrt_eq]
  norm_num

theorem rawDistance_far : rawDistance Rat.sqrt (⟨0, 0⟩ : Landmark ℚ) ⟨3/10, 4/10⟩ = 1/2 := by
  have h : ((0 : ℚ) - 3/10) ^ 2 + (0 - 4/10) ^ 2 = (1/2) * (1/2) := by norm_num
  simp only [rawDistance, h, Rat.sqrt_eq]
  norm_num [abs_of_pos]

theorem rawDistance_mid : rawDistance Rat.sqrt (⟨0, 0⟩ : Landmark ℚ) ⟨13/40, 0⟩ = 13/40 := by
  have h : ((0 : ℚ) - 13/40) ^ 2 + (0 - 0) ^ 2 = (13/40) * (13/40) := by norm_num
  simp only [rawDistance, h, Rat.sqrt_eq]
  norm_num [abs_of_pos]

theorem rawDistance_one : rawDistance Rat.sqrt (⟨0, 0⟩ : Landmark ℚ) ⟨1, 0⟩ = 1 := by
  have h : ((0 : ℚ) - 1) ^ 2 + (0 - 0) ^ 2 = 1 * 1 := by norm_num
  simp only [rawDistance, h, Rat.sqrt_eq]
  norm_num

/-- Touching wrists (distance 0) map no higher than wrists at distance `1/2`. -/
theorem calculateHandDistance_mono_witness :
    ∃ r1 r2, calculateHandDistance Rat.sqrt [⟨0, 0⟩] [⟨0, 0⟩] = some r1 ∧
      calculateHandDistance Rat.sqrt [⟨0, 0⟩] [⟨3/10, 4/10⟩] = some r2 ∧ r1 ≤ r2 :=
  calculateHandDistance_mono Rat.sqrt [⟨0, 0⟩] [⟨0, 0⟩] [⟨0, 0⟩] [⟨3/10, 4/10⟩]
    ⟨0, 0⟩ ⟨0, 0⟩ ⟨0, 0⟩ ⟨3/10, 4/10⟩ (by simp) (by simp) (by simp) (by simp)
    (by rw [rawDistance_zero, rawDistance_far]; norm_num)

/-- Wrists at distance 0, 1 and `13/40 = 0.325` map to 0, 1 and `1/2`. -/
theorem calculateHandDistance_ends_witness :
    calculateHandDistance Rat.sqrt [⟨0, 0⟩] [⟨0, 0⟩] = some (0 : ℚ) ∧
    calculateHandDistance Rat.sqrt [⟨0, 0⟩] [⟨1, 0⟩] = some (1 : ℚ) ∧
    calculateHandDistance Rat.sqrt [⟨0, 0⟩] [⟨13/40, 0⟩] = some (1/2 : ℚ) := by
  refine ⟨?_, ?_, ?_⟩
  · exact (calculateHandDistance_ends Rat.sqrt [⟨0, 0⟩] [⟨0, 0⟩] ⟨0, 0⟩ ⟨0, 0⟩
      (by simp) (by simp)).1 (by rw [rawDistance_zero]; norm_num)
  · exact (calculateHandDistance_ends Rat.sqrt [⟨0, 0⟩] [⟨1, 0⟩] ⟨0, 0⟩ ⟨1, 0⟩
      (by simp) (by simp)).2.1 (by rw [rawDistance_one]; norm_num)
  · have h := (calculateHandDistance_ends Rat.sqrt [⟨0, 0⟩] [⟨13/40, 0⟩] ⟨0, 0⟩ ⟨13/40, 0⟩
      (by simp) (by simp)).2.2 (by rw [rawDistance_mid]; norm_num)
    rw [h]
    norm_num

end DistanceOrderWitnesses

/-! ## The classifier: range, mirroring in exact arithmetic -/

section ClassifierShape

variable {α : Type} [LinearOrderedField α]

theorem getElem?_mirrorHand (landmarks : Hand α) (i : Nat) :
    (mirrorHand landmarks)[i]? = (landmarks[i]?).map mirror := by
  simp [mirrorHand]

theorem fingerExtendedAt_mirror (landmarks : Hand α) (i : Nat) :
    fingerExtendedAt (mirrorHand landmarks) i = fingerExtendedAt landmarks i := by
  unfold fingerExtendedAt
  cases fingerTips[i]? with
  | none => rfl
  | some tipIdx =>
    cases fingerBases[i]? with
    | none => rfl
    | some baseIdx =>
      simp only [Option.bind_eq_bind, Option.some_bind, getElem?_mirrorHand]
      cases landmarks[tipIdx]? with
      | none => rfl
      | some tip =>
        cases landmarks[baseIdx]? with
        | none => rfl
        | some base => rfl

theorem pushFingers_mirror (landmarks : Hand α) (is : List Nat) :
    pushFingers (mirrorHand landmarks) is = pushFingers landmarks is := by
  induction is with
  | nil => rfl
  | cons i rest ih => simp only [pushFingers, fingerExtendedAt_mirror, ih]

theorem thumb_mirror (t b : Landmark α) :
    abs ((mirror t).x - (mirror b).x) = abs (t.x - b.x) := by
  have e : (mirror t).x - (mirror b).x = -(t.x - b.x) := by
    simp only [mirror]; ring
  rw [e, abs_neg]

/-- C18: on every hand of 21 landmarks `detectHandNumber` returns an integer between 0
and 5. -/
theorem detectHandNumber_range (landmarks : Hand α) (isRightHand : Bool)
    (hlen : landmarks.length = 21) :
    ∃ n, detectHandNumber landmarks isRightHand = some n ∧ n ∈ [0, 1, 2, 3, 4, 5] := by
  refine ⟨digit landmarks, detectHandNumber_eq landmarks isRightHand hlen, ?_⟩
  have h := digit_le_five landmarks
  generalize digit landmarks = n at h
  interval_cases n <;> simp

/-- In exact arithmetic, mirroring a hand horizontally (every `x` replaced by `1 − x`) leaves
the result of `detectHandNumber` unchanged. -/
theorem mirrorHand_detectHandNumber (landmarks : Hand α) (isRightHand : Bool) :
    detectHandNumber (mirrorHand landmarks) isRightHand =
      detectHandNumber landmarks isRightHand := by
  unfold detectHandNumber
  simp only [getElem?_mirrorHand, pushFingers_mirror]
  cases landmarks[thumbTip]? with
  | none => rfl
  | some t =>
    cases landmarks[thumbBase]? with
    | none => rfl
    | some b =>
      simp only [Option.map_some', Option.bind_eq_bind, Option.some_bind, thumb_mirror]

end ClassifierShape

/-- The two-finger hand is classified inside `0..5`. -/
theorem detectHandNumber_range_witness :
    ∃ n, detectHandNumber twoHand false = some n ∧ n ∈ [0, 1, 2, 3, 4, 5] :=
  detectHandNumber_range twoHand false rfl

/-! ## Landmark arrays of the wrong length -/

section WrongCountFrames

variable {α : Type}

theorem drawHandSkeleton_full (l : Hand α) (h : 21 ≤ l.length) :
    drawHandSkeleton l = some () := by
  simp only [drawHandSkeleton, connections, List.all_cons, List.all_nil, Bool.and_true,
    Bool.and_eq_true, decide_eq_true_eq, ite_eq_left_iff]
  intro hn
  exact absurd (by omega) hn

theorem drawHandSkeleton_short (l : Hand α) (h : l.length < 21) :
    drawHandSkeleton l = none := by
  simp only [drawHandSkeleton, connections, List.all_cons, List.all_nil, Bool.and_true,
    Bool.and_eq_true, decide_eq_true_eq, ite_eq_right_iff]
  intro hn
  omega

theorem drawIfPresent_full (r : HandRef α) (h : r.Full) : drawIfPresent r = some () := by
  cases r with
  | null => rfl
  | undefined => rfl
  | landmarks l => exact drawHandSkeleton_full l h

theorem identifyHands_full (labels : List Handedness) :
    ∀ (hands : List (Hand α)) (acc : HandRef α × HandRef α),
      (∀ h ∈ hands, 21 ≤ h.length) → acc.1.Full → acc.2.Full →
      (identifyHands labels hands acc).1.Full ∧ (identifyHands labels hands acc).2.Full := by
  induction labels with
  | nil => intro hands acc _ h1 h2; exact ⟨h1, h2⟩
  | cons entry rest ih =>
    intro hands acc hh h1 h2
    cases hands with
    | nil =>
      simp only [identifyHands, List.head?_nil, List.tail_nil]
      apply ih
      · intro h hmem; cases hmem
      · split_ifs
        · trivial
        · exact h1
      · split_ifs
        · exact h2
        · trivial
    | cons hand more =>
      simp only [identifyHands, List.head?_cons, List.tail_cons]
      have hhand : 21 ≤ hand.length := hh hand (List.mem_cons_self _ _)
      apply ih
      · intro h hmem; exact hh h (List.mem_cons_of_mem _ hmem)
      · split_ifs
        · exact hhand
        · exact h1
      · split_ifs
        · exact h2
        · exact hhand

theorem hands_full (results : Results α) (h : results.Full) :
    results.hands.1.Full ∧ results.hands.2.Full := by
  unfold Results.hands
  unfold Results.Full at h
  cases hl : results.multiHandLandmarks with
  | none => exact ⟨trivial, trivial⟩
  | some hands =>
    rw [hl] at h
    cases hd : results.multiHandedness with
    | none => exact ⟨trivial, trivial⟩
    | some labels => exact identifyHands_full labels hands _ h trivial trivial

theorem hands_of_missing_list (results : Results α)
    (h : results.multiHandLandmarks = none ∨ results.multiHandedness = none ∨
      results.multiHandedness = some []) :
    results.hands = (HandRef.null, HandRef.null) := by
  unfold Results.hands
  rcases h with h | h | h
  · rw [h]
  · rw [h]
    cases results.multiHandLandmarks <;> rfl
  · rw [h]
    cases results.multiHandLandmarks <;> rfl

end WrongCountFrames

section WrongCount

variable {α : Type} [LinearOrderedField α]

theorem getElem?_of_lt {β : Type} (l : List β) (i : Nat) (hi : i < l.length) :
    ∃ a, l[i]? = some a :=
  ⟨l[i], List.getElem?_eq_getElem hi⟩

theorem detectHandNumber_full (landmarks : Hand α) (r : Bool) (h : 21 ≤ landmarks.length) :
    detectHandNumber landmarks r = some (digit landmarks) := by
  obtain ⟨a2, h2⟩ := getElem?_of_lt landmarks 2 (by omega)
  obtain ⟨a4, h4⟩ := getElem?_of_lt landmarks 4 (by omega)
  obtain ⟨a6, h6⟩ := getElem?_of_lt landmarks 6 (by omega)
  obtain ⟨a8, h8⟩ := getElem?_of_lt landmarks 8 (by omega)
  obtain ⟨a10, h10⟩ := getElem?_of_lt landmarks 10 (by omega)
  obtain ⟨a12, h12⟩ := getElem?_of_lt landmarks 12 (by omega)
  obtain ⟨a14, h14⟩ := getElem?_of_lt landmarks 14 (by omega)
  obtain ⟨a16, h16⟩ := getElem?_of_lt landmarks 16 (by omega)
  obtain ⟨a18, h18⟩ := getElem?_of_lt landmarks 18 (by omega)
  obtain ⟨a20, h20⟩ := getElem?_of_lt landmarks 20 (by omega)
  simp [detectHandNumber, pushFingers, fingerExtendedAt, fingerTips, fingerBases, thumbTip,
    thumbBase, digit,
    thumbDisplaced, indexExtended, middleExtended, ringExtended, pinkyExtended, tipAboveBase,
    h2, h4, h6, h8, h10, h12, h14, h16, h18, h20]

theorem reportLeftNumber_full (r : HandRef α) (h : r.Full) :
    reportLeftNumber r = some r.digit := by
  cases r with
  | null => rfl
  | undefined => rfl
  | landmarks l => exact detectHandNumber_full l false h

theorem reportRightGesture_full (r : HandRef α) (h : r.Full) :
    reportRightGesture r = some r.gesture := by
  cases r with
  | null => rfl
  | undefined => rfl
  | landmarks l =>
    have hl : 21 ≤ l.length := h
    simp [reportRightGesture, detectHandNumber_full l true hl, HandRef.gesture]

theorem statusBlock_full (self : HandGestureDetector) (lh rh : HandRef α)
    (hl : lh.Full) (hr : rh.Full) :
    statusBlock self lh rh =
      some (if self.onHandsDetected then [Call.onHandsDetected (statusOf lh rh)] else []) := by
  unfold statusBlock
  rw [reportLeftNumber_full lh hl, reportRightGesture_full rh hr]
  cases self.onHandsDetected <;> simp [statusOf]

theorem dualHandBlock_full (sqrt : α → α) (self : HandGestureDetector) (lh rh : HandRef α)
    (hl : lh.Full) (hr : rh.Full) :
    ∃ self1 calls, dualHandBlock sqrt self lh rh = some (self1, calls) ∧
      ∀ c ∈ calls, c.isStatus = false := by
  cases lh with
  | null => exact ⟨self, [], rfl, by simp⟩
  | undefined => exact ⟨self, [], rfl, by simp⟩
  | landmarks l =>
    cases rh with
    | null => exact ⟨self, [], rfl, by simp⟩
    | undefined => exact ⟨self, [], rfl, by simp⟩
    | landmarks r =>
      have hl21 : 21 ≤ l.length := hl
      have hr21 : 21 ≤ r.length := hr
      obtain ⟨a, ha⟩ := getElem?_of_lt l 0 (by omega)
      obtain ⟨b, hb⟩ := getElem?_of_lt r 0 (by omega)
      have heq : dualHandBlock sqrt self (HandRef.landmarks l) (HandRef.landmarks r) =
          some ({ self with
                  leftHandNumber := digit l
                  rightHandGesture :=
                    some (if digit r > 0 then toString (digit r) else "open") },
                (if digit l > 0 ∧ digit l = digit r then
                  (if self.onDualHandGesture then [Call.onDualHandGesture (digit l)] else [])
                 else []) ++
                (if self.onHandDistance then [Call.onHandDistance (mapDistance sqrt a b)]
                 else [])) := by
        simp only [dualHandBlock, detectHandNumber_full l false hl21,
          detectHandNumber_full r true hr21, calculateHandDistance_eq sqrt l r a b ha hb,
          Option.bind_eq_bind, Option.some_bind, Option.pure_def]
      refine ⟨_, _, heq, ?_⟩
      intro c hc
      cases c with
      | onDualHandGesture n => rfl
      | onHandDistance d => rfl
      | onHandsDetected data =>
        exfalso
        split_ifs at hc <;> simp at hc

/-- On a frame whose arrays have at least 21 landmarks `onResults` returns and makes
exactly one status report, built from the extracted pair of hands. -/
theorem onResults_status_full (sqrt : α → α) (self : HandGestureDetector)
    (results : Results α) (hfull : results.Full) (hcb : self.onHandsDetected = true) :
    ∃ self1 calls, onResults sqrt self results = some (self1, calls) ∧
      calls.filter Call.isStatus =
        [Call.onHandsDetected (statusOf results.hands.1 results.hands.2)] := by
  have hok := hands_full results hfull
  revert hok
  unfold onResults Results.hands
  cases hl : results.multiHandLandmarks with
  | none =>
    intro _
    exact ⟨self, _, rfl, by simp [hcb, Call.isStatus, List.filter, statusOf, HandRef.notNull,
      HandRef.digit, HandRef.gesture]⟩
  | some hands =>
    cases hd : results.multiHandedness with
    | none =>
      intro _
      exact ⟨self, _, rfl, by simp [hcb, Call.isStatus, List.filter, statusOf,
        HandRef.notNull, HandRef.digit, HandRef.gesture]⟩
    | some labels =>
      intro hok
      obtain ⟨self1, calls, hdual, hcalls⟩ := dualHandBlock_full sqrt self _ _ hok.1 hok.2
      refine ⟨self1, calls ++ [Call.onHandsDetected
        (statusOf (identifyHands labels hands (HandRef.null, HandRef.null)).1
          (identifyHands labels hands (HandRef.null, HandRef.null)).2)], ?_, ?_⟩
      · simp only [drawIfPresent_full _ hok.1, drawIfPresent_full _ hok.2,
          statusBlock_full self _ _ hok.1 hok.2, hdual, hcb, Option.bind_eq_bind,
          Option.some_bind, Option.pure_def, if_true]
      · have hnil : calls.filter Call.isStatus = [] := by
          rw [List.filter_eq_nil_iff]
          intro c hc
          simp [hcalls c hc]
        rw [List.filter_append, hnil]
        simp [Call.isStatus, List.filter]

theorem onResults_short (sqrt : α → α) (self : HandGestureDetector) (results : Results α)
    (l : Hand α)
    (hl : results.hands.1 = HandRef.landmarks l ∨ results.hands.2 = HandRef.landmarks l)
    (hshort : l.length < 21) : onResults sqrt self results = none := by
  revert hl
  unfold onResults Results.hands
  cases results.multiHandLandmarks with
  | none => intro hl; rcases hl with h | h <;> cases h
  | some hands =>
    cases results.multiHandedness with
    | none => intro hl; rcases hl with h | h <;> cases h
    | some labels =>
      intro hl
      have hdraw : drawIfPresent (HandRef.landmarks l) = none :=
        drawHandSkeleton_short l hshort
      have hl1 : (identifyHands labels hands (HandRef.null, HandRef.null)).1 =
            HandRef.landmarks l ∨
          (identifyHands labels hands (HandRef.null, HandRef.null)).2 =
            HandRef.landmarks l := hl
      clear hl
      simp only []
      generalize identifyHands labels hands (HandRef.null, HandRef.null) = p at hl1 ⊢
      obtain ⟨lh, rh⟩ := p
      rcases hl1 with h | h
      · have h1 : lh = HandRef.landmarks l := h
        subst h1
        simp [hdraw]
      · have h2 : rh = HandRef.landmarks l := h
        subst h2
        cases hd : drawIfPresent lh <;> simp [hdraw]

end WrongCount

/-! ## The interpreter: malformed input, totality, reports, state -/

section MoreInterpreterLemmas

variable {α : Type} [LinearOrderedField α]

theorem onResults_both_at (sqrt : α → α) (self : HandGestureDetector) (results : Results α)
    (hwf : results.WellFormed) (l r : Hand α)
    (h : results.hands = (HandRef.landmarks l, HandRef.landmarks r)) (a b : Landmark α)
    (ha : l[0]? = some a) (hb : r[0]? = some b) :
    onResults sqrt self results =
      some ({ self with
              leftHandNumber := digit l
              rightHandGesture := some (if digit r > 0 then toString (digit r) else "open") },
            ((if digit l > 0 ∧ digit l = digit r then
              (if self.onDualHandGesture then [Call.onDualHandGesture (digit l)] else [])
             else []) ++
            (if self.onHandDistance then [Call.onHandDistance (mapDistance sqrt a b)]
             else [])) ++
            (if self.onHandsDetected then
              [Call.onHandsDetected (statusOf (HandRef.landmarks l) (HandRef.landmarks r))]
             else [])) := by
  obtain ⟨a1, b1, ha1, hb1, hres⟩ := onResults_both sqrt self results hwf l r h
  have ea : a1 = a := Option.some.inj (ha1.symm.trans ha)
  have eb : b1 = b := Option.some.inj (hb1.symm.trans hb)
  subst ea eb
  exact hres

end MoreInterpreterLemmas

section MoreInterpreterClaims

variable {α : Type} [LinearOrderedField α]

/-- C13, amended: when a hand extracted from the frame has fewer than 21 landmarks,
`onResults` raises an error; when every landmark array has at least 21 landmarks (so also
more than 21), `onResults` returns and its one status report flags each extracted hand as
detected and carries the digit `detectHandNumber` gives it. -/
theorem onResults_wrong_count (sqrt : α → α) (self : HandGestureDetector)
    (results : Results α) :
    (∀ l, (results.hands.1 = HandRef.landmarks l ∨ results.hands.2 = HandRef.landmarks l) →
      l.length < 21 → onResults sqrt self results = none) ∧
    (results.Full → self.onHandsDetected = true →
      ∃ self1 calls data, onResults sqrt self results = some (self1, calls) ∧
        calls.filter Call.isStatus = [Call.onHandsDetected data] ∧
        (∀ l, results.hands.1 = HandRef.landmarks l →
          data.leftHand = true ∧ detectHandNumber l false = some data.leftNumber) ∧
        (∀ r, results.hands.2 = HandRef.landmarks r →
          data.rightHand = true ∧
            reportRightGesture (HandRef.landmarks r) = some data.rightGesture)) := by
  constructor
  · intro l hl hshort
    exact onResults_short sqrt self results l hl hshort
  · intro hfull hcb
    obtain ⟨self1, calls, hres, hst⟩ := onResults_status_full sqrt self results hfull hcb
    have hok := hands_full results hfull
    refine ⟨self1, calls, _, hres, hst, ?_, ?_⟩
    · intro l hl
      rw [hl] at hok
      rw [hl]
      exact ⟨rfl, detectHandNumber_full l false hok.1⟩
    · intro r hr
      rw [hr] at hok
      rw [hr]
      exact ⟨rfl, reportRightGesture_full (HandRef.landmarks r) hok.2⟩

/-- C14, amended: in a frame of labelled 21-landmark hands, a hand whose label is anything
but `"Right"` (a missing tag included) is taken as the user's right hand: `onResults`
returns, its status report has `rightHand = true`, carries that hand's gesture when it is
the only hand not labelled `"Right"`, and has `leftHand = false` when it is the only hand. -/
theorem other_label_is_right (sqrt : α → α) (self : HandGestureDetector)
    (entries : List (String × Hand α)) (hcb : self.onHandsDetected = true)
    (hlen : ∀ e ∈ entries, e.2.length = 21) (label : String) (H : Hand α)
    (hmem : (label, H) ∈ entries) (hlabel : label ≠ "Right") :
    ∃ self1 calls data, onResults sqrt self (frameOf entries) = some (self1, calls) ∧
      calls.filter Call.isStatus = [Call.onHandsDetected data] ∧
      data.rightHand = true ∧
      ((∀ e ∈ entries, e.1 ≠ "Right" → e.2 = H) →
        reportRightGesture (HandRef.landmarks H) = some data.rightGesture) ∧
      (entries = [(label, H)] → data.leftHand = false) := by
  obtain ⟨self1, calls, hres, hstatus⟩ :=
    onResults_status sqrt self (frameOf entries) (frameOf_wf entries hlen) hcb
  refine ⟨self1, calls, _, hres, hstatus, ?_, ?_, ?_⟩
  · rw [frameOf_hands]
    exact identifyHands_right_notNull entries _ (Or.inr ⟨_, hmem, hlabel⟩)
  · intro huniq
    have hl : H.length = 21 := hlen _ hmem
    rw [frameOf_hands, statusOf,
      identifyHands_right_eq H entries _ huniq (Or.inr ⟨_, hmem, hlabel⟩)]
    exact reportRightGesture_ok (HandRef.landmarks H) hl
  · intro hone
    subst hone
    simp [frameOf, Results.hands, identifyHands, statusOf, HandRef.notNull, hlabel]

/-- C15: on every frame whose landmark arrays have 21 landmarks, with a callback installed
on `onHandsDetected`, `onResults` returns and makes exactly one status report; when a list
is missing or there is no handedness entry the report is `leftHand = false`,
`rightHand = false`, `leftNumber = 0`, `rightGesture = null`. -/
theorem onResults_total (sqrt : α → α) (self : HandGestureDetector) (results : Results α)
    (hwf : results.WellFormed) (hcb : self.onHandsDetected = true) :
    ∃ self1 calls data, onResults sqrt self results = some (self1, calls) ∧
      calls.filter Call.isStatus = [Call.onHandsDetected data] ∧
      ((results.multiHandLandmarks = none ∨ results.multiHandedness = none ∨
          results.multiHandedness = some []) →
        data = { leftHand := false, rightHand := false, leftNumber := 0,
                 rightGesture := RightGesture.null, rightOpenness := 0 }) := by
  obtain ⟨self1, calls, hres, hstatus⟩ := onResults_status sqrt self results hwf hcb
  refine ⟨self1, calls, _, hres, hstatus, ?_⟩
  intro hempty
  rw [hands_of_missing_list results hempty]
  rfl

/-- C16, amended: on every well-formed frame the one status report carries the detection
flags, `leftNumber` is `detectHandNumber` of the left hand when present and 0 otherwise,
and `rightGesture` is `detectHandNumber` of the right hand when that digit is not 0, the
string `'pose'` when it is 0, and `null` when the right hand is absent. -/
theorem status_report_fields (sqrt : α → α) (self : HandGestureDetector)
    (results : Results α) (hwf : results.WellFormed) (hcb : self.onHandsDetected = true) :
    ∃ self1 calls data, onResults sqrt self results = some (self1, calls) ∧
      calls.filter Call.isStatus = [Call.onHandsDetected data] ∧
      data.leftHand = results.hands.1.notNull ∧ data.rightHand = results.hands.2.notNull ∧
      (∀ l, results.hands.1 = HandRef.landmarks l →
        detectHandNumber l false = some data.leftNumber) ∧
      (results.hands.1.truthy = false → data.leftNumber = 0) ∧
      (∀ r, results.hands.2 = HandRef.landmarks r →
        ∃ n, detectHandNumber r true = some n ∧ n ≤ 5 ∧
          data.rightGesture = if n = 0 then RightGesture.pose else RightGesture.number n) ∧
      (results.hands.2.truthy = false → data.rightGesture = RightGesture.null) := by
  obtain ⟨self1, calls, hres, hstatus⟩ := onResults_status sqrt self results hwf hcb
  have hok := hands_ok results hwf
  refine ⟨self1, calls, _, hres, hstatus, rfl, rfl, ?_, ?_, ?_, ?_⟩
  · intro l hl
    rw [hl] at hok
    rw [hl]
    exact detectHandNumber_eq l false hok.1
  · intro hl
    cases h : results.hands.1 with
    | null => rfl
    | undefined => rfl
    | landmarks l => rw [h] at hl; cases hl
  · intro r hr
    rw [hr] at hok
    rw [hr]
    exact ⟨digit r, detectHandNumber_eq r true hok.2, digit_le_five r, rfl⟩
  · intro hr
    cases h : results.hands.2 with
    | null => rfl
    | undefined => rfl
    | landmarks r => rw [h] at hr; cases hr

/-- C17: on every well-formed frame, the calls `onResults` makes are the same when it is
run again on the state it left, and the same from any detector state with the same
callbacks installed; the state left by the second run is the state left by the first. -/
theorem onResults_same_frame (sqrt : α → α) (self : HandGestureDetector)
    (results : Results α) (hwf : results.WellFormed) :
    ∃ self1 calls, onResults sqrt self results = some (self1, calls) ∧
      onResults sqrt self1 results = some (self1, calls) ∧
      ∀ other, sameCallbacks self other →
        (onResults sqrt other results).map Prod.snd = some calls := by
  rcases both_or_single results.hands.1 results.hands.2 with ⟨l, r, h1, h2⟩ | hs
  · have hh : results.hands = (HandRef.landmarks l, HandRef.landmarks r) := Prod.ext h1 h2
    obtain ⟨a, b, ha, hb, hres⟩ := onResults_both sqrt self results hwf l r hh
    refine ⟨_, _, hres, ?_, ?_⟩
    · exact onResults_both_at sqrt _ results hwf l r hh a b ha hb
    · rintro other ⟨c1, c2, c3⟩
      rw [onResults_both_at sqrt other results hwf l r hh a b ha hb]
      simp only [Option.map_some', c1, c2, c3]
  · refine ⟨_, _, onResults_single sqrt self results hwf hs, ?_, ?_⟩
    · exact onResults_single sqrt self results hwf hs
    · rintro other ⟨_, _, c3⟩
      rw [onResults_single sqrt other results hwf hs]
      simp only [Option.map_some', c3]

end MoreInterpreterClaims

section MoreConcreteFrames

theorem digit_fistHand : digit fistHand = 0 := by
  simp [digit, fistHand, poseHand_thumb, poseHand_index, poseHand_middle, poseHand_ring,
    poseHand_pinky, strictNumber_cases]
  norm_num

theorem digit_longHand : digit longHand = 2 := by
  simp [digit, longHand, twoHand, poseHand, thumbDisplaced, indexExtended, middleExtended,
    ringExtended, pinkyExtended, tipAboveBase, strictNumber_cases]
  norm_num

theorem shortHand_length : shortHand.length = 20 := rfl

theorem longHand_length : longHand.length = 22 := rfl

theorem shortFrame_hands : shortFrame.hands = (HandRef.landmarks shortHand, HandRef.null) := by
  simp [shortFrame, frameOf, Results.hands, identifyHands]

theorem longFrame_hands : longFrame.hands = (HandRef.landmarks longHand, HandRef.null) := by
  simp [longFrame, frameOf, Results.hands, identifyHands]

theorem longFrame_full : longFrame.Full := by
  simp [longFrame, frameOf, Results.Full, longHand_length]

theorem untaggedFrame_hands :
    untaggedFrame.hands = (HandRef.null, HandRef.landmarks twoHand) := by
  simp [untaggedFrame, frameOf, Results.hands, identifyHands]

theorem untaggedFrame_wf : untaggedFrame.WellFormed := by
  simp [untaggedFrame, frameOf, Results.WellFormed, twoHand, poseHand_length]

theorem fistRightFrame_hands :
    fistRightFrame.hands = (HandRef.null, HandRef.landmarks fistHand) := by
  simp [fistRightFrame, frameOf, Results.hands, identifyHands]

theorem fistRightFrame_wf : fistRightFrame.WellFormed := by
  simp [fistRightFrame, frameOf, Results.WellFormed, fistHand, poseHand_length]

theorem emptyFrame_wf : emptyFrame.WellFormed := by
  simp [emptyFrame, frameOf, Results.WellFormed]

theorem noListsFrame_wf : noListsFrame.WellFormed := by
  simp [noListsFrame, Results.WellFormed]

end MoreConcreteFrames

section MoreInterpreterWitnesses

/-- C13, counterexample: a frame whose only hand has 20 landmarks makes `onResults` raise
an error, and a frame whose only hand has 22 landmarks has that hand reported as detected
with digit 2. -/
theorem short_hand_throws :
    shortHand.length = 20 ∧
    onResults Rat.sqrt (setupGestureCallbacks HandGestureDetector.new) shortFrame = none ∧
    longHand.length = 22 ∧
    (onResults Rat.sqrt (setupGestureCallbacks HandGestureDetector.new) longFrame).map
        Prod.snd =
      some [Call.onHandsDetected
              { leftHand := true, rightHand := false, leftNumber := 2,
                rightGesture := RightGesture.null, rightOpenness := 0 }] := by
  refine ⟨rfl, ?_, rfl, ?_⟩
  · exact onResults_short Rat.sqrt _ shortFrame shortHand
      (Or.inl (by rw [shortFrame_hands])) (by decide)
  · have hdraw : drawHandSkeleton longHand = some () :=
      drawHandSkeleton_full longHand (by decide)
    have hdigit := detectHandNumber_full longHand false (by decide)
    simp [onResults, longFrame, frameOf, identifyHands, hdraw, dualHandBlock, statusBlock,
      reportLeftNumber, reportRightGesture, hdigit, digit_longHand, setupGestureCallbacks,
      HandRef.notNull, drawIfPresent]

/-- The 20-landmark frame raises an error; the 22-landmark frame reports its hand as
detected with digit 2. -/
theorem onResults_wrong_count_witness :
    onResults Rat.sqrt (setupGestureCallbacks HandGestureDetector.new) shortFrame = none ∧
    ∃ self1 calls data,
      onResults Rat.sqrt (setupGestureCallbacks HandGestureDetector.new) longFrame =
        some (self1, calls) ∧
      calls.filter Call.isStatus = [Call.onHandsDetected data] ∧
      data.leftHand = true ∧ data.leftNumber = 2 := by
  constructor
  · exact (onResults_wrong_count Rat.sqrt (setupGestureCallbacks HandGestureDetector.new)
      shortFrame).1 shortHand (Or.inl (by rw [shortFrame_hands])) (by decide)
  · obtain ⟨self1, calls, data, hres, hst, hleft, _⟩ :=
      (onResults_wrong_count Rat.sqrt (setupGestureCallbacks HandGestureDetector.new)
        longFrame).2 longFrame_full rfl
    have h := hleft longHand (by rw [longFrame_hands])
    have hd := h.2
    rw [detectHandNumber_full longHand false (by decide), digit_longHand] at hd
    exact ⟨self1, calls, data, hres, hst, h.1, (Option.some.inj hd).symm⟩

/-- C14, counterexample: a frame whose only hand carries the empty label is reported with
`rightHand = true` and that hand's digit as `rightGesture`. -/
theorem untagged_hand_detected :
    (onResults Rat.sqrt (setupGestureCallbacks HandGestureDetector.new) untaggedFrame).map
        Prod.snd =
      some [Call.onHandsDetected
              { leftHand := false, rightHand := true, leftNumber := 0,
                rightGesture := RightGesture.number 2, rightOpenness := 0 }] := by
  rw [onResults_single Rat.sqrt _ untaggedFrame untaggedFrame_wf
    (Or.inl (by rw [untaggedFrame_hands]; rfl)), untaggedFrame_hands]
  simp [setupGestureCallbacks, statusOf, HandRef.notNull, HandRef.digit, HandRef.gesture,
    digit_twoHand]

/-- A lone hand with the empty label is reported as the user's right hand showing 2. -/
theorem other_label_is_right_witness :
    ∃ self1 calls data,
      onResults Rat.sqrt (setupGestureCallbacks HandGestureDetector.new)
        (frameOf [("", twoHand)]) = some (self1, calls) ∧
      calls.filter Call.isStatus = [Call.onHandsDetected data] ∧
      data.rightHand = true ∧ data.leftHand = false ∧
      data.rightGesture = RightGesture.number 2 := by
  obtain ⟨self1, calls, data, hres, hst, hright, hgest, hleft⟩ :=
    other_label_is_right Rat.sqrt (setupGestureCallbacks HandGestureDetector.new)
      [("", twoHand)] rfl (by simp [twoHand, poseHand_length]) "" twoHand (by simp)
      (by decide)
  have hg := hgest (by simp)
  rw [reportRightGesture_ok (HandRef.landmarks twoHand) (by rfl)] at hg
  have hg2 : data.rightGesture = RightGesture.number 2 := by
    rw [← Option.some.inj hg]
    simp [HandRef.gesture, digit_twoHand]
  exact ⟨self1, calls, data, hres, hst, hright, hleft rfl, hg2⟩

/-- The empty frame and the frame without lists each give the all-absent report. -/
theorem onResults_total_witness :
    (∃ self1 calls,
      onResults Rat.sqrt (setupGestureCallbacks HandGestureDetector.new) emptyFrame =
        some (self1, calls) ∧
      calls.filter Call.isStatus = [Call.onHandsDetected
        { leftHand := false, rightHand := false, leftNumber := 0,
          rightGesture := RightGesture.null, rightOpenness := 0 }]) ∧
    (∃ self1 calls,
      onResults Rat.sqrt (setupGestureCallbacks HandGestureDetector.new) noListsFrame =
        some (self1, calls) ∧
      calls.filter Call.isStatus = [Call.onHandsDetected
        { leftHand := false, rightHand := false, leftNumber := 0,
          rightGesture := RightGesture.null, rightOpenness := 0 }]) := by
  constructor
  · obtain ⟨self1, calls, data, hres, hst, hdata⟩ :=
      onResults_total Rat.sqrt (setupGestureCallbacks HandGestureDetector.new) emptyFrame
        emptyFrame_wf rfl
    rw [hdata (Or.inr (Or.inr rfl))] at hst
    exact ⟨self1, calls, hres, hst⟩
  · obtain ⟨self1, calls, data, hres, hst, hdata⟩ :=
      onResults_total Rat.sqrt (setupGestureCallbacks HandGestureDetector.new) noListsFrame
        noListsFrame_wf rfl
    rw [hdata (Or.inl rfl)] at hst
    exact ⟨self1, calls, hres, hst⟩

/-- C16, counterexample: the user's right hand is a fist, `detectHandNumber` gives 0 for
it, and the status report carries `rightGesture = 'pose'`, not the digit 0. -/
theorem fist_reported_as_pose :
    detectHandNumber fistHand true = some 0 ∧
    (onResults Rat.sqrt (setupGestureCallbacks HandGestureDetector.new) fistRightFrame).map
        Prod.snd =
      some [Call.onHandsDetected
              { leftHand := false, rightHand := true, leftNumber := 0,
                rightGesture := RightGesture.pose, rightOpenness := 0 }] := by
  constructor
  · rw [detectHandNumber_eq _ _ (by rfl), digit_fistHand]
  · rw [onResults_single Rat.sqrt _ fistRightFrame fistRightFrame_wf
      (Or.inl (by rw [fistRightFrame_hands]; rfl)), fistRightFrame_hands]
    simp [setupGestureCallbacks, statusOf, HandRef.notNull, HandRef.digit, HandRef.gesture,
      digit_fistHand]

/-- Left hand 2, right hand open: the report carries `leftNumber = 2` and
`rightGesture = 5` although the digits disagree. -/
theorem status_report_fields_witness :
    ∃ self1 calls data,
      onResults Rat.sqrt (setupGestureCallbacks HandGestureDetector.new) mixedFrame =
        some (self1, calls) ∧
      calls.filter Call.isStatus = [Call.onHandsDetected data] ∧
      data.leftHand = true ∧ data.rightHand = true ∧ data.leftNumber = 2 ∧
      data.rightGesture = RightGesture.number 5 := by
  obtain ⟨self1, calls, data, hres, hst, hl, hr, hnum, _, hgest, _⟩ :=
    status_report_fields Rat.sqrt (setupGestureCallbacks HandGestureDetector.new) mixedFrame
      mixedFrame_wf rfl
  have h1 := hnum twoHand (by rw [mixedFrame_hands])
  rw [detectHandNumber_eq _ _ (by rfl), digit_twoHand] at h1
  obtain ⟨n, hn, _, hg⟩ := hgest openHandFar (by rw [mixedFrame_hands])
  rw [detectHandNumber_eq _ _ (by rfl), digit_openHandFar] at hn
  have hn5 : n = 5 := (Option.some.inj hn).symm
  subst hn5
  rw [mixedFrame_hands] at hl hr
  exact ⟨self1, calls, data, hres, hst, hl, hr, (Option.some.inj h1).symm, hg⟩

/-- Both hands showing 2: the second run on the same frame, and a run from a detector
holding other gesture fields, make the same calls, `onDualHandGesture(2)` among them. -/
theorem onResults_same_frame_witness :
    ∃ self1 calls,
      onResults Rat.sqrt (setupGestureCallbacks HandGestureDetector.new) bothTwoFrame =
        some (self1, calls) ∧
      onResults Rat.sqrt self1 bothTwoFrame = some (self1, calls) ∧
      (onResults Rat.sqrt usedDetector bothTwoFrame).map Prod.snd = some calls ∧
      Call.onDualHandGesture 2 ∈ calls := by
  obtain ⟨self1, calls, hres, hagain, hother⟩ :=
    onResults_same_frame Rat.sqrt (setupGestureCallbacks HandGestureDetector.new)
      bothTwoFrame bothTwoFrame_wf
  refine ⟨self1, calls, hres, hagain, hother usedDetector ⟨rfl, rfl, rfl⟩, ?_⟩
  obtain ⟨self2, calls2, hres2, hiff⟩ :=
    mode_call_iff Rat.sqrt (setupGestureCallbacks HandGestureDetector.new) bothTwoFrame
      bothTwoFrame_wf
  have e : calls = calls2 := by
    have := hres.symm.trans hres2
    injection this with this
    exact (Prod.mk.inj this).2
  rw [e]
  exact (hiff 2).mpr ⟨rfl, twoHand, twoHandFar, bothTwoFrame_hands,
    by rw [detectHandNumber_eq _ _ (by rfl), digit_twoHand],
    by rw [detectHandNumber_eq _ _ (by rfl), digit_twoHandFar], by decide, by decide⟩

end MoreInterpreterWitnesses

/-! ## The renderer: scale and smoothing -/

section RendererLemmas

variable {α : Type} [LinearOrderedField α]

theorem max_min_eq_clamp (s : α) : max 0 (min 1 s) = clamp s 0 1 := by
  rw [← min_max_eq_clamp]
  rcases le_total s 0 with h0 | h0
  · rw [min_eq_right (le_trans h0 zero_le_one), max_eq_left h0, max_eq_right h0,
      min_eq_left zero_le_one]
  · rcases le_total s 1 with h1 | h1
    · rw [min_eq_right h1, max_eq_right h0, max_eq_left h0, min_eq_left h1]
    · rw [min_eq_left h1, max_eq_right zero_le_one, max_eq_left h0, min_eq_right h1]

theorem setScale_targetScale (self : EarthRenderer α) (s : α) :
    (self.setScale s).targetScale =
      self.MIN_SCALE + clamp s 0 1 * (self.MAX_SCALE - self.MIN_SCALE) := by
  simp only [EarthRenderer.setScale, max_min_eq_clamp]

theorem setScale_range (self : EarthRenderer α) (s : α) (hmin : self.MIN_SCALE = 0.6)
    (hmax : self.MAX_SCALE = 2.8) :
    0.6 ≤ (self.setScale s).targetScale ∧ (self.setScale s).targetScale ≤ 2.8 := by
  rw [setScale_targetScale, hmin, hmax]
  obtain ⟨h0, h1⟩ := clamp_mem s
  constructor
  · have : (0 : α) ≤ clamp s 0 1 * (2.8 - 0.6) := mul_nonneg h0 (by norm_num)
    linarith
  · have : clamp s 0 1 * (2.8 - 0.6 : α) ≤ 1 * (2.8 - 0.6) :=
      mul_le_mul_of_nonneg_right h1 (by norm_num)
    linarith

theorem animate_ready (self : EarthRenderer α) (h : self.Ready) :
    self.animate = { self with currentScale := self.currentScale +
                        (self.targetScale - self.currentScale) * 0.1 } := by
  obtain ⟨h1, h2, h3⟩ := h
  simp [EarthRenderer.animate, h1, h2, h3]

theorem animate_iterate (self : EarthRenderer α) (h : self.Ready) (n : Nat) :
    (EarthRenderer.animate^[n] self).Ready ∧
    (EarthRenderer.animate^[n] self).targetScale = self.targetScale ∧
    (EarthRenderer.animate^[n] self).currentScale - self.targetScale =
      0.9 ^ n * (self.currentScale - self.targetScale) := by
  induction n with
  | zero => simp [h]
  | succ n ih =>
    obtain ⟨hr, ht, hc⟩ := ih
    rw [Function.iterate_succ_apply', animate_ready _ hr]
    refine ⟨hr, ht, ?_⟩
    simp only []
    rw [ht, pow_succ]
    have e : (EarthRenderer.animate^[n] self).currentScale =
        self.targetScale + 0.9 ^ n * (self.currentScale - self.targetScale) := by
      rw [← hc]; ring
    rw [e]
    ring

end RendererLemmas

section RendererClaims

variable {α : Type} [LinearOrderedField α]

/-- C24: `setScale(s)` sets `targetScale` to `MIN_SCALE + clamp(s, 0, 1) · (MAX_SCALE −
MIN_SCALE)` and changes no other field; with the constructor's bounds this is
`0.6 + 2.2 · clamp(s, 0, 1)`, lies in `[0.6, 2.8]`, is `0.6` for `s ≤ 0` and `2.8` for
`s ≥ 1`. -/
theorem setScale_spec (self : EarthRenderer α) (s : α) :
    (self.setScale s).targetScale =
        self.MIN_SCALE + clamp s 0 1 * (self.MAX_SCALE - self.MIN_SCALE) ∧
    (self.setScale s).currentScale = self.currentScale ∧
    (self.setScale s).currentMode = self.currentMode ∧
    (self.setScale s).MIN_SCALE = self.MIN_SCALE ∧
    (self.setScale s).MAX_SCALE = self.MAX_SCALE ∧
    (self.setScale s).scene = self.scene ∧ (self.setScale s).camera = self.camera ∧
    (self.setScale s).renderer = self.renderer ∧ (self.setScale s).earth = self.earth ∧
    (self.MIN_SCALE = 0.6 → self.MAX_SCALE = 2.8 →
      (self.setScale s).targetScale = 0.6 + 2.2 * clamp s 0 1 ∧
      0.6 ≤ (self.setScale s).targetScale ∧ (self.setScale s).targetScale ≤ 2.8 ∧
      (s ≤ 0 → (self.setScale s).targetScale = 0.6) ∧
      (1 ≤ s → (self.setScale s).targetScale = 2.8)) := by
  refine ⟨setScale_targetScale self s, rfl, rfl, rfl, rfl, rfl, rfl, rfl, rfl, ?_⟩
  intro hmin hmax
  obtain ⟨hlo, hhi⟩ := setScale_range self s hmin hmax
  refine ⟨?_, hlo, hhi, ?_, ?_⟩
  · rw [setScale_targetScale, hmin, hmax]; ring
  · intro hs
    rw [setScale_targetScale, hmin, clamp_of_nonpos s hs]; ring
  · intro hs
    rw [setScale_targetScale, hmin, hmax, clamp_of_one_le s hs]; ring

/-- C25: with renderer, scene and camera present, one `animate` step replaces
`currentScale` by `currentScale + 0.1 · (targetScale − currentScale)`; after `n` steps the
target is unchanged and `currentScale − targetScale` is `0.9 ^ n` times its initial value,
so it keeps its sign and its absolute value does not grow from one step to the next. -/
theorem animate_gap (self : EarthRenderer α) (h : self.Ready) (n : Nat) :
    self.animate.currentScale =
        self.currentScale + 0.1 * (self.targetScale - self.currentScale) ∧
    (EarthRenderer.animate^[n] self).targetScale = self.targetScale ∧
    (EarthRenderer.animate^[n] self).currentScale - self.targetScale =
        0.9 ^ n * (self.currentScale - self.targetScale) ∧
    (0 ≤ self.currentScale - self.targetScale →
      0 ≤ (EarthRenderer.animate^[n] self).currentScale - self.targetScale) ∧
    (self.currentScale - self.targetScale ≤ 0 →
      (EarthRenderer.animate^[n] self).currentScale - self.targetScale ≤ 0) ∧
    abs ((EarthRenderer.animate^[n + 1] self).currentScale - self.targetScale) ≤
      abs ((EarthRenderer.animate^[n] self).currentScale - self.targetScale) := by
  obtain ⟨_, ht, hc⟩ := animate_iterate self h n
  obtain ⟨_, _, hc1⟩ := animate_iterate self h (n + 1)
  have hpos : (0 : α) ≤ 0.9 ^ n := pow_nonneg (by norm_num) n
  refine ⟨?_, ht, hc, ?_, ?_, ?_⟩
  · rw [animate_ready self h]; ring
  · intro hg
    rw [hc]
    exact mul_nonneg hpos hg
  · intro hg
    rw [hc]
    exact mul_nonpos_of_nonneg_of_nonpos hpos hg
  · rw [hc1, hc, pow_succ, abs_mul, abs_mul, abs_mul]
    have h9 : abs (0.9 : α) ≤ 1 := by
      rw [abs_of_nonneg (by norm_num)]; norm_num
    calc abs ((0.9 : α) ^ n) * abs (0.9 : α) * abs (self.currentScale - self.targetScale)
        ≤ abs ((0.9 : α) ^ n) * 1 * abs (self.currentScale - self.targetScale) := by
          apply mul_le_mul_of_nonneg_right _ (abs_nonneg _)
          exact mul_le_mul_of_nonneg_left h9 (abs_nonneg _)
      _ = abs ((0.9 : α) ^ n) * abs (self.currentScale - self.targetScale) := by ring

end RendererClaims

section RendererInvariant

variable {α : Type} [LinearOrderedField α]

theorem scaleInv_new : ScaleInv (EarthRenderer.new : EarthRenderer α) := by
  refine ⟨rfl, rfl, ?_, ?_, ?_, ?_⟩ <;> simp only [EarthRenderer.new] <;> norm_num

theorem scaleInv_setScale (r : EarthRenderer α) (s : α) (h : ScaleInv r) :
    ScaleInv (r.setScale s) := by
  obtain ⟨hmin, hmax, _, _, hc0, hc1⟩ := h
  obtain ⟨hlo, hhi⟩ := setScale_range r s hmin hmax
  exact ⟨hmin, hmax, hlo, hhi, hc0, hc1⟩

theorem scaleInv_animate (r : EarthRenderer α) (h : ScaleInv r) : ScaleInv r.animate := by
  obtain ⟨hmin, hmax, ht0, ht1, hc0, hc1⟩ := h
  unfold EarthRenderer.animate
  split_ifs
  · exact ⟨hmin, hmax, ht0, ht1, hc0, hc1⟩
  · refine ⟨hmin, hmax, ht0, ht1, ?_, ?_⟩
    · show (0.6 : α) ≤ r.currentScale + (r.targetScale - r.currentScale) * 0.1
      have e : r.currentScale + (r.targetScale - r.currentScale) * 0.1 =
          0.9 * r.currentScale + 0.1 * r.targetScale := by ring
      rw [e]
      have h1 : (0.9 : α) * 0.6 ≤ 0.9 * r.currentScale :=
        mul_le_mul_of_nonneg_left hc0 (by norm_num)
      have h2 : (0.1 : α) * 0.6 ≤ 0.1 * r.targetScale :=
        mul_le_mul_of_nonneg_left ht0 (by norm_num)
      have e6 : (0.6 : α) = 0.9 * 0.6 + 0.1 * 0.6 := by norm_num
      rw [e6]
      exact add_le_add h1 h2
    · show r.currentScale + (r.targetScale - r.currentScale) * 0.1 ≤ (2.8 : α)
      have e : r.currentScale + (r.targetScale - r.currentScale) * 0.1 =
          0.9 * r.currentScale + 0.1 * r.targetScale := by ring
      rw [e]
      have h1 : (0.9 : α) * r.currentScale ≤ 0.9 * 2.8 :=
        mul_le_mul_of_nonneg_left hc1 (by norm_num)
      have h2 : (0.1 : α) * r.targetScale ≤ 0.1 * 2.8 :=
        mul_le_mul_of_nonneg_left ht1 (by norm_num)
      have e8 : (2.8 : α) = 0.9 * 2.8 + 0.1 * 2.8 := by norm_num
      rw [e8]
      exact add_le_add h1 h2

theorem scaleInv_step (r : EarthRenderer α) (op : RendererOp α) (h : ScaleInv r) :
    ScaleInv (r.step op) := by
  cases op with
  | setScale s => exact scaleInv_setScale r s h
  | animate => exact scaleInv_animate r h
  | setMode m => exact h
  | earthLoaded => exact h

theorem scaleInv_foldl (ops : List (RendererOp α)) :
    ∀ r : EarthRenderer α, ScaleInv r → ScaleInv (ops.foldl EarthRenderer.step r) := by
  induction ops with
  | nil => intro r h; exact h
  | cons op rest ih => intro r h; exact ih _ (scaleInv_step r op h)

/-- C28: in every renderer state reached from construction by `setScale`, `animate` and
`setMode` calls, `targetScale` and `currentScale` lie in `[0.6, 2.8]`, and
`getZoomPercent` returns an integer between 60 and 280. -/
theorem renderer_scales_in_range [FloorRing α] (ops : List (RendererOp α)) :
    (0.6 : α) ≤ (runRenderer ops).targetScale ∧ (runRenderer ops).targetScale ≤ 2.8 ∧
    (0.6 : α) ≤ (runRenderer ops).currentScale ∧ (runRenderer ops).currentScale ≤ 2.8 ∧
    60 ≤ (runRenderer ops).getZoomPercent ∧ (runRenderer ops).getZoomPercent ≤ 280 := by
  obtain ⟨_, _, ht0, ht1, hc0, hc1⟩ := scaleInv_foldl ops _ (scaleInv_new (α := α))
  refine ⟨ht0, ht1, hc0, hc1, ?_, ?_⟩
  · unfold EarthRenderer.getZoomPercent
    rw [Int.le_floor]
    have : (0.6 : α) * 100 ≤ (runRenderer ops).currentScale * 100 :=
      mul_le_mul_of_nonneg_right hc0 (by norm_num)
    push_cast
    have e : (0.6 : α) * 100 = 60 := by norm_num
    have h5 : (0 : α) ≤ 0.5 := by norm_num
    linarith
  · unfold EarthRenderer.getZoomPercent
    have hlt : Int.floor ((runRenderer ops).currentScale * 100 + 0.5) < 281 := by
      rw [Int.floor_lt]
      have : (runRenderer ops).currentScale * 100 ≤ (2.8 : α) * 100 :=
        mul_le_mul_of_nonneg_right hc1 (by norm_num)
      push_cast
      have e : (2.8 : α) * 100 = 280 := by norm_num
      have h5 : (0.5 : α) < 1 := by norm_num
      linarith
    omega

end RendererInvariant

/-! ## The keyboard shortcuts -/

section Keyboard

variable {α : Type} [LinearOrderedField α]

/-- C26, the code at the keys: `'+'` and `'='` call `setScale(0)`, which leaves
`targetScale = MIN_SCALE`, and `'-'` and `'_'` call `setScale(1)`, which leaves
`targetScale = MAX_SCALE`: the reverse of what the comments of the handler say. -/
theorem keydown_zoom (r : EarthRenderer α) :
    (applyEffects r (onKeyDown "+")).targetScale = r.MIN_SCALE ∧
    (applyEffects r (onKeyDown "=")).targetScale = r.MIN_SCALE ∧
    (applyEffects r (onKeyDown "-")).targetScale = r.MAX_SCALE ∧
    (applyEffects r (onKeyDown "_")).targetScale = r.MAX_SCALE := by
  have h1 : ¬ ("1" ≤ "+" ∧ "+" ≤ "4") := by
    simp only [String.le_iff_toList_le]; decide
  have h2 : ¬ ("1" ≤ "=" ∧ "=" ≤ "4") := by
    simp only [String.le_iff_toList_le]; decide
  have h3 : ¬ ("1" ≤ "-" ∧ "-" ≤ "4") := by
    simp only [String.le_iff_toList_le]; decide
  have h4 : ¬ ("1" ≤ "_" ∧ "_" ≤ "4") := by
    simp only [String.le_iff_toList_le]; decide
  refine ⟨?_, ?_, ?_, ?_⟩
  · simp only [onKeyDown, if_neg h1]
    simp [applyEffects, runEffects, applyEffect, EarthRenderer.setScale]
  · simp only [onKeyDown, if_neg h2]
    simp [applyEffects, runEffects, applyEffect, EarthRenderer.setScale]
  · simp only [onKeyDown, if_neg h3]
    simp [applyEffects, runEffects, applyEffect, EarthRenderer.setScale]
  · simp only [onKeyDown, if_neg h4]
    simp [applyEffects, runEffects, applyEffect, EarthRenderer.setScale]

/-- The key `'3'` assigns mode 3, whether or not `setMode` then throws, and leaves the
target scale alone. -/
theorem keydown_three (r : EarthRenderer α) :
    (applyEffects r (onKeyDown "3")).currentMode = 3 ∧
    (applyEffects r (onKeyDown "3")).targetScale = r.targetScale := by
  have h : "1" ≤ "3" ∧ "3" ≤ "4" := by
    simp only [String.le_iff_toList_le]; decide
  have hp : parseInt "3" = 3 := by decide
  simp only [onKeyDown, if_pos h, hp]
  cases he : r.earth <;> simp [applyEffects, runEffects, applyEffect, EarthRenderer.setMode, he]

end Keyboard

/-! ## The texture sample of the last particle -/

section LastParticleY

variable {α : Type} [LinearOrderedField α]

theorem particleY_last : particleY 40000 39999 = (-1 : α) := by
  unfold particleY
  norm_num

end LastParticleY

section LastParticle

variable {α : Type} [LinearOrderedField α] [FloorRing α]

/-- C27, the code at the last particle: for `i = 39999` of 40000 particles `y = −1`,
`v = 1`, so `py = 512`, one row below the last row 511, and the colour index is at or
beyond the length of the image buffer. -/
theorem last_particle_out_of_buffer (m : JsMath α) (hpi : 0 < m.PI)
    (hasin : m.asin (-1) = -(m.PI / 2)) (hatan : ∀ z x, -m.PI ≤ m.atan2 z x) :
    particleY 40000 39999 = (-1 : α) ∧ particleV m 40000 39999 = 1 ∧
    particlePy m 40000 39999 = 512 ∧ 0 ≤ particlePx m 40000 39999 ∧
    imageDataLength ≤ particleIndex m 40000 39999 := by
  have hv : particleV m 40000 39999 = 1 := by
    unfold particleV
    rw [particleY_last, hasin]
    have hne : m.PI ≠ 0 := ne_of_gt hpi
    field_simp
    ring
  have hpy : particlePy m 40000 39999 = 512 := by
    unfold particlePy
    rw [hv, one_mul]
    have e : (512 : α) = ((512 : ℤ) : α) := by norm_num
    rw [e, Int.floor_intCast]
  have hpx : 0 ≤ particlePx m 40000 39999 := by
    unfold particlePx
    rw [Int.le_floor]
    push_cast
    apply mul_nonneg _ (by norm_num)
    unfold particleU
    simp only []
    have h2 : 0 < 2 * m.PI := by linarith
    have hdiv : -(1 / 2 : α) ≤ m.atan2 (m.sin (m.PI * (3.0 - m.sqrt 5.0) * ((39999 : ℕ) : α)) *
        m.sqrt (1 - particleY 40000 39999 * particleY 40000 39999))
        (m.cos (m.PI * (3.0 - m.sqrt 5.0) * ((39999 : ℕ) : α)) *
        m.sqrt (1 - particleY 40000 39999 * particleY 40000 39999)) / (2 * m.PI) := by
      rw [le_div_iff₀ h2]
      have := hatan (m.sin (m.PI * (3.0 - m.sqrt 5.0) * ((39999 : ℕ) : α)) *
        m.sqrt (1 - particleY 40000 39999 * particleY 40000 39999))
        (m.cos (m.PI * (3.0 - m.sqrt 5.0) * ((39999 : ℕ) : α)) *
        m.sqrt (1 - particleY 40000 39999 * particleY 40000 39999))
      linarith
    have h5 : (0.5 : α) = 1 / 2 := by norm_num
    rw [h5]
    linarith
  refine ⟨particleY_last, hv, hpy, hpx, ?_⟩
  unfold particleIndex imageDataLength
  rw [hpy]
  omega

end LastParticle

/-! ## From the hands to the renderer -/

section EndToEnd

variable {α : Type} [LinearOrderedField α]

theorem clamp_of_mem (v : α) (h0 : 0 ≤ v) (h1 : v ≤ 1) : clamp v 0 1 = v := by
  unfold clamp
  rw [if_neg (not_lt.mpr h0), if_neg (not_lt.mpr h1)]

theorem setScale_mapDistance (sqrt : α → α) (earthRenderer : EarthRenderer α)
    (a b : Landmark α) :
    (earthRenderer.setScale (mapDistance sqrt a b)).targetScale =
      earthRenderer.MIN_SCALE +
        mapDistance sqrt a b * (earthRenderer.MAX_SCALE - earthRenderer.MIN_SCALE) := by
  obtain ⟨h0, h1⟩ := clamp_mem
    ((sqrt ((a.x - b.x) ^ 2 + (a.y - b.y) ^ 2) - 0.05) / (0.6 - 0.05))
  have hm : max 0 (min 1 (mapDistance sqrt a b)) = mapDistance sqrt a b := by
    rw [max_min_eq_clamp]
    exact clamp_of_mem _ h0 h1
  simp [EarthRenderer.setScale, hm]

/-- The calls of one frame with both hands present, run on the renderer: when the mode
callback reaches `setMode` (both digits agree on a value in 1..4) and `earth` is still
`null`, the exception leaves `onResults` before `onHandDistance` is invoked; otherwise
nothing throws and `setScale` receives the mapped wrist distance. -/
theorem runEffects_both (sqrt : α → α) (gestureDetector : HandGestureDetector)
    (earthRenderer : EarthRenderer α) (results : Results α) (hwf : results.WellFormed)
    (l r : Hand α) (hh : results.hands = (HandRef.landmarks l, HandRef.landmarks r))
    (a b : Landmark α) (ha : l[0]? = some a) (hb : r[0]? = some b) :
    ∃ effects, frameEffects sqrt gestureDetector results = some effects ∧
      (runEffects earthRenderer effects).threw =
        (!earthRenderer.earth && decide (digit l = digit r ∧ 1 ≤ digit l ∧ digit l ≤ 4)) ∧
      (runEffects earthRenderer effects).state.targetScale =
        (if earthRenderer.earth = false ∧ digit l = digit r ∧ 1 ≤ digit l ∧ digit l ≤ 4
         then earthRenderer.targetScale
         else (earthRenderer.setScale (mapDistance sqrt a b)).targetScale) := by
  refine ⟨_, by
    unfold frameEffects
    rw [onResults_both_at sqrt _ results hwf l r hh a b ha hb]
    rfl, ?_⟩
  by_cases hc : digit l > 0 ∧ digit l = digit r
  · have hpos : digit l > 0 := hc.1
    have heq : digit r = digit l := hc.2.symm
    by_cases h4 : digit l ≥ 1 ∧ digit l ≤ 4
    · cases he : earthRenderer.earth <;>
        simp [setupGestureCallbacks, dispatch, hpos, heq, h4, runEffects, applyEffect,
          EarthRenderer.setScale, EarthRenderer.setMode, he]
    · cases he : earthRenderer.earth <;>
        simp [setupGestureCallbacks, dispatch, hpos, heq, h4, runEffects, applyEffect,
          EarthRenderer.setScale, EarthRenderer.setMode, he]
  · have hne : ¬ (digit l = digit r ∧ 1 ≤ digit l ∧ digit l ≤ 4) := by
      rintro ⟨h1, h2, _⟩
      exact hc ⟨h2, h1⟩
    cases he : earthRenderer.earth <;>
      simp [setupGestureCallbacks, dispatch, hc, hne, runEffects, applyEffect,
        EarthRenderer.setScale, EarthRenderer.setMode, he]

/-- One frame with both hands present, run on the renderer: when it throws, and the target
scale it leaves in either case. -/
theorem frame_both (sqrt : α → α) (gestureDetector : HandGestureDetector)
    (earthRenderer : EarthRenderer α) (results : Results α) (hwf : results.WellFormed)
    (l r : Hand α) (hh : results.hands = (HandRef.landmarks l, HandRef.landmarks r))
    (a b : Landmark α) (ha : l[0]? = some a) (hb : r[0]? = some b) :
    (frameThrows sqrt gestureDetector earthRenderer results = some true ↔
      earthRenderer.earth = false ∧ ∃ m, detectHandNumber l false = some m ∧
        detectHandNumber r true = some m ∧ 1 ≤ m ∧ m ≤ 4) ∧
    (frameThrows sqrt gestureDetector earthRenderer results = some true →
      targetAfterFrame sqrt gestureDetector earthRenderer results =
        some earthRenderer.targetScale) ∧
    (frameThrows sqrt gestureDetector earthRenderer results ≠ some true →
      frameThrows sqrt gestureDetector earthRenderer results = some false ∧
      targetAfterFrame sqrt gestureDetector earthRenderer results =
        some (earthRenderer.setScale (mapDistance sqrt a b)).targetScale) := by
  obtain ⟨effects, hfe, hthrew, hstate⟩ :=
    runEffects_both sqrt gestureDetector earthRenderer results hwf l r hh a b ha hb
  have hok := hands_ok results hwf
  rw [hh] at hok
  have hl : l.length = 21 := hok.1
  have hr : r.length = 21 := hok.2
  have hft : frameThrows sqrt gestureDetector earthRenderer results =
      some (!earthRenderer.earth &&
        decide (digit l = digit r ∧ 1 ≤ digit l ∧ digit l ≤ 4)) := by
    simp only [frameThrows, hfe, Option.map_some', hthrew]
  have hta : targetAfterFrame sqrt gestureDetector earthRenderer results =
      some (if earthRenderer.earth = false ∧ digit l = digit r ∧ 1 ≤ digit l ∧ digit l ≤ 4
         then earthRenderer.targetScale
         else (earthRenderer.setScale (mapDistance sqrt a b)).targetScale) := by
    simp only [targetAfterFrame, applyEffects, hfe, Option.map_some', hstate]
  rw [detectHandNumber_eq l false hl, detectHandNumber_eq r true hr, hft, hta]
  by_cases hp : earthRenderer.earth = false ∧ digit l = digit r ∧ 1 ≤ digit l ∧ digit l ≤ 4
  · obtain ⟨he, hd, h1, h4⟩ := hp
    have hb1 : (!earthRenderer.earth &&
        decide (digit l = digit r ∧ 1 ≤ digit l ∧ digit l ≤ 4)) = true := by
      simp [he, hd.symm, h1, h4]
    rw [hb1, if_pos ⟨he, hd, h1, h4⟩]
    refine ⟨⟨fun _ => ⟨he, digit l, rfl, by rw [hd], h1, h4⟩, fun _ => rfl⟩, fun _ => rfl, ?_⟩
    intro h
    exact absurd rfl h
  · have hb0 : (!earthRenderer.earth &&
        decide (digit l = digit r ∧ 1 ≤ digit l ∧ digit l ≤ 4)) = false := by
      cases he : earthRenderer.earth
      · have hq : ¬ (digit l = digit r ∧ 1 ≤ digit l ∧ digit l ≤ 4) := fun hq => hp ⟨he, hq⟩
        simp [hq]
      · simp
    rw [hb0, if_neg hp]
    refine ⟨⟨fun h => by simp at h, ?_⟩, fun h => by simp at h, fun _ => ⟨rfl, rfl⟩⟩
    rintro ⟨he, m, hm1, hm2, h1, h4⟩
    have e1 : digit l = m := Option.some.inj hm1
    have e2 : digit r = m := Option.some.inj hm2
    exact absurd ⟨he, e1.trans e2.symm, e1 ▸ h1, e1 ▸ h4⟩ hp

/-- C21: the wrists of two hands, through `calculateHandDistance`, the `onHandDistance`
callback and `setScale` of a renderer with the constructor's bounds. The callback makes the
one call `setScale`, which does not throw; the `targetScale` it leaves is `0.6` when the
wrists are at raw distance at most `0.05`, `2.8` when they are at raw distance at least
`0.6`, and for two pairs of hands a smaller or equal raw distance leaves a smaller or equal
`targetScale`. On a well-formed frame with both hands present `onResults` reaches that
callback, and the renderer is left with that `targetScale`, unless the frame throws first;
it throws exactly when `earth` is still `null` and both hands show the same digit in 1..4
(the mode callback calls `setMode`, which throws), and then `targetScale` is unchanged. -/
theorem zoom_end_to_end (sqrt : α → α) (gestureDetector : HandGestureDetector)
    (earthRenderer : EarthRenderer α)
    (hmin : earthRenderer.MIN_SCALE = 0.6) (hmax : earthRenderer.MAX_SCALE = 2.8)
    (results1 results2 : Results α)
    (hwf1 : results1.WellFormed) (hwf2 : results2.WellFormed) (l1 r1 l2 r2 : Hand α)
    (hh1 : results1.hands = (HandRef.landmarks l1, HandRef.landmarks r1))
    (hh2 : results2.hands = (HandRef.landmarks l2, HandRef.landmarks r2))
    (a1 b1 a2 b2 : Landmark α)
    (ha1 : l1[0]? = some a1) (hb1 : r1[0]? = some b1)
    (ha2 : l2[0]? = some a2) (hb2 : r2[0]? = some b2) :
    ∃ d1 d2 t1 t2,
      calculateHandDistance sqrt l1 r1 = some d1 ∧
      calculateHandDistance sqrt l2 r2 = some d2 ∧
      runEffects earthRenderer (dispatch (Call.onHandDistance d1)) =
        { state := earthRenderer.setScale d1, threw := false } ∧
      runEffects earthRenderer (dispatch (Call.onHandDistance d2)) =
        { state := earthRenderer.setScale d2, threw := false } ∧
      (earthRenderer.setScale d1).targetScale = t1 ∧
      (earthRenderer.setScale d2).targetScale = t2 ∧
      (rawDistance sqrt a1 b1 ≤ 0.05 → t1 = 0.6) ∧
      (0.6 ≤ rawDistance sqrt a1 b1 → t1 = 2.8) ∧
      (rawDistance sqrt a1 b1 ≤ rawDistance sqrt a2 b2 → t1 ≤ t2) ∧
      (frameThrows sqrt gestureDetector earthRenderer results1 = some true ↔
        earthRenderer.earth = false ∧ ∃ m, detectHandNumber l1 false = some m ∧
          detectHandNumber r1 true = some m ∧ 1 ≤ m ∧ m ≤ 4) ∧
      (frameThrows sqrt gestureDetector earthRenderer results1 = some true →
        targetAfterFrame sqrt gestureDetector earthRenderer results1 =
          some earthRenderer.targetScale) ∧
      (frameThrows sqrt gestureDetector earthRenderer results1 ≠ some true →
        frameThrows sqrt gestureDetector earthRenderer results1 = some false ∧
        targetAfterFrame sqrt gestureDetector earthRenderer results1 = some t1) ∧
      (frameThrows sqrt gestureDetector earthRenderer results2 = some true ↔
        earthRenderer.earth = false ∧ ∃ m, detectHandNumber l2 false = some m ∧
          detectHandNumber r2 true = some m ∧ 1 ≤ m ∧ m ≤ 4) ∧
      (frameThrows sqrt gestureDetector earthRenderer results2 = some true →
        targetAfterFrame sqrt gestureDetector earthRenderer results2 =
          some earthRenderer.targetScale) ∧
      (frameThrows sqrt gestureDetector earthRenderer results2 ≠ some true →
        frameThrows sqrt gestureDetector earthRenderer results2 = some false ∧
        targetAfterFrame sqrt gestureDetector earthRenderer results2 = some t2) := by
  obtain ⟨f1, f2, f3⟩ :=
    frame_both sqrt gestureDetector earthRenderer results1 hwf1 l1 r1 hh1 a1 b1 ha1 hb1
  obtain ⟨g1, g2, g3⟩ :=
    frame_both sqrt gestureDetector earthRenderer results2 hwf2 l2 r2 hh2 a2 b2 ha2 hb2
  refine ⟨mapDistance sqrt a1 b1, mapDistance sqrt a2 b2, _, _,
    calculateHandDistance_eq sqrt l1 r1 a1 b1 ha1 hb1,
    calculateHandDistance_eq sqrt l2 r2 a2 b2 ha2 hb2, ?_, ?_,
    setScale_mapDistance sqrt earthRenderer a1 b1,
    setScale_mapDistance sqrt earthRenderer a2 b2, ?_, ?_, ?_, f1, f2, ?_, g1, g2, ?_⟩
  · simp [dispatch, runEffects, applyEffect]
  · simp [dispatch, runEffects, applyEffect]
  · intro h
    rw [mapDistance_eq_rawDistance, clamp_of_nonpos, hmin]
    · ring
    · exact div_nonpos_of_nonpos_of_nonneg (sub_nonpos.mpr h) range_pos.le
  · intro h
    rw [mapDistance_eq_rawDistance, clamp_of_one_le, hmin, hmax]
    · ring
    · rw [le_div_iff₀ range_pos, one_mul]
      exact sub_le_sub_right h _
  · intro h
    have hmono : mapDistance sqrt a1 b1 ≤ mapDistance sqrt a2 b2 := by
      rw [mapDistance_eq_rawDistance, mapDistance_eq_rawDistance]
      exact clamp_mono _ _ (rescale_mono _ _ h)
    have hspan : (0 : α) ≤ earthRenderer.MAX_SCALE - earthRenderer.MIN_SCALE := by
      rw [hmin, hmax]; norm_num
    exact add_le_add_left (mul_le_mul_of_nonneg_right hmono hspan) _
  · intro h
    rw [← setScale_mapDistance]
    exact f3 h
  · intro h
    rw [← setScale_mapDistance]
    exact g3 h

end EndToEnd

/-! ## The classifier: thresholds and the coordinates read -/

section ThresholdClaims

variable {α : Type} [LinearOrderedField α]

theorem tipAboveBase_congr (l1 l2 : Hand α) (tip base : Nat)
    (ht : (l1[tip]?).map Landmark.y = (l2[tip]?).map Landmark.y)
    (hb : (l1[base]?).map Landmark.y = (l2[base]?).map Landmark.y) :
    tipAboveBase l1 tip base = tipAboveBase l2 tip base := by
  unfold tipAboveBase
  cases h1 : l1[tip]? <;> cases h2 : l2[tip]? <;> cases h3 : l1[base]? <;>
    cases h4 : l2[base]? <;> simp_all

theorem thumbDisplaced_congr (l1 l2 : Hand α)
    (ht : (l1[4]?).map Landmark.x = (l2[4]?).map Landmark.x)
    (hb : (l1[2]?).map Landmark.x = (l2[2]?).map Landmark.x) :
    thumbDisplaced l1 = thumbDisplaced l2 := by
  unfold thumbDisplaced
  cases h1 : l1[4]? <;> cases h2 : l2[4]? <;> cases h3 : l1[2]? <;>
    cases h4 : l2[2]? <;> simp_all

/-- C22: on a hand of 21 landmarks, a finger whose tip `y` equals its base `y` minus `0.02`
is not extended and a thumb with `|x(tip) − x(base)| = 0.04` is not extended; so four
extended fingers with thumb displacement `0.04` give 4, and the index at the margin with
the other three fingers down gives 0. -/
theorem thresholds_strict (landmarks : Hand α) (isRightHand : Bool)
    (hlen : landmarks.length = 21) :
    (∀ tip base t b, landmarks[tip]? = some t → landmarks[base]? = some b →
      t.y = b.y - (0.02 : α) → tipAboveBase landmarks tip base = false) ∧
    (∀ t b, landmarks[4]? = some t → landmarks[2]? = some b →
      abs (t.x - b.x) = (0.04 : α) → thumbDisplaced landmarks = false) ∧
    (∀ t b, landmarks[4]? = some t → landmarks[2]? = some b → abs (t.x - b.x) = (0.04 : α) →
      indexExtended landmarks = true → middleExtended landmarks = true →
      ringExtended landmarks = true → pinkyExtended landmarks = true →
      detectHandNumber landmarks isRightHand = some 4) ∧
    (∀ t b, landmarks[8]? = some t → landmarks[6]? = some b → t.y = b.y - (0.02 : α) →
      middleExtended landmarks = false → ringExtended landmarks = false →
      pinkyExtended landmarks = false →
      detectHandNumber landmarks isRightHand = some 0) := by
  have hfinger : ∀ tip base t b, landmarks[tip]? = some t → landmarks[base]? = some b →
      t.y = b.y - (0.02 : α) → tipAboveBase landmarks tip base = false := by
    intro tip base t b ht hb hy
    simp [tipAboveBase, ht, hb, hy]
  have hthumb : ∀ t b, landmarks[4]? = some t → landmarks[2]? = some b →
      abs (t.x - b.x) = (0.04 : α) → thumbDisplaced landmarks = false := by
    intro t b ht hb hx
    simp [thumbDisplaced, ht, hb, hx]
  refine ⟨hfinger, hthumb, ?_, ?_⟩
  · intro t b ht hb hx hi hm hr hp
    rw [detectHandNumber_eq landmarks isRightHand hlen, digit, strictNumber_cases,
      hthumb t b ht hb hx, hi, hm, hr, hp]
    rfl
  · intro t b ht hb hy hm hr hp
    have hi : indexExtended landmarks = false := hfinger 8 6 t b ht hb hy
    rw [detectHandNumber_eq landmarks isRightHand hlen, digit, strictNumber_cases,
      hi, hm, hr, hp]
    rfl

/-- C23: two hands of 21 landmarks that agree on the `x` of landmarks 4 and 2 and on the
`y` of landmarks 8, 6, 12, 10, 16, 14, 20 and 18 get the same result from
`detectHandNumber`, whatever their other coordinates and the flag are. -/
theorem detectHandNumber_reads_ten (l1 l2 : Hand α) (flag1 flag2 : Bool)
    (h1 : l1.length = 21) (h2 : l2.length = 21)
    (h : readCoordinates l1 = readCoordinates l2) :
    detectHandNumber l1 flag1 = detectHandNumber l2 flag2 := by
  simp only [readCoordinates, List.cons.injEq, and_true] at h
  obtain ⟨e4, e2, e8, e6, e12, e10, e16, e14, e20, e18⟩ := h
  rw [detectHandNumber_eq l1 flag1 h1, detectHandNumber_eq l2 flag2 h2]
  simp only [digit, indexExtended, middleExtended, ringExtended, pinkyExtended,
    thumbDisplaced_congr l1 l2 e4 e2, tipAboveBase_congr l1 l2 8 6 e8 e6,
    tipAboveBase_congr l1 l2 12 10 e12 e10, tipAboveBase_congr l1 l2 16 14 e16 e14,
    tipAboveBase_congr l1 l2 20 18 e20 e18]

end ThresholdClaims

/-! ## Symmetry of the distance -/

section ZoomFilter

variable {α : Type}

theorem zoom_filter (c : Prop) [Decidable c] (m z st : Bool) (n : Nat) (d : α)
    (data : HandsStatus) :
    (((if c then (if m then [Call.onDualHandGesture n] else []) else []) ++
        (if z then [Call.onHandDistance d] else [])) ++
        (if st then [Call.onHandsDetected data] else [])).filter Call.isZoom =
      if z then [Call.onHandDistance d] else [] := by
  by_cases hc : c <;> cases m <;> cases z <;> cases st <;> simp [hc, Call.isZoom, List.filter]

end ZoomFilter

section DistanceSymmetry

variable {α : Type} [LinearOrderedField α]

theorem mapDistance_symm (sqrt : α → α) (a b : Landmark α) :
    mapDistance sqrt a b = mapDistance sqrt b a := by
  unfold mapDistance
  have ex : (a.x - b.x) ^ 2 = (b.x - a.x) ^ 2 := by ring
  have ey : (a.y - b.y) ^ 2 = (b.y - a.y) ^ 2 := by ring
  rw [ex, ey]

theorem mapDistance_shift (sqrt : α → α) (o a b : Landmark α) :
    mapDistance sqrt (shift o a) (shift o b) = mapDistance sqrt a b := by
  unfold mapDistance shift
  have ex : a.x + o.x - (b.x + o.x) = a.x - b.x := by ring
  have ey : a.y + o.y - (b.y + o.y) = a.y - b.y := by ring
  simp only [ex, ey]

theorem calculateHandDistance_comm (sqrt : α → α) (A B : Hand α) :
    calculateHandDistance sqrt A B = calculateHandDistance sqrt B A := by
  cases hA : A[0]? with
  | none =>
    cases hB : B[0]? with
    | none => simp [calculateHandDistance, hA, hB]
    | some b => simp [calculateHandDistance, hA, hB]
  | some a =>
    cases hB : B[0]? with
    | none => simp [calculateHandDistance, hA, hB]
    | some b =>
      rw [calculateHandDistance_eq sqrt A B a b hA hB,
        calculateHandDistance_eq sqrt B A b a hB hA, mapDistance_symm]

theorem calculateHandDistance_shiftHand (sqrt : α → α) (o : Landmark α) (A B : Hand α) :
    calculateHandDistance sqrt (shiftHand o A) (shiftHand o B) =
      calculateHandDistance sqrt A B := by
  have hsA : (shiftHand o A)[0]? = (A[0]?).map (shift o) := by simp [shiftHand]
  have hsB : (shiftHand o B)[0]? = (B[0]?).map (shift o) := by simp [shiftHand]
  cases hA : A[0]? with
  | none => simp [calculateHandDistance, hsA, hA]
  | some a =>
    cases hB : B[0]? with
    | none => simp [calculateHandDistance, hsA, hsB, hA, hB]
    | some b =>
      rw [hA] at hsA
      rw [hB] at hsB
      rw [calculateHandDistance_eq sqrt _ _ (shift o a) (shift o b) hsA hsB,
        calculateHandDistance_eq sqrt A B a b hA hB, mapDistance_shift]

/-- C29: `calculateHandDistance` gives the same result with its two hands exchanged, and
the same result when both hands are moved by one offset; so for two hands of 21 landmarks
the zoom calls of the frame are the same when their handedness labels are exchanged. -/
theorem calculateHandDistance_symm_shift (sqrt : α → α) (self : HandGestureDetector)
    (A B : Hand α) (o : Landmark α) :
    calculateHandDistance sqrt A B = calculateHandDistance sqrt B A ∧
    calculateHandDistance sqrt (shiftHand o A) (shiftHand o B) =
      calculateHandDistance sqrt A B ∧
    (A.length = 21 → B.length = 21 →
      (onResults sqrt self (frameOf [("Right", A), ("Left", B)])).map
          (fun out => out.2.filter Call.isZoom) =
        (onResults sqrt self (frameOf [("Left", A), ("Right", B)])).map
          (fun out => out.2.filter Call.isZoom)) := by
  refine ⟨calculateHandDistance_comm sqrt A B, calculateHandDistance_shiftHand sqrt o A B, ?_⟩
  intro hA hB
  obtain ⟨a, ha⟩ := getElem?_of_length A 21 0 hA (by decide)
  obtain ⟨b, hb⟩ := getElem?_of_length B 21 0 hB (by decide)
  have hwf1 : (frameOf [("Right", A), ("Left", B)]).WellFormed :=
    frameOf_wf _ (by simp [hA, hB])
  have hwf2 : (frameOf [("Left", A), ("Right", B)]).WellFormed :=
    frameOf_wf _ (by simp [hA, hB])
  have hh1 : (frameOf [("Right", A), ("Left", B)]).hands =
      (HandRef.landmarks A, HandRef.landmarks B) := by
    simp [frameOf, Results.hands, identifyHands]
  have hh2 : (frameOf [("Left", A), ("Right", B)]).hands =
      (HandRef.landmarks B, HandRef.landmarks A) := by
    simp [frameOf, Results.hands, identifyHands]
  rw [onResults_both_at sqrt self _ hwf1 A B hh1 a b ha hb,
    onResults_both_at sqrt self _ hwf2 B A hh2 b a hb ha]
  simp only [Option.map_some', zoom_filter, mapDistance_symm sqrt a b]

end DistanceSymmetry

/-! ## Concrete runs for the renderer, the thresholds and the symmetry -/

section LastWitnesses

theorem touchingFrame_wf : touchingFrame.WellFormed := by
  simp [touchingFrame, frameOf, Results.WellFormed, twoHand, poseHand_length]

theorem touchingFrame_hands :
    touchingFrame.hands = (HandRef.landmarks twoHand, HandRef.landmarks twoHand) := by
  simp [touchingFrame, frameOf, Results.hands, identifyHands]

theorem touchingMixedFrame_wf : touchingMixedFrame.WellFormed := by
  simp [touchingMixedFrame, frameOf, Results.WellFormed, twoHand, openHand, poseHand_length]

theorem touchingMixedFrame_hands :
    touchingMixedFrame.hands = (HandRef.landmarks twoHand, HandRef.landmarks openHand) := by
  simp [touchingMixedFrame, frameOf, Results.hands, identifyHands]

theorem detectHandNumber_twoHand (isRightHand : Bool) :
    detectHandNumber twoHand isRightHand = some 2 := by
  rw [detectHandNumber_eq twoHand isRightHand rfl, digit_twoHand]

theorem detectHandNumber_openHand (isRightHand : Bool) :
    detectHandNumber openHand isRightHand = some 5 := by
  rw [detectHandNumber_eq openHand isRightHand rfl, digit_openHand]

theorem apartFrame_wf : apartFrame.WellFormed := by
  simp [apartFrame, frameOf, Results.WellFormed, twoHand, twoHandApart, poseHand_length]

theorem apartFrame_hands :
    apartFrame.hands = (HandRef.landmarks twoHand, HandRef.landmarks twoHandApart) := by
  simp [apartFrame, frameOf, Results.hands, identifyHands]

/-- Before the texture has loaded: touching hands that show different digits leave the
target at `0.6`; touching hands that both show two make `setMode` throw, and the target
stays at the constructor's `1`. Once `earth` is set, hands at distance 1 that both show two
leave the target at `2.8`. -/
theorem zoom_end_to_end_witness :
    (frameThrows Rat.sqrt HandGestureDetector.new (EarthRenderer.new : EarthRenderer ℚ)
        touchingMixedFrame = some false ∧
      targetAfterFrame Rat.sqrt HandGestureDetector.new EarthRenderer.new touchingMixedFrame =
        some (0.6 : ℚ)) ∧
    (frameThrows Rat.sqrt HandGestureDetector.new (EarthRenderer.new : EarthRenderer ℚ)
        touchingFrame = some true ∧
      targetAfterFrame Rat.sqrt HandGestureDetector.new EarthRenderer.new touchingFrame =
        some (1 : ℚ)) ∧
    (frameThrows Rat.sqrt HandGestureDetector.new
        (EarthRenderer.new.earthLoaded : EarthRenderer ℚ) apartFrame = some false ∧
      targetAfterFrame Rat.sqrt HandGestureDetector.new EarthRenderer.new.earthLoaded
        apartFrame = some (2.8 : ℚ)) := by
  obtain ⟨d1, d2, t1, t2, _, _, _, _, _, _, hlow, _, _, hthrow1, _, hok1, hthrow2, hstay2, _⟩ :=
    zoom_end_to_end Rat.sqrt HandGestureDetector.new (EarthRenderer.new : EarthRenderer ℚ)
      rfl rfl touchingMixedFrame touchingFrame touchingMixedFrame_wf touchingFrame_wf
      twoHand openHand twoHand twoHand touchingMixedFrame_hands touchingFrame_hands
      ⟨0, 0⟩ ⟨0, 0⟩ ⟨0, 0⟩ ⟨0, 0⟩ rfl rfl rfl rfl
  obtain ⟨e1, e2, s1, s2, _, _, _, _, _, _, _, ghigh, _, gthrow1, _, gok1, _⟩ :=
    zoom_end_to_end Rat.sqrt HandGestureDetector.new
      (EarthRenderer.new.earthLoaded : EarthRenderer ℚ)
      rfl rfl apartFrame touchingFrame apartFrame_wf touchingFrame_wf
      twoHand twoHandApart twoHand twoHand apartFrame_hands touchingFrame_hands
      ⟨0, 0⟩ ⟨1, 0⟩ ⟨0, 0⟩ ⟨0, 0⟩ rfl rfl rfl rfl
  refine ⟨?_, ?_, ?_⟩
  · have hno : frameThrows Rat.sqrt HandGestureDetector.new (EarthRenderer.new : EarthRenderer ℚ)
        touchingMixedFrame ≠ some true := by
      intro h
      obtain ⟨_, m, hm1, hm2, _⟩ := hthrow1.mp h
      rw [detectHandNumber_twoHand] at hm1
      rw [detectHandNumber_openHand] at hm2
      have e2 : (2 : Nat) = m := Option.some.inj hm1
      have e5 : (5 : Nat) = m := Option.some.inj hm2
      omega
    obtain ⟨h1, h2⟩ := hok1 hno
    exact ⟨h1, by rw [h2, hlow (by rw [rawDistance_zero]; norm_num)]⟩
  · have hyes : frameThrows Rat.sqrt HandGestureDetector.new
        (EarthRenderer.new : EarthRenderer ℚ) touchingFrame = some true :=
      hthrow2.mpr ⟨rfl, 2, detectHandNumber_twoHand false, detectHandNumber_twoHand true,
        by decide, by decide⟩
    exact ⟨hyes, hstay2 hyes⟩
  · have hno : frameThrows Rat.sqrt HandGestureDetector.new
        (EarthRenderer.new.earthLoaded : EarthRenderer ℚ) apartFrame ≠ some true := by
      intro h
      have he := (gthrow1.mp h).1
      simp [EarthRenderer.earthLoaded] at he
    obtain ⟨h1, h2⟩ := gok1 hno
    exact ⟨h1, by rw [h2, ghigh (by rw [rawDistance_one]; norm_num)]⟩

/-- The thumb at exactly `0.04` gives 4, the index at exactly the margin gives 0. -/
theorem thresholds_strict_witness :
    detectHandNumber thumbEdgeHand false = some 4 ∧
    detectHandNumber indexEdgeHand false = some 0 := by
  constructor
  · exact (thresholds_strict thumbEdgeHand false rfl).2.2.1 ⟨1/25, 0⟩ ⟨0, 0⟩ rfl rfl
      (by norm_num [abs_of_pos])
      (by simp [thumbEdgeHand, poseHand_index]; norm_num)
      (by simp [thumbEdgeHand, poseHand_middle]; norm_num)
      (by simp [thumbEdgeHand, poseHand_ring]; norm_num)
      (by simp [thumbEdgeHand, poseHand_pinky]; norm_num)
  · exact (thresholds_strict indexEdgeHand false rfl).2.2.2 ⟨0, 12/25⟩ ⟨0, 1/2⟩ rfl rfl
      (by norm_num)
      (by simp [indexEdgeHand, poseHand_middle]; norm_num)
      (by simp [indexEdgeHand, poseHand_ring]; norm_num)
      (by simp [indexEdgeHand, poseHand_pinky]; norm_num)

/-- Two hands that differ only in the wrist get the same digit. -/
theorem detectHandNumber_reads_ten_witness :
    detectHandNumber twoHand false = detectHandNumber twoHandFar true :=
  detectHandNumber_reads_ten twoHand twoHandFar false true rfl rfl
    (by simp [readCoordinates, twoHand, twoHandFar, poseHand])

/-- On the constructed renderer `setScale(1/2)` sets the target to `1.7` and keeps the
current scale and the mode. -/
theorem setScale_spec_witness :
    ((EarthRenderer.new : EarthRenderer ℚ).setScale (1/2)).targetScale = 1.7 ∧
    ((EarthRenderer.new : EarthRenderer ℚ).setScale (1/2)).currentScale = 1 ∧
    ((EarthRenderer.new : EarthRenderer ℚ).setScale (1/2)).currentMode = 1 := by
  obtain ⟨_, hc, hm, _, _, _, _, _, _, hnum⟩ :=
    setScale_spec (EarthRenderer.new : EarthRenderer ℚ) (1/2)
  obtain ⟨ht, _⟩ := hnum rfl rfl
  refine ⟨?_, hc, hm⟩
  rw [ht, clamp_of_mem _ (by norm_num) (by norm_num)]
  norm_num

theorem zoomingRenderer_ready : zoomingRenderer.Ready := ⟨rfl, rfl, rfl⟩

theorem zoomingRenderer_scales :
    zoomingRenderer.targetScale = 2.8 ∧ zoomingRenderer.currentScale = 1 := by
  constructor
  · simp [zoomingRenderer, EarthRenderer.setScale, EarthRenderer.new]
  · rfl

/-- From current scale 1 and target `2.8`, two steps reach `1.342 = 2.8 − 0.81 · 1.8`. -/
theorem animate_gap_witness :
    (EarthRenderer.animate^[2] zoomingRenderer).currentScale = (1.342 : ℚ) := by
  obtain ⟨_, _, hgap, _⟩ := animate_gap zoomingRenderer zoomingRenderer_ready 2
  rw [zoomingRenderer_scales.1, zoomingRenderer_scales.2] at hgap
  have e : (EarthRenderer.animate^[2] zoomingRenderer).currentScale =
      2.8 + 0.9 ^ 2 * (1 - 2.8) := by
    rw [← hgap]; ring
  rw [e]
  norm_num

/-- With the stand-in `Math` the last particle samples row 512 and reads at or beyond the
end of the image buffer. -/
theorem last_particle_out_of_buffer_witness :
    particlePy toyMath 40000 39999 = 512 ∧
    imageDataLength ≤ particleIndex toyMath 40000 39999 := by
  obtain ⟨_, _, hpy, _, hidx⟩ :=
    last_particle_out_of_buffer toyMath (by norm_num [toyMath])
      (by norm_num [toyMath]) (by intro z x; norm_num [toyMath])
  exact ⟨hpy, hidx⟩

/-- For the two-finger hands at `(0, 0)` and `(3/10, 4/10)` the zoom calls of the frame are
the same under both labellings. -/
theorem calculateHandDistance_symm_shift_witness :
    (onResults Rat.sqrt (setupGestureCallbacks HandGestureDetector.new)
        (frameOf [("Right", twoHand), ("Left", twoHandFar)])).map
        (fun out => out.2.filter Call.isZoom) =
      (onResults Rat.sqrt (setupGestureCallbacks HandGestureDetector.new)
        (frameOf [("Left", twoHand), ("Right", twoHandFar)])).map
        (fun out => out.2.filter Call.isZoom) :=
  (calculateHandDistance_symm_shift Rat.sqrt (setupGestureCallbacks HandGestureDetector.new)
    twoHand twoHandFar ⟨0, 0⟩).2.2 rfl rfl

end LastWitnesses

/-! ## The classifier: the receiver -/

section ReceiverLemmas

variable {α : Type} [LinearOrderedField α]

theorem detectHandNumber_receiver (self : HandGestureDetector) (landmarks : Hand α)
    (isRightHand : Bool) :
    self.detectHandNumber landmarks isRightHand =
      (detectHandNumber landmarks isRightHand).map (fun n => (self, n)) := by
  unfold HandGestureDetector.detectHandNumber detectHandNumber
  cases landmarks[thumbTip]? with
  | none => rfl
  | some tTip =>
    cases landmarks[thumbBase]? with
    | none => rfl
    | some tBase =>
      cases pushFingers landmarks [0, 1, 2, 3] with
      | none => rfl
      | some fs => rfl

/-- C19: `detectHandNumber` is deterministic and pure. For every landmark array, any two
detector states and any two values of `isRightHand`: the two calls return the same value (or
both throw), that value is the one `onResults` uses, and a call that returns leaves the
detector exactly as it was; on a hand of 21 landmarks both calls return, with the same
digit and each detector unchanged, and a second call on the detector the first one left
returns the same digit again. -/
theorem detectHandNumber_pure (self other : HandGestureDetector) (landmarks : Hand α)
    (flag1 flag2 : Bool) :
    (self.detectHandNumber landmarks flag1).map Prod.snd =
      (other.detectHandNumber landmarks flag2).map Prod.snd ∧
    (self.detectHandNumber landmarks flag1).map Prod.snd = detectHandNumber landmarks flag2 ∧
    (∀ out, self.detectHandNumber landmarks flag1 = some out → out.1 = self) ∧
    (landmarks.length = 21 → ∃ n,
      self.detectHandNumber landmarks flag1 = some (self, n) ∧
      other.detectHandNumber landmarks flag2 = some (other, n) ∧
      (self.detectHandNumber landmarks flag1).bind
        (fun out => out.1.detectHandNumber landmarks flag2) = some (self, n)) := by
  have hflag : detectHandNumber landmarks flag1 = detectHandNumber landmarks flag2 := rfl
  refine ⟨?_, ?_, ?_, ?_⟩
  · rw [detectHandNumber_receiver, detectHandNumber_receiver, hflag]
    cases detectHandNumber landmarks flag2 <;> rfl
  · rw [detectHandNumber_receiver, hflag]
    cases detectHandNumber landmarks flag2 <;> rfl
  · intro out h
    rw [detectHandNumber_receiver] at h
    cases hd : detectHandNumber landmarks flag1 with
    | none => rw [hd] at h; cases h
    | some n =>
      rw [hd] at h
      cases h
      rfl
  · intro hlen
    refine ⟨digit landmarks, ?_, ?_, ?_⟩
    · rw [detectHandNumber_receiver, detectHandNumber_eq landmarks flag1 hlen]; rfl
    · rw [detectHandNumber_receiver, detectHandNumber_eq landmarks flag2 hlen]; rfl
    · rw [detectHandNumber_receiver, detectHandNumber_eq landmarks flag1 hlen]
      simp only [Option.map_some', Option.some_bind]
      rw [detectHandNumber_receiver, detectHandNumber_eq landmarks flag2 hlen]; rfl

end ReceiverLemmas

/-! ## The classifier: mirroring and rounding -/

theorem roundEven_eq (q : ℚ) (m : ℕ) (h0 : 0 ≤ q) (h : |q - m| < 1/2) : roundEven q = m := by
  rw [abs_lt] at h
  obtain ⟨h1, h2⟩ := h
  unfold roundEven
  rcases lt_or_le q (m : ℚ) with hlt | hge
  · have hm : 1 ≤ m := by
      rcases Nat.eq_zero_or_pos m with h0m | hpos
      · subst h0m; simp at hlt; linarith
      · exact hpos
    have hc : ((m - 1 : ℕ) : ℚ) = (m : ℚ) - 1 := by
      rw [Nat.cast_sub hm]; simp
    have hf : Nat.floor q = m - 1 := by
      rw [Nat.floor_eq_iff h0, hc]
      constructor <;> linarith
    rw [hf, hc]
    rw [if_neg (by linarith), if_pos (by linarith)]
    omega
  · have hf : Nat.floor q = m := by
      rw [Nat.floor_eq_iff h0]
      constructor <;> linarith
    rw [hf, if_pos (by linarith)]

theorem log_eq (q : ℚ) (e : ℤ) (h1 : (2 : ℚ) ^ e ≤ q) (h2 : q < (2 : ℚ) ^ (e + 1)) :
    Int.log 2 q = e := by
  have hq : 0 < q := lt_of_lt_of_le (by positivity) h1
  have hb : 1 < 2 := by norm_num
  have hlt : Int.log 2 q < e + 1 :=
    (Int.lt_zpow_iff_log_lt hb hq).mp (by exact_mod_cast h2)
  have hle : e ≤ Int.log 2 q :=
    (Int.zpow_le_iff_le_log hb hq).mp (by exact_mod_cast h1)
  omega

theorem roundDoublePos_eq (q : ℚ) (e : ℤ) (m : ℕ) (h1 : (2 : ℚ) ^ e ≤ q)
    (h2 : q < (2 : ℚ) ^ (e + 1)) (h : |q / 2 ^ (e - 52) - m| < 1/2) :
    roundDoublePos q = m * 2 ^ (e - 52) := by
  have hq : 0 < q := lt_of_lt_of_le (by positivity) h1
  unfold roundDoublePos
  rw [log_eq q e h1 h2, roundEven_eq _ m (by positivity) h]

theorem roundDouble_neg (q : ℚ) : roundDouble (-q) = -roundDouble q := by
  unfold roundDouble
  rcases lt_trichotomy q 0 with h | h | h
  · have a1 : -q ≠ 0 := by linarith
    have a2 : 0 < -q := by linarith
    have a3 : q ≠ 0 := ne_of_lt h
    have a4 : ¬ 0 < q := by linarith
    rw [if_neg a1, if_pos a2, if_neg a3, if_neg a4, neg_neg]
  · subst h; simp
  · have a1 : -q ≠ 0 := by linarith
    have a2 : ¬ 0 < -q := by linarith
    have a3 : q ≠ 0 := ne_of_gt h
    rw [if_neg a1, if_neg a2, if_neg a3, if_pos h, neg_neg]

theorem roundDouble_eq (q : ℚ) (e : ℤ) (m : ℕ) (h1 : (2 : ℚ) ^ e ≤ q)
    (h2 : q < (2 : ℚ) ^ (e + 1)) (h : |q / 2 ^ (e - 52) - m| < 1/2) :
    roundDouble q = m * 2 ^ (e - 52) := by
  have hq : 0 < q := lt_of_lt_of_le (by positivity) h1
  unfold roundDouble
  rw [if_neg (ne_of_gt hq), if_pos hq, roundDoublePos_eq q e m h1 h2 h]

/-- The literal `0.04` denotes the double `5764607523034235 / 2 ^ 57`. -/
theorem roundDouble_literal_thumb : roundDouble (0.04 : ℚ) = 5764607523034235 / 2 ^ 57 := by
  rw [roundDouble_eq _ (-5) 5764607523034235 (by norm_num) (by norm_num)
      (by rw [abs_lt]; constructor <;> norm_num)]
  norm_num

/-- The literal `0.02` denotes the double `5764607523034235 / 2 ^ 58`. -/
theorem roundDouble_literal_finger : roundDouble (0.02 : ℚ) = 5764607523034235 / 2 ^ 58 := by
  rw [roundDouble_eq _ (-6) 5764607523034235 (by norm_num) (by norm_num)
      (by rw [abs_lt]; constructor <;> norm_num)]
  norm_num

/-- The double `5764607523034235 / 2 ^ 57` is a double: rounding leaves it alone. -/
theorem roundDouble_thumb : roundDouble (5764607523034235 / 2 ^ 57) = 5764607523034235 / 2 ^ 57 := by
  rw [roundDouble_eq _ (-5) 5764607523034235 (by norm_num) (by norm_num)
      (by rw [abs_lt]; constructor <;> norm_num)]
  norm_num

/-- The threshold `0.5 - 0.02` of the finger test, in doubles. -/
theorem roundDouble_finger_threshold :
    roundDouble (1/2 - 5764607523034235 / 2 ^ 58) = 8646911284551352 / 2 ^ 54 := by
  rw [roundDouble_eq _ (-2) 8646911284551352 (by norm_num) (by norm_num)
      (by rw [abs_lt]; constructor <;> norm_num)]
  norm_num

theorem roundDouble_one : roundDouble 1 = 1 := by
  rw [roundDouble_eq _ 0 (2 ^ 52) (by norm_num) (by norm_num)
      (by rw [abs_lt]; constructor <;> norm_num)]
  norm_num

/-- The mirrored thumb tip `1 - 0.04` in doubles: the double of `0.96`. -/
theorem roundDouble_mirror_thumb :
    roundDouble (1 - 5764607523034235 / 2 ^ 57) = 8646911284551352 / 2 ^ 53 := by
  rw [roundDouble_eq _ (-1) 8646911284551352 (by norm_num) (by norm_num)
      (by rw [abs_lt]; constructor <;> norm_num)]
  norm_num

/-- The mirrored thumb displacement `0.96 - 1` in doubles: `-0.040000000000000036`. -/
theorem roundDouble_mirror_displacement :
    roundDouble (8646911284551352 / 2 ^ 53 - 1) = -(5764607523034240 / 2 ^ 57) := by
  have e : (8646911284551352 / 2 ^ 53 - 1 : ℚ) = -(5764607523034240 / 2 ^ 57) := by norm_num
  rw [e, roundDouble_neg, roundDouble_eq _ (-5) 5764607523034240 (by norm_num) (by norm_num)
      (by rw [abs_lt]; constructor <;> norm_num)]
  norm_num

theorem roundDouble_quarter : roundDouble (1/4) = 1/4 := by
  rw [roundDouble_eq _ (-2) (2 ^ 52) (by norm_num) (by norm_num)
      (by rw [abs_lt]; constructor <;> norm_num)]
  norm_num

theorem roundDouble_three_quarters : roundDouble (3/4) = 3/4 := by
  rw [roundDouble_eq _ (-1) 6755399441055744 (by norm_num) (by norm_num)
      (by rw [abs_lt]; constructor <;> norm_num)]
  norm_num

section RoundedLemmas

variable {α : Type} [LinearOrderedField α]

theorem fingerExtendedAtRounded_id (landmarks : Hand α) (i : Nat) :
    fingerExtendedAtRounded id landmarks i = fingerExtendedAt landmarks i := rfl

theorem pushFingersRounded_id (landmarks : Hand α) (is : List Nat) :
    pushFingersRounded id landmarks is = pushFingers landmarks is := by
  induction is with
  | nil => rfl
  | cons i rest ih => simp only [pushFingersRounded, pushFingers, fingerExtendedAtRounded_id, ih]

/-- Without rounding the classifier with explicit rounding is `detectHandNumber`. -/
theorem detectHandNumberRounded_id (landmarks : Hand α) (isRightHand : Bool) :
    detectHandNumberRounded id landmarks isRightHand =
      detectHandNumber landmarks isRightHand := by
  simp only [detectHandNumberRounded, detectHandNumber, pushFingersRounded_id, id]

theorem getElem?_mirrorHandRounded (fl : α → α) (landmarks : Hand α) (i : Nat) :
    (mirrorHandRounded fl landmarks)[i]? = (landmarks[i]?).map (mirrorRounded fl) := by
  simp [mirrorHandRounded]

theorem fingerExtendedAtRounded_mirror (fl : α → α) (landmarks : Hand α) (i : Nat) :
    fingerExtendedAtRounded fl (mirrorHandRounded fl landmarks) i =
      fingerExtendedAtRounded fl landmarks i := by
  unfold fingerExtendedAtRounded
  cases fingerTips[i]? with
  | none => rfl
  | some tipIdx =>
    cases fingerBases[i]? with
    | none => rfl
    | some baseIdx =>
      simp only [Option.bind_eq_bind, Option.some_bind, getElem?_mirrorHandRounded]
      cases landmarks[tipIdx]? with
      | none => rfl
      | some tip =>
        cases landmarks[baseIdx]? with
        | none => rfl
        | some base => rfl

theorem pushFingersRounded_mirror (fl : α → α) (landmarks : Hand α) (is : List Nat) :
    pushFingersRounded fl (mirrorHandRounded fl landmarks) is =
      pushFingersRounded fl landmarks is := by
  induction is with
  | nil => rfl
  | cons i rest ih => simp only [pushFingersRounded, fingerExtendedAtRounded_mirror, ih]

/-- C20, amended: mirroring a hand horizontally leaves the result of `detectHandNumber`
unchanged when the mirrored thumb coordinates `1 − x` of landmarks 4 and 2 are computed
without rounding error, for any rounding `fl` of the arithmetic that commutes with negation;
in particular it leaves it unchanged in exact arithmetic. -/
theorem detectHandNumber_mirror (fl : α → α) (landmarks : Hand α) (isRightHand : Bool)
    (hodd : ∀ q, fl (-q) = -fl q)
    (hexact : ∀ t b, landmarks[thumbTip]? = some t → landmarks[thumbBase]? = some b →
      fl (1 - t.x) = 1 - t.x ∧ fl (1 - b.x) = 1 - b.x) :
    detectHandNumberRounded fl (mirrorHandRounded fl landmarks) isRightHand =
      detectHandNumberRounded fl landmarks isRightHand ∧
    detectHandNumber (mirrorHand landmarks) isRightHand =
      detectHandNumber landmarks isRightHand := by
  constructor
  · unfold detectHandNumberRounded
    simp only [getElem?_mirrorHandRounded, pushFingersRounded_mirror]
    cases h4 : landmarks[thumbTip]? with
    | none => rfl
    | some t =>
      cases h2 : landmarks[thumbBase]? with
      | none => rfl
      | some b =>
        obtain ⟨e1, e2⟩ := hexact t b h4 h2
        have e : fl ((mirrorRounded fl t).x - (mirrorRounded fl b).x) = -fl (t.x - b.x) := by
          simp only [mirrorRounded, e1, e2]
          rw [← hodd]
          congr 1
          ring
        simp only [Option.map_some', Option.bind_eq_bind, Option.some_bind, e, abs_neg]
  · exact mirrorHand_detectHandNumber landmarks isRightHand

end RoundedLemmas

theorem detectHandNumberRounded_poseHand (fl : ℚ → ℚ) (w : Landmark ℚ) (t i m r p : ℚ)
    (isRightHand : Bool) :
    detectHandNumberRounded fl (poseHand w t i m r p) isRightHand =
      some (strictNumber (decide (abs (fl (t - 0)) > fl 0.04))
        [decide (i < fl (1/2 - fl 0.02)), decide (m < fl (1/2 - fl 0.02)),
         decide (r < fl (1/2 - fl 0.02)), decide (p < fl (1/2 - fl 0.02))]) := rfl

theorem detectHandNumberRounded_mirror_poseHand (fl : ℚ → ℚ) (w : Landmark ℚ)
    (t i m r p : ℚ) (isRightHand : Bool) :
    detectHandNumberRounded fl (mirrorHandRounded fl (poseHand w t i m r p)) isRightHand =
      some (strictNumber (decide (abs (fl (fl (1 - t) - fl (1 - 0))) > fl 0.04))
        [decide (i < fl (1/2 - fl 0.02)), decide (m < fl (1/2 - fl 0.02)),
         decide (r < fl (1/2 - fl 0.02)), decide (p < fl (1/2 - fl 0.02))]) := rfl

/-- In doubles the finger test of a tip at `y = 0` over a base at `y = 1/2` holds. -/
theorem finger_up_rounded :
    decide ((0 : ℚ) < roundDouble (1/2 - roundDouble 0.02)) = true := by
  rw [roundDouble_literal_finger, roundDouble_finger_threshold]
  simp

/-- C20, counterexample: in JS numbers, a hand with four fingers up, thumb base at `x = 0`
and thumb tip at `x = 0.04` is classified 4, and its mirror image is classified 5: the
mirrored displacement `0.96 − 1` is `−0.040000000000000036`, beyond the threshold. -/
theorem mirror_changes_digit :
    detectHandNumberRounded roundDouble thumbLiteralHand false = some 4 ∧
    detectHandNumberRounded roundDouble (mirrorHandRounded roundDouble thumbLiteralHand)
      false = some 5 := by
  constructor
  · rw [thumbLiteralHand, detectHandNumberRounded_poseHand, finger_up_rounded, sub_zero,
      roundDouble_thumb, roundDouble_literal_thumb, strictNumber_cases]
    simp
    exact (abs_of_pos (by norm_num)).le
  · rw [thumbLiteralHand, detectHandNumberRounded_mirror_poseHand, finger_up_rounded,
      sub_zero, roundDouble_mirror_thumb, roundDouble_one, roundDouble_mirror_displacement,
      roundDouble_literal_thumb, strictNumber_cases, abs_neg]
    simp
    norm_num [abs_of_pos]

/-- A thumb tip at `x = 1/4`: its mirror image `3/4` is a double, and both the hand and its
mirror image are classified 5 in JS numbers. -/
theorem detectHandNumber_mirror_witness :
    detectHandNumberRounded roundDouble (mirrorHandRounded roundDouble thumbQuarterHand)
        false = detectHandNumberRounded roundDouble thumbQuarterHand false ∧
    detectHandNumberRounded roundDouble thumbQuarterHand false = some 5 := by
  refine ⟨(detectHandNumber_mirror roundDouble thumbQuarterHand false roundDouble_neg ?_).1, ?_⟩
  · intro t b ht hb
    have et : t = ⟨1/4, 0⟩ := (Option.some.inj ht).symm
    have eb : b = ⟨0, 0⟩ := (Option.some.inj hb).symm
    subst et eb
    constructor
    · show roundDouble (1 - 1/4) = 1 - 1/4
      norm_num [roundDouble_three_quarters]
    · show roundDouble (1 - 0) = 1 - 0
      norm_num [roundDouble_one]
  · rw [thumbQuarterHand, detectHandNumberRounded_poseHand, finger_up_rounded, sub_zero,
      roundDouble_quarter, roundDouble_literal_thumb, strictNumber_cases]
    simp
    norm_num [abs_of_pos]

/-- Two detectors with different stored state and both values of the flag: the same digit,
and each detector is left as it was. -/
theorem detectHandNumber_pure_witness :
    HandGestureDetector.new.detectHandNumber twoHand false =
      some (HandGestureDetector.new, 2) ∧
    usedDetector.detectHandNumber twoHand true = some (usedDetector, 2) := by
  obtain ⟨n, h1, h2, _⟩ :=
    (detectHandNumber_pure HandGestureDetector.new usedDetector twoHand false true).2.2.2 rfl
  have hn : n = 2 := by
    have h := detectHandNumber_receiver HandGestureDetector.new twoHand false
    rw [h1, detectHandNumber_twoHand] at h
    exact (Prod.mk.inj (Option.some.inj h)).2
  subst hn
  exact ⟨h1, h2⟩

end Jarvis
